import Mathlib

/-!
# UnrealGDK receiver: critical sections, the entity lifecycle, updates, remote calls and
reference resolution

A shallow embedding of `USpatialReceiver` (SpatialReceiver.cpp) and of
`USpatialStaticComponentView` (SpatialStaticComponentView.cpp).  The receiver is a
record of its member variables; each member function is a state transformer whose
outcome is either a normal return or a fatal stop (a failed `check`, or a null
pointer being dereferenced) together with the state at that point.  Calls into
collaborators (world, net driver, package map, channels) are recorded in a trace.
The view is a record of its two maps and its member functions are pure functions on it.
-/

namespace SpatialGDK

/-! ## Outcomes and sequencing -/

/-- Outcome of running a member function on a state: a normal return with a value, or
a fatal stop carrying the state at the point where the process stopped. -/
inductive Outcome (σ α : Type) where
  | ok (a : α) (s : σ)
  | fatal (s : σ)
  deriving Repr, DecidableEq

/-- State transformers with a fatal exit. -/
def Exec (σ α : Type) : Type := σ → Outcome σ α

namespace Exec

/-- Normal return. -/
def ret {σ α : Type} (a : α) : Exec σ α := fun s => Outcome.ok a s

/-- Sequencing: a fatal stop aborts everything after it. -/
def andThen {σ α β : Type} (m : Exec σ α) (f : α → Exec σ β) : Exec σ β := fun s =>
  match m s with
  | Outcome.ok a s1 => f a s1
  | Outcome.fatal s1 => Outcome.fatal s1

/-- The macro `check(cond)`: a false condition stops the process. -/
def check {σ : Type} (cond : Bool) : Exec σ Unit := fun s =>
  if cond then Outcome.ok () s else Outcome.fatal s

/-- Dereferencing a pointer: a null pointer stops the process. -/
def deref {σ α : Type} (p : Option α) : Exec σ α := fun s =>
  match p with
  | some a => Outcome.ok a s
  | none => Outcome.fatal s

/-- Read the state. -/
def get {σ : Type} : Exec σ σ := fun s => Outcome.ok s s

/-- Update the state. -/
def modify {σ : Type} (f : σ → σ) : Exec σ Unit := fun s => Outcome.ok () (f s)

/-- An `if` statement without an `else` branch. -/
def when {σ : Type} (cond : Bool) (m : Exec σ Unit) : Exec σ Unit :=
  if cond then m else ret ()

/-- A range-based `for` loop over an array. -/
def forEach {σ α : Type} (f : α → Exec σ Unit) : List α → Exec σ Unit
  | [] => ret ()
  | x :: xs => andThen (f x) (fun _ => forEach f xs)

end Exec

instance (σ : Type) : Monad (Exec σ) where
  pure := Exec.ret
  bind := Exec.andThen

/-! ## Worker SDK and engine data -/

/-- The 64-bit entity identifier `Worker_EntityId`. -/
abbrev Worker_EntityId := Int

/-- The 32-bit component identifier `Worker_ComponentId`. -/
abbrev Worker_ComponentId := Nat

/-- Identity of an engine object (`UObject*`). -/
abbrev UObject := Nat

/-- Position coordinates carried by the position component; never computed with here. -/
structure Coordinates where
  X : Int
  Y : Int
  Z : Int
  deriving Repr, DecidableEq

/-- The wire data `Worker_ComponentData`: a component id and an undecoded payload. -/
structure Worker_ComponentData where
  component_id : Worker_ComponentId
  schema_type : List Nat
  deriving Repr, DecidableEq

/-- The operation `Worker_AddComponentOp`. -/
structure Worker_AddComponentOp where
  entity_id : Worker_EntityId
  data : Worker_ComponentData
  deriving Repr, DecidableEq

/-- The part of a `UClass` that the receiver inspects. -/
structure UClass where
  Name : String
  bChildOfActor : Bool
  bChildOfActorComponent : Bool
  bChildOfPlayerController : Bool
  deriving Repr, DecidableEq

/-- The part of an `AActor` that the receiver inspects. -/
structure AActor where
  Object : UObject
  Class : UClass
  bPendingKill : Bool
  bIsPlayerController : Bool
  bIsPawn : Bool
  bControllerHasAuthority : Bool
  deriving Repr, DecidableEq

/-- An actor channel; `Actor` is the member set by `SetChannelActor`. -/
structure USpatialActorChannel where
  Id : Nat
  Actor : Option AActor
  deriving Repr, DecidableEq

/-- A net connection as the receiver uses it: its player controller, whether its
package map casts to `USpatialPackageMapClient`, and the channel that
`Cast<USpatialActorChannel>(CreateChannel(...))` yields (none for a null result). -/
structure USpatialNetConnection where
  Id : Nat
  PlayerController : AActor
  bSpatialPackageMap : Bool
  NewChannel : Option USpatialActorChannel
  deriving Repr, DecidableEq

/-- An object reference `UnrealObjectRef`: entity and sub-object offset. -/
structure UnrealObjectRef where
  Entity : Worker_EntityId
  Offset : Nat
  deriving Repr, DecidableEq

/-- The part of a `UProperty` that reference resolution inspects. -/
structure UProperty where
  Id : Nat
  bArrayProperty : Bool
  bObjectPropertyBase : Bool
  ElementSize : Int
  deriving Repr, DecidableEq

/-- The struct `FObjectReferences`; `Array` is the nested map of an array property
(`TUniquePtr<FObjectReferencesMap>`), keyed by offset. -/
inductive FObjectReferences where
  | mk (UnresolvedRefs : List UnrealObjectRef) (bSingleProp : Bool)
      (Array : Option (List (Int × FObjectReferences))) (ParentIndex : Nat)
      (Property : UProperty)

/-- The map `FObjectReferencesMap`: absolute offset to outstanding references. -/
abbrev FObjectReferencesMap := List (Int × FObjectReferences)

/-- The pair `FChannelObjectPair`, by identity: channel id and object. -/
abbrev FChannelObjectPair := Nat × UObject

/-- The decoded `UnrealMetadata` component. -/
structure UnrealMetadata where
  StaticPath : String
  OwnerWorkerId : String
  SubobjectNameToOffset : List (String × Nat)
  deriving Repr, DecidableEq

/-- The buffered component snapshot behind `std::shared_ptr<Component>`: one variant
per class that `OnAddComponent` constructs; only `DynamicComponent` has
`bIsDynamic` set. -/
inductive Component where
  | EntityAcl (Data : Worker_ComponentData)
  | Metadata (EntityType : String)
  | Position (Coords : Coordinates)
  | Persistence (Data : Worker_ComponentData)
  | UnrealMetadata (Value : UnrealMetadata)
  | DynamicComponent (Data : Worker_ComponentData)
  deriving Repr, DecidableEq

/-- The member `Component::bIsDynamic`. -/
def Component.bIsDynamic : Component → Bool
  | Component.DynamicComponent _ => true
  | _ => false

/-- The struct `PendingAddComponentWrapper`; `Data` is a shared pointer and may be null. -/
structure PendingAddComponentWrapper where
  EntityId : Worker_EntityId
  ComponentId : Worker_ComponentId
  Data : Option Component
  deriving Repr, DecidableEq

/-- The enumeration `ERPCType`, in the order its enumerators are declared: the loop of
`OnCommandRequest` runs from `RPC_Client` to `RPC_CrossServer`, and `RPC_Count` is last. -/
inductive ERPCType where
  | RPC_Client
  | RPC_Server
  | RPC_CrossServer
  | RPC_NetMulticast
  | RPC_Count
  deriving Repr, DecidableEq

/-- A remote function (`UFunction*`), by identity. -/
structure UFunction where
  Id : Nat
  deriving Repr, DecidableEq

/-- The part of `FClassInfo` used by the receiver: the component ids of the class, its
component classes, and its remote functions by RPC type. -/
structure FClassInfo where
  SingleClientComponent : Worker_ComponentId
  MultiClientComponent : Worker_ComponentId
  HandoverComponent : Worker_ComponentId
  ComponentClasses : List UClass
  RPCComponents : ERPCType → Worker_ComponentId
  RPCs : List (ERPCType × List UFunction)

/-- Modelled from the spec: the identity registry `UEntityRegistry` (EntityRegistry.h is
not part of the sources), "an identity registry mapping EntityId to LocalObjectHandle
(create/lookup/remove)".  This is the table of bindings, newest first. -/
structure UEntityRegistry where
  EntityIdToActor : List (Worker_EntityId × AActor)
  deriving Repr, DecidableEq

/-- Modelled from the spec: registry lookup, none when the entity has no binding. -/
def UEntityRegistry.GetActorFromEntityId (r : UEntityRegistry) (E : Worker_EntityId) :
    Option AActor :=
  (r.EntityIdToActor.find? (fun p => p.1 == E)).map (fun p => p.2)

/-- Modelled from the spec: registry removal drops every binding of the entity. -/
def UEntityRegistry.RemoveFromRegistry (r : UEntityRegistry) (E : Worker_EntityId) :
    UEntityRegistry :=
  { EntityIdToActor := r.EntityIdToActor.filter (fun p => !(p.1 == E)) }

/-- Modelled from the spec: registry creation binds the entity to the actor, replacing
an earlier binding of the same entity. -/
def UEntityRegistry.AddToRegistry (r : UEntityRegistry) (E : Worker_EntityId) (A : AActor) :
    UEntityRegistry :=
  { EntityIdToActor := (E, A) :: (r.RemoveFromRegistry E).EntityIdToActor }

/-! ## Calls into collaborators -/

/-- A call made by the receiver, in the order made.  `CreateActor` and `RemoveActor`
mark the entry of the receiver's own two lifecycle functions, `ResolveObjectReferences`
the call of that function made by `ResolveIncomingOperations`; the others are calls
into the engine, the net driver, the registry, the package map, the reader, the sender,
the target of a remote call (`ProcessEvent`), the two ways a command response is sent,
and the writes and notifications of reference resolution. -/
inductive Event where
  | CreateActor (EntityId : Worker_EntityId)
  | RemoveActor (EntityId : Worker_EntityId)
  | ResolveEntityActor (Actor : AActor) (EntityId : Worker_EntityId)
      (SubobjectNameToOffset : List (String × Nat))
  | AcceptNewPlayer (URL : String)
  | SpawnActorAbsolute (Class : UClass) (Coords : Coordinates) (bDeferred : Bool)
  | AddToRegistry (EntityId : Worker_EntityId) (Actor : AActor)
  | CreateChannel (Connection : Nat)
  | FinishSpawning (Actor : AActor) (Coords : Coordinates)
  | SetChannelActor (Channel : Nat) (Actor : AActor)
  | ApplyComponentData (EntityId : Worker_EntityId) (Data : Worker_ComponentData)
      (Channel : Nat)
  | ReaderApplyComponentData (Data : Worker_ComponentData) (Target : UObject) (Channel : Nat)
  | OnActorChannelOpen (Actor : AActor) (bPlayerIndexBunch : Bool)
  | PostNetInit (Actor : AActor)
  | ClearPlayer (Actor : AActor)
  | ClearPawnController (Actor : AActor)
  | DestroyActor (Actor : AActor)
  | RemoveFromRegistry (EntityId : Worker_EntityId)
  | RemoveEntityActor (EntityId : Worker_EntityId)
  | ReaderApplyComponentUpdate (component_id : Worker_ComponentId) (schema_type : List Nat)
      (Target : UObject) (Channel : Nat)
  | ProcessEvent (Target : UObject) (Function : UFunction) (Parms : List Nat)
  | SendCommandResponse (request_id : Nat) (component_id : Worker_ComponentId)
      (CommandIndex : Nat)
  | Worker_Connection_SendCommandResponse (request_id : Nat)
      (component_id : Worker_ComponentId) (CommandIndex : Nat)
  | ResolveOutgoingOperations (Object : UObject)
  | ResolveOutgoingRPCs (Object : UObject)
  | ResolveObjectReferences (Channel : Nat) (ReplicatedObject : UObject)
  | CopySingleValue (Property : UProperty) (Dest : Int) (Src : Int)
  | PreNetReceive (Object : UObject)
  | SetObjectPropertyValue (Property : UProperty) (Address : Int) (Object : Option UObject)
  | PostReceiveSpatialUpdate (Channel : Nat) (Object : UObject) (RepNotifies : List UProperty)
  deriving Repr, DecidableEq

/-! ## The receiver and its environment -/

/-- What the receiver is given from outside this file: the component-id constants
(SpatialConstants.h, the standard-library schema headers), the decoders run by the
component constructors, and the answers of the engine, the net driver and the
typebinding manager. -/
structure Env where
  ENTITY_ACL_COMPONENT_ID : Worker_ComponentId
  METADATA_COMPONENT_ID : Worker_ComponentId
  POSITION_COMPONENT_ID : Worker_ComponentId
  PERSISTENCE_COMPONENT_ID : Worker_ComponentId
  UNREAL_METADATA_COMPONENT_ID : Worker_ComponentId
  /-- The constructor `Metadata(Op.data)`: the decoded entity type. -/
  MetadataOf : Worker_ComponentData → String
  /-- The constructor `Position(Op.data)`: the decoded coordinates. -/
  PositionOf : Worker_ComponentData → Coordinates
  /-- The constructor `UnrealMetadata(Op.data)`. -/
  UnrealMetadataOf : Worker_ComponentData → UnrealMetadata
  /-- The lookup `FindObject<UClass>(ANY_PACKAGE, Name)`. -/
  FindObjectClass : String → Option UClass
  /-- The lookup `FindObject<AActor>(World, Path)`. -/
  FindObjectActor : String → Option AActor
  /-- The call `World->SpawnActorAbsolute(Class, Transform, SpawnInfo)`, by class, position
  and `bDeferConstruction`. -/
  SpawnActorAbsolute : UClass → Coordinates → Bool → Option AActor
  /-- The result of `World->DestroyActor(Actor, true)`. -/
  DestroyActor : AActor → Bool
  /-- The answer of `NetDriver->IsServer()`. -/
  IsServer : Bool
  /-- The call `NetDriver->AcceptNewPlayer(URL, true)`. -/
  AcceptNewPlayer : String → Option USpatialNetConnection
  /-- The answer of `NetDriver->GetSpatialOSNetConnection()`. -/
  SpatialOSNetConnection : Option USpatialNetConnection
  /-- Whether `NetDriver->ServerConnection` is set. -/
  ServerConnection : Bool
  /-- The string `FURL().ToString()`. -/
  DefaultURL : String
  /-- The lookup `TypebindingManager->FindClassByComponentId`. -/
  FindClassByComponentId : Worker_ComponentId → Option UClass
  /-- The lookup `TypebindingManager->FindClassInfoByClass`. -/
  FindClassInfoByClass : UClass → Option FClassInfo
  /-- The test `Actor->IsA(Class)`. -/
  IsA : AActor → UClass → Bool
  /-- The call `Actor->GetComponentsByClass(Class)`. -/
  GetComponentsByClass : AActor → UClass → List UObject
  /-- The effect of `ComponentReader::ApplyComponentData` on the reference map it is
  given, and the set of unresolved references it reports. -/
  ReaderApplyComponentData : Worker_ComponentData → UObject → USpatialActorChannel →
    FObjectReferencesMap → FObjectReferencesMap × List UnrealObjectRef

/-- The member variables of `USpatialReceiver` used by the lifecycle code, the entity
registry it reaches through the net driver, and the trace of calls made so far.  The three
pending buffers are arrays in arrival order (`Emplace` appends, `Empty` clears), and so is
`ResolvedObjectQueue`, the queue of resolution notifications (`Add` appends).
`World` and `NetDriver` say whether those pointers are set; `EntityRegistry` is none when
`NetDriver->GetEntityRegistry()` is null. -/
structure USpatialReceiver where
  bInCriticalSection : Bool
  PendingAddEntities : List Worker_EntityId
  PendingAddComponents : List PendingAddComponentWrapper
  PendingRemoveEntities : List Worker_EntityId
  UnresolvedRefsMap : List (FChannelObjectPair × FObjectReferencesMap)
  IncomingRefsMap : List (UnrealObjectRef × List FChannelObjectPair)
  ResolvedObjectQueue : List (UObject × UnrealObjectRef)
  World : Bool
  NetDriver : Bool
  EntityRegistry : Option UEntityRegistry
  Trace : List Event

/-- Operations of the receiver. -/
abbrev RExec (α : Type) : Type := Exec USpatialReceiver α

/-- Record a call in the trace. -/
def emit (e : Event) : RExec Unit :=
  Exec.modify (fun s => { s with Trace := s.Trace ++ [e] })

/-- The registry binding of an entity in a receiver state (none also when there is no
registry). -/
def USpatialReceiver.GetActorFromEntityId (s : USpatialReceiver) (E : Worker_EntityId) :
    Option AActor :=
  match s.EntityRegistry with
  | some r => r.GetActorFromEntityId E
  | none => none

/-! ## Generic containers -/

/-- The lookup `TMap::Find`. -/
def TMap.Find {κ ν : Type} [DecidableEq κ] (m : List (κ × ν)) (k : κ) : Option ν :=
  (m.find? (fun p => decide (p.1 = k))).map (fun p => p.2)

/-- The removal `TMap::Remove`. -/
def TMap.Remove {κ ν : Type} [DecidableEq κ] (m : List (κ × ν)) (k : κ) : List (κ × ν) :=
  m.filter (fun p => !decide (p.1 = k))

/-- Writing through the reference returned by `TMap::FindOrAdd`: the value of an existing
key is replaced in place, a new key is added at the end. -/
def TMap.Set {κ ν : Type} [DecidableEq κ] : List (κ × ν) → κ → ν → List (κ × ν)
  | [], k, v => [(k, v)]
  | p :: m, k, v => if p.1 = k then (k, v) :: m else p :: TMap.Set m k v

/-- The insertion `TSet::Add`: an element already present is not added again. -/
def TSet.Add {κ : Type} [DecidableEq κ] (xs : List κ) (x : κ) : List κ :=
  if x ∈ xs then xs else xs ++ [x]

/-! ## Critical sections and buffering (SpatialReceiver.cpp, lines 21 to 139) -/

/-- The template `GetComponentData<T>`: the data pointer of the first buffered entry with
this entity id and with `T::ComponentId`, cast to `T`.  `cast` is the `static_cast<T*>`;
it is given a null result where the stored object is of another class, which
`OnAddComponent` never produces. -/
def GetComponentData {T : Type} (ComponentId : Worker_ComponentId) (cast : Component → Option T)
    (Receiver : USpatialReceiver) (EntityId : Worker_EntityId) : Option T :=
  match Receiver.PendingAddComponents.find?
      (fun w => decide (w.EntityId = EntityId) && decide (w.ComponentId = ComponentId)) with
  | some w => w.Data.bind cast
  | none => none

/-- The cast to `Position`. -/
def Component.asPosition : Component → Option Coordinates
  | Component.Position c => some c
  | _ => none

/-- The cast to `Metadata`. -/
def Component.asMetadata : Component → Option String
  | Component.Metadata t => some t
  | _ => none

/-- The cast to `UnrealMetadata`. -/
def Component.asUnrealMetadata : Component → Option SpatialGDK.UnrealMetadata
  | Component.UnrealMetadata u => some u
  | _ => none

/-- The function `USpatialReceiver::EnterCriticalSection`. -/
def EnterCriticalSection : RExec Unit := do
  let s ← Exec.get
  Exec.check (!s.bInCriticalSection)
  Exec.modify (fun s => { s with bInCriticalSection := true })

/-- The function `USpatialReceiver::OnAddEntity`. -/
def OnAddEntity (entity_id : Worker_EntityId) : RExec Unit := do
  let s ← Exec.get
  Exec.check s.bInCriticalSection
  Exec.modify (fun s => { s with PendingAddEntities := s.PendingAddEntities ++ [entity_id] })

/-- The `switch` of `OnAddComponent`: the component object built for a component id. -/
def MakeComponent (env : Env) (data : Worker_ComponentData) : Component :=
  if data.component_id = env.ENTITY_ACL_COMPONENT_ID then Component.EntityAcl data
  else if data.component_id = env.METADATA_COMPONENT_ID then
    Component.Metadata (env.MetadataOf data)
  else if data.component_id = env.POSITION_COMPONENT_ID then
    Component.Position (env.PositionOf data)
  else if data.component_id = env.PERSISTENCE_COMPONENT_ID then Component.Persistence data
  else if data.component_id = env.UNREAL_METADATA_COMPONENT_ID then
    Component.UnrealMetadata (env.UnrealMetadataOf data)
  else Component.DynamicComponent data

/-- The function `USpatialReceiver::OnAddComponent`. -/
def OnAddComponent (env : Env) (Op : Worker_AddComponentOp) : RExec Unit := do
  let s ← Exec.get
  Exec.check s.bInCriticalSection
  let Data := MakeComponent env Op.data
  Exec.modify (fun s => { s with
    PendingAddComponents := s.PendingAddComponents ++
      [{ EntityId := Op.entity_id, ComponentId := Op.data.component_id, Data := some Data }] })

/-! ## Applying buffered component data (lines 393 to 424, 629 to 654, 709 to 721) -/

/-- The function `USpatialReceiver::GetTargetObjectFromChannelAndClass`.  Its closing
`check(TargetObject)` cannot fail: both branches yield an object that exists. -/
def GetTargetObjectFromChannelAndClass (env : Env) (Channel : USpatialActorChannel)
    (Class : UClass) : RExec UObject := do
  if Class.bChildOfActor then
    let Actor ← Exec.deref Channel.Actor
    Exec.check (env.IsA Actor Class)
    pure Actor.Object
  else if Class.bChildOfActorComponent then
    let Actor ← Exec.deref Channel.Actor
    let ActorInfo ← Exec.deref (env.FindClassInfoByClass Actor.Class)
    Exec.check (decide (Class ∈ ActorInfo.ComponentClasses))
    let Components := env.GetComponentsByClass Actor Class
    Exec.check (decide (Components.length = 1))
    Exec.deref Components.head?
  else
    Exec.deref none

/-- The function `USpatialReceiver::QueueIncomingRepUpdates`. -/
def QueueIncomingRepUpdates (ChannelObjectPair : FChannelObjectPair)
    (ObjectReferencesMap : FObjectReferencesMap) (UnresolvedRefs : List UnrealObjectRef) :
    RExec Unit := do
  Exec.forEach (fun UnresolvedRef => Exec.modify (fun s => { s with
    IncomingRefsMap := TMap.Set s.IncomingRefsMap UnresolvedRef
      (TSet.Add ((TMap.Find s.IncomingRefsMap UnresolvedRef).getD []) ChannelObjectPair) }))
    UnresolvedRefs
  if ObjectReferencesMap.length = 0 then
    Exec.modify (fun s => { s with
      UnresolvedRefsMap := TMap.Remove s.UnresolvedRefsMap ChannelObjectPair })
  else
    pure ()

/-- The function `USpatialReceiver::ApplyComponentData`.  The local `bAutonomousProxy` is
computed and never used, so it is left out. -/
def ApplyComponentData (env : Env) (EntityId : Worker_EntityId) (Data : Worker_ComponentData)
    (Channel : USpatialActorChannel) : RExec Unit := do
  emit (Event.ApplyComponentData EntityId Data Channel.Id)
  let Class ← Exec.deref (env.FindClassByComponentId Data.component_id)
  let TargetObject ← GetTargetObjectFromChannelAndClass env Channel Class
  let ChannelObjectPair : FChannelObjectPair := (Channel.Id, TargetObject)
  let Info ← Exec.deref (env.FindClassInfoByClass Class)
  if Data.component_id = Info.SingleClientComponent ∨
      Data.component_id = Info.MultiClientComponent then
    let s ← Exec.get
    let Found := (TMap.Find s.UnresolvedRefsMap ChannelObjectPair).getD []
    emit (Event.ReaderApplyComponentData Data TargetObject Channel.Id)
    let Read := env.ReaderApplyComponentData Data TargetObject Channel Found
    Exec.modify (fun s => { s with
      UnresolvedRefsMap := TMap.Set s.UnresolvedRefsMap ChannelObjectPair Read.1 })
    QueueIncomingRepUpdates ChannelObjectPair Read.1 Read.2
  else if Data.component_id = Info.HandoverComponent then
    pure ()
  else
    pure ()

/-! ## Materialisation and destruction (lines 143 to 391) -/

/-- The function `USpatialReceiver::GetNativeEntityClass`. -/
def GetNativeEntityClass (env : Env) (EntityType : String) : Option UClass :=
  env.FindObjectClass EntityType

/-- The function `USpatialReceiver::SpawnNewEntity`. -/
def SpawnNewEntity (env : Env) (Coords : Coordinates) (ActorClass : Option UClass)
    (bDeferred : Bool) : RExec (Option AActor) := do
  match ActorClass with
  | some Class =>
    emit (Event.SpawnActorAbsolute Class Coords bDeferred)
    let NewActor ← Exec.deref (env.SpawnActorAbsolute Class Coords bDeferred)
    pure (some NewActor)
  | none => pure none

/-- The loop at the end of `CreateActor`: every buffered entry of this entity that has
data and is dynamic is applied. -/
def ApplyPendingDynamicComponents (env : Env) (EntityId : Worker_EntityId)
    (Channel : USpatialActorChannel) : List PendingAddComponentWrapper → RExec Unit :=
  Exec.forEach (fun PendingAddComponent =>
    match PendingAddComponent.Data with
    | some (Component.DynamicComponent Data) =>
      if PendingAddComponent.EntityId = EntityId then
        ApplyComponentData env EntityId Data Channel
      else pure ()
    | _ => pure ())

/-- The function `USpatialReceiver::CreateActor`.  `Spawned` carries the locals `EntityActor`,
`Connection` and `bDoingDeferredSpawn` out of the two spawning branches.  In the branch for
a new entity the connection is dereferenced when its package map is read, before the
channel is created, and the cast package map when `ResolveEntityActor` is called on it. -/
def CreateActor (env : Env) (EntityId : Worker_EntityId) : RExec Unit := do
  emit (Event.CreateActor EntityId)
  let s ← Exec.get
  Exec.check s.World
  Exec.check s.NetDriver
  let _ ← Exec.deref s.EntityRegistry
  let PositionComponent := GetComponentData env.POSITION_COMPONENT_ID Component.asPosition s EntityId
  let MetadataComponent := GetComponentData env.METADATA_COMPONENT_ID Component.asMetadata s EntityId
  Exec.check (PositionComponent.isSome && MetadataComponent.isSome)
  let Coords ← Exec.deref PositionComponent
  let EntityType ← Exec.deref MetadataComponent
  match s.GetActorFromEntityId EntityId with
  | some EntityActor =>
    let UnrealMetadataComponent ← Exec.deref
      (GetComponentData env.UNREAL_METADATA_COMPONENT_ID Component.asUnrealMetadata s EntityId)
    let Connection ← Exec.deref env.SpatialOSNetConnection
    Exec.check Connection.bSpatialPackageMap
    emit (Event.ResolveEntityActor EntityActor EntityId
      UnrealMetadataComponent.SubobjectNameToOffset)
  | none =>
    match GetNativeEntityClass env EntityType with
    | none => pure ()
    | some ActorClass =>
      let UnrealMetadataComponent ← Exec.deref
        (GetComponentData env.UNREAL_METADATA_COMPONENT_ID Component.asUnrealMetadata s EntityId)
      let Spawned ←
        (if env.IsServer && ActorClass.bChildOfPlayerController then do
          Exec.check (!UnrealMetadataComponent.OwnerWorkerId.isEmpty)
          let URLString := env.DefaultURL ++ "?workerId=" ++ UnrealMetadataComponent.OwnerWorkerId
          emit (Event.AcceptNewPlayer URLString)
          let Connection ← Exec.deref (env.AcceptNewPlayer URLString)
          pure (Connection.PlayerController, some Connection, false)
        else do
          let Found ←
            (if UnrealMetadataComponent.StaticPath.isEmpty then do
              let NewActor ← SpawnNewEntity env Coords (some ActorClass) true
              pure (NewActor, true)
            else
              pure (env.FindObjectActor UnrealMetadataComponent.StaticPath, false))
          let EntityActor ← Exec.deref Found.1
          pure (EntityActor, env.SpatialOSNetConnection, Found.2))
      let EntityActor := Spawned.1
      let bDoingDeferredSpawn := Spawned.2.2
      Exec.modify (fun s => { s with
        EntityRegistry := s.EntityRegistry.map (fun r => r.AddToRegistry EntityId EntityActor) })
      emit (Event.AddToRegistry EntityId EntityActor)
      let Connection ← Exec.deref Spawned.2.1
      emit (Event.CreateChannel Connection.Id)
      let NewChannel ← Exec.deref Connection.NewChannel
      Exec.when bDoingDeferredSpawn (emit (Event.FinishSpawning EntityActor Coords))
      Exec.check Connection.bSpatialPackageMap
      emit (Event.ResolveEntityActor EntityActor EntityId
        UnrealMetadataComponent.SubobjectNameToOffset)
      emit (Event.SetChannelActor NewChannel.Id EntityActor)
      let Channel : USpatialActorChannel := { NewChannel with Actor := some EntityActor }
      let s1 ← Exec.get
      ApplyPendingDynamicComponents env EntityId Channel s1.PendingAddComponents
      if env.ServerConnection then
        emit (Event.OnActorChannelOpen EntityActor EntityActor.bIsPlayerController)
        emit (Event.PostNetInit EntityActor)
      else
        pure ()

/-- The function `USpatialReceiver::CleanupDeletedEntity`.  It dereferences the net driver,
the registry, the connection and the cast package map without a check. -/
def CleanupDeletedEntity (env : Env) (EntityId : Worker_EntityId) : RExec Unit := do
  let s ← Exec.get
  Exec.check s.NetDriver
  let _ ← Exec.deref s.EntityRegistry
  Exec.modify (fun s => { s with
    EntityRegistry := s.EntityRegistry.map (fun r => r.RemoveFromRegistry EntityId) })
  emit (Event.RemoveFromRegistry EntityId)
  let Connection ← Exec.deref env.SpatialOSNetConnection
  Exec.check Connection.bSpatialPackageMap
  emit (Event.RemoveEntityActor EntityId)

/-- The function `USpatialReceiver::RemoveActor`.  It dereferences the net driver, the
registry and the world without a check; a failed `World->DestroyActor` is only logged. -/
def RemoveActor (env : Env) (EntityId : Worker_EntityId) : RExec Unit := do
  emit (Event.RemoveActor EntityId)
  let s ← Exec.get
  Exec.check s.NetDriver
  let EntityRegistry ← Exec.deref s.EntityRegistry
  match EntityRegistry.GetActorFromEntityId EntityId with
  | none => CleanupDeletedEntity env EntityId
  | some Actor =>
    if Actor.bPendingKill then
      CleanupDeletedEntity env EntityId
    else
      Exec.when Actor.bIsPlayerController (emit (Event.ClearPlayer Actor))
      Exec.when (Actor.bIsPawn && Actor.bControllerHasAuthority)
        (emit (Event.ClearPawnController Actor))
      Exec.check s.World
      emit (Event.DestroyActor Actor)
      Exec.when (!env.DestroyActor Actor) (pure ())
      CleanupDeletedEntity env EntityId

/-- The function `USpatialReceiver::OnRemoveEntity`. -/
def OnRemoveEntity (env : Env) (entity_id : Worker_EntityId) : RExec Unit := do
  let s ← Exec.get
  if s.bInCriticalSection then
    Exec.modify (fun s => { s with PendingRemoveEntities := s.PendingRemoveEntities ++ [entity_id] })
  else
    RemoveActor env entity_id

/-- The function `USpatialReceiver::LeaveCriticalSection`. -/
def LeaveCriticalSection (env : Env) : RExec Unit := do
  let s ← Exec.get
  Exec.check s.bInCriticalSection
  Exec.forEach (CreateActor env) s.PendingAddEntities
  let s1 ← Exec.get
  Exec.forEach (RemoveActor env) s1.PendingRemoveEntities
  Exec.modify (fun s => { s with
    bInCriticalSection := false,
    PendingAddEntities := [],
    PendingAddComponents := [],
    PendingRemoveEntities := [] })

/-- The function `USpatialReceiver::OnCriticalSection`. -/
def OnCriticalSection (env : Env) (InCriticalSection : Bool) : RExec Unit :=
  if InCriticalSection then EnterCriticalSection else LeaveCriticalSection env

/-! ## The static component view (SpatialStaticComponentView.cpp) -/

/-- The enumeration `Worker_Authority` of the worker SDK. -/
inductive Worker_Authority where
  | WORKER_AUTHORITY_NOT_AUTHORITATIVE
  | WORKER_AUTHORITY_AUTHORITATIVE
  | WORKER_AUTHORITY_AUTHORITY_LOSS_IMMINENT
  deriving Repr, DecidableEq

/-- The wire data `Worker_ComponentUpdate`: a component id and an undecoded payload. -/
structure Worker_ComponentUpdate where
  component_id : Worker_ComponentId
  schema_type : List Nat
  deriving Repr, DecidableEq

/-- The operation `Worker_ComponentUpdateOp`. -/
structure Worker_ComponentUpdateOp where
  entity_id : Worker_EntityId
  update : Worker_ComponentUpdate
  deriving Repr, DecidableEq

/-- The operation `Worker_AuthorityChangeOp`; `authority` is read as a `Worker_Authority`. -/
structure Worker_AuthorityChangeOp where
  entity_id : Worker_EntityId
  component_id : Worker_ComponentId
  authority : Worker_Authority
  deriving Repr, DecidableEq

/-- The wire data `Worker_CommandRequest`. -/
structure Worker_CommandRequest where
  component_id : Worker_ComponentId
  schema_type : List Nat
  deriving Repr, DecidableEq

/-- The operation `Worker_CommandRequestOp`. -/
structure Worker_CommandRequestOp where
  request_id : Nat
  entity_id : Worker_EntityId
  caller_worker_id : String
  request : Worker_CommandRequest
  deriving Repr, DecidableEq

/-- A schema object handed out by the schema library, undecoded. -/
abbrev Schema_Object := List Nat

/-- A network GUID that `IsValid()`; an invalid one is the absence of a value. -/
abbrev FNetworkGUID := Nat

/-- What the view stores behind `TUniquePtr<ComponentStorageBase>`: one variant per
`ComponentStorage<T>` that `OnAddComponent` constructs.  The access-control list and the
rotation are kept undecoded. -/
inductive ComponentStorageBase where
  | EntityAcl (Data : List Nat)
  | Metadata (EntityType : String)
  | Position (Coords : Coordinates)
  | Persistence (Data : List Nat)
  | Rotation (Data : List Nat)
  | UnrealMetadata (Value : UnrealMetadata)
  deriving Repr, DecidableEq

/-- The cast to `ComponentStorage<improbable::EntityAcl>`. -/
def ComponentStorageBase.asEntityAcl : ComponentStorageBase → Option (List Nat)
  | ComponentStorageBase.EntityAcl d => some d
  | _ => none

/-- The cast to `ComponentStorage<improbable::Position>`. -/
def ComponentStorageBase.asPosition : ComponentStorageBase → Option Coordinates
  | ComponentStorageBase.Position c => some c
  | _ => none

/-- The cast to `ComponentStorage<improbable::Rotation>`. -/
def ComponentStorageBase.asRotation : ComponentStorageBase → Option (List Nat)
  | ComponentStorageBase.Rotation d => some d
  | _ => none

/-- The two member maps of `USpatialStaticComponentView`. -/
structure USpatialStaticComponentView where
  EntityComponentAuthorityMap :
    List (Worker_EntityId × List (Worker_ComponentId × Worker_Authority))
  EntityComponentMap :
    List (Worker_EntityId × List (Worker_ComponentId × ComponentStorageBase))
  deriving Repr, DecidableEq

/-- The environment of the update and remote-call code: the lifecycle environment, two
more component-id constants, the `ApplyComponentUpdate` members of the stored component
classes, the net driver's channel lookup, the schema library, the package map's
resolution of object references, and the decoders of updates and of call payloads. -/
structure UpdateEnv extends Env where
  ROTATION_COMPONENT_ID : Worker_ComponentId
  PLAYER_SPAWNER_COMPONENT_ID : Worker_ComponentId
  /-- The member `improbable::EntityAcl::ApplyComponentUpdate`. -/
  EntityAclApplyComponentUpdate : List Nat → Worker_ComponentUpdate → List Nat
  /-- The member `improbable::Position::ApplyComponentUpdate`. -/
  PositionApplyComponentUpdate : Coordinates → Worker_ComponentUpdate → Coordinates
  /-- The member `improbable::Rotation::ApplyComponentUpdate`. -/
  RotationApplyComponentUpdate : List Nat → Worker_ComponentUpdate → List Nat
  /-- The lookup `NetDriver->GetActorChannelByEntityId`. -/
  GetActorChannelByEntityId : Worker_EntityId → Option USpatialActorChannel
  /-- The schema call `Schema_GetComponentUpdateEvents`. -/
  Schema_GetComponentUpdateEvents : List Nat → Schema_Object
  /-- The schema call `Schema_GetObjectCount(Object, FieldId)`. -/
  Schema_GetObjectCount : Schema_Object → Nat → Nat
  /-- The schema call `Schema_IndexObject(Object, FieldId, Index)`. -/
  Schema_IndexObject : Schema_Object → Nat → Nat → Schema_Object
  /-- The schema call `Schema_GetUint32(Object, FieldId)`. -/
  Schema_GetUint32 : Schema_Object → Nat → Nat
  /-- The schema call `Schema_GetString(Object, FieldId)`. -/
  Schema_GetString : Schema_Object → Nat → String
  /-- The schema call `Schema_GetCommandRequestCommandIndex`, a 32-bit field id. -/
  Schema_GetCommandRequestCommandIndex : List Nat → Nat
  /-- The schema call `Schema_GetCommandRequestObject`. -/
  Schema_GetCommandRequestObject : List Nat → Schema_Object
  /-- The lookup `PackageMap->GetNetGUIDFromUnrealObjectRef`; none for an invalid GUID. -/
  GetNetGUIDFromUnrealObjectRef : UnrealObjectRef → Option FNetworkGUID
  /-- The lookup `PackageMap->GetObjectFromNetGUID`; none for a null object. -/
  GetObjectFromNetGUID : FNetworkGUID → Option UObject
  /-- The parameters that `RepLayout_ReceivePropertiesForRPC` decodes from a payload. -/
  ReceivePropertiesForRPC : UFunction → String → List Nat
  /-- The effect of `ComponentReader::ApplyComponentUpdate` on the reference map it is
  given, and the set of unresolved references it reports. -/
  ReaderApplyComponentUpdate : Worker_ComponentUpdate → UObject → USpatialActorChannel →
    FObjectReferencesMap → FObjectReferencesMap × List UnrealObjectRef

/-- The function `USpatialStaticComponentView::GetAuthority`. -/
def USpatialStaticComponentView.GetAuthority (View : USpatialStaticComponentView)
    (EntityId : Worker_EntityId) (ComponentId : Worker_ComponentId) : Worker_Authority :=
  match TMap.Find View.EntityComponentAuthorityMap EntityId with
  | some ComponentAuthorityMap =>
    match TMap.Find ComponentAuthorityMap ComponentId with
    | some Authority => Authority
    | none => Worker_Authority.WORKER_AUTHORITY_NOT_AUTHORITATIVE
  | none => Worker_Authority.WORKER_AUTHORITY_NOT_AUTHORITATIVE

/-- The template `USpatialStaticComponentView::GetComponentData<T>`; `ComponentId` is
`T::ComponentId` and `cast` the `static_cast` to `ComponentStorage<T>`, with a null result
where the stored object is of another class, which `OnAddComponent` never produces. -/
def USpatialStaticComponentView.GetComponentData {T : Type} (ComponentId : Worker_ComponentId)
    (cast : ComponentStorageBase → Option T) (View : USpatialStaticComponentView)
    (EntityId : Worker_EntityId) : Option T :=
  match TMap.Find View.EntityComponentMap EntityId with
  | some ComponentStorageMap =>
    match TMap.Find ComponentStorageMap ComponentId with
    | some Component => cast Component
    | none => none
  | none => none

/-- Writing a component of an entity through the reference that
`EntityComponentMap.FindOrAdd(EntityId).FindOrAdd(ComponentId)` returns, or through the
pointer that `GetComponentData` returned. -/
def USpatialStaticComponentView.SetComponent (View : USpatialStaticComponentView)
    (EntityId : Worker_EntityId) (ComponentId : Worker_ComponentId)
    (Data : ComponentStorageBase) : USpatialStaticComponentView :=
  { View with
    EntityComponentMap := TMap.Set View.EntityComponentMap EntityId
      (TMap.Set ((TMap.Find View.EntityComponentMap EntityId).getD []) ComponentId Data) }

/-- The `switch` of the view's `OnAddComponent`: the storage built for a component id, none
in the `default` case. -/
def MakeComponentStorage (env : UpdateEnv) (data : Worker_ComponentData) :
    Option ComponentStorageBase :=
  if data.component_id = env.ENTITY_ACL_COMPONENT_ID then
    some (ComponentStorageBase.EntityAcl data.schema_type)
  else if data.component_id = env.METADATA_COMPONENT_ID then
    some (ComponentStorageBase.Metadata (env.MetadataOf data))
  else if data.component_id = env.POSITION_COMPONENT_ID then
    some (ComponentStorageBase.Position (env.PositionOf data))
  else if data.component_id = env.PERSISTENCE_COMPONENT_ID then
    some (ComponentStorageBase.Persistence data.schema_type)
  else if data.component_id = env.ROTATION_COMPONENT_ID then
    some (ComponentStorageBase.Rotation data.schema_type)
  else if data.component_id = env.UNREAL_METADATA_COMPONENT_ID then
    some (ComponentStorageBase.UnrealMetadata (env.UnrealMetadataOf data))
  else none

/-- The function `USpatialStaticComponentView::OnAddComponent`. -/
def USpatialStaticComponentView.OnAddComponent (env : UpdateEnv) (Op : Worker_AddComponentOp)
    (View : USpatialStaticComponentView) : USpatialStaticComponentView :=
  match MakeComponentStorage env Op.data with
  | none => View
  | some Data => View.SetComponent Op.entity_id Op.data.component_id Data

/-- The function `USpatialStaticComponentView::OnRemoveEntity`. -/
def USpatialStaticComponentView.OnRemoveEntity (entity_id : Worker_EntityId)
    (View : USpatialStaticComponentView) : USpatialStaticComponentView :=
  { View with EntityComponentMap := TMap.Remove View.EntityComponentMap entity_id }

/-- The function `USpatialStaticComponentView::OnComponentUpdate`. -/
def USpatialStaticComponentView.OnComponentUpdate (env : UpdateEnv)
    (Op : Worker_ComponentUpdateOp) (View : USpatialStaticComponentView) :
    USpatialStaticComponentView :=
  if Op.update.component_id = env.ENTITY_ACL_COMPONENT_ID then
    match View.GetComponentData env.ENTITY_ACL_COMPONENT_ID ComponentStorageBase.asEntityAcl
        Op.entity_id with
    | some aclComponent =>
      View.SetComponent Op.entity_id env.ENTITY_ACL_COMPONENT_ID
        (ComponentStorageBase.EntityAcl (env.EntityAclApplyComponentUpdate aclComponent Op.update))
    | none => View
  else if Op.update.component_id = env.POSITION_COMPONENT_ID then
    match View.GetComponentData env.POSITION_COMPONENT_ID ComponentStorageBase.asPosition
        Op.entity_id with
    | some positionComponent =>
      View.SetComponent Op.entity_id env.POSITION_COMPONENT_ID
        (ComponentStorageBase.Position (env.PositionApplyComponentUpdate positionComponent Op.update))
    | none => View
  else if Op.update.component_id = env.ROTATION_COMPONENT_ID then
    match View.GetComponentData env.ROTATION_COMPONENT_ID ComponentStorageBase.asRotation
        Op.entity_id with
    | some rotationComponent =>
      View.SetComponent Op.entity_id env.ROTATION_COMPONENT_ID
        (ComponentStorageBase.Rotation (env.RotationApplyComponentUpdate rotationComponent Op.update))
    | none => View
  else View

/-- The function `USpatialStaticComponentView::OnAuthorityChange`. -/
def USpatialStaticComponentView.OnAuthorityChange (Op : Worker_AuthorityChangeOp)
    (View : USpatialStaticComponentView) : USpatialStaticComponentView :=
  { View with
    EntityComponentAuthorityMap := TMap.Set View.EntityComponentAuthorityMap Op.entity_id
      (TMap.Set ((TMap.Find View.EntityComponentAuthorityMap Op.entity_id).getD [])
        Op.component_id Op.authority) }

/-! ## Component updates and remote calls (SpatialReceiver.cpp, lines 426 to 627 and 892 to 922)

The member pointers `View`, `TypebindingManager`, `PackageMap` and `Sender` are never
checked in the file and are taken to be set; the view is passed to `OnComponentUpdate`
as it is when the update arrives. -/

/-- The function `USpatialReceiver::ApplyComponentUpdate`. -/
def ApplyComponentUpdate (env : UpdateEnv) (ComponentUpdate : Worker_ComponentUpdate)
    (TargetObject : UObject) (Channel : USpatialActorChannel) : RExec Unit := do
  let ChannelObjectPair : FChannelObjectPair := (Channel.Id, TargetObject)
  let s ← Exec.get
  let Found := (TMap.Find s.UnresolvedRefsMap ChannelObjectPair).getD []
  emit (Event.ReaderApplyComponentUpdate ComponentUpdate.component_id ComponentUpdate.schema_type
    TargetObject Channel.Id)
  let Read := env.ReaderApplyComponentUpdate ComponentUpdate TargetObject Channel Found
  Exec.modify (fun s => { s with
    UnresolvedRefsMap := TMap.Set s.UnresolvedRefsMap ChannelObjectPair Read.1 })
  QueueIncomingRepUpdates ChannelObjectPair Read.1 Read.2

/-- The body of the inner loop of `ReceiveMulticastUpdate`: one event instance.  An
unresolvable target reaches `checkNoEntry()`, a null target object fails the `checkf`. -/
def ReceiveMulticastEvent (env : UpdateEnv) (EventsObject : Schema_Object)
    (EntityId : Worker_EntityId) (EventIndex : Nat) (Function : UFunction) (i : Nat) :
    RExec Unit := do
  let EventData := env.Schema_IndexObject EventsObject EventIndex i
  let TargetObjectRef : UnrealObjectRef :=
    { Entity := EntityId, Offset := env.Schema_GetUint32 EventData 1 }
  let TargetNetGUID ← Exec.deref (env.GetNetGUIDFromUnrealObjectRef TargetObjectRef)
  let TargetObject ← Exec.deref (env.GetObjectFromNetGUID TargetNetGUID)
  let PayloadData := env.Schema_GetString EventData 2
  let s ← Exec.get
  Exec.check s.NetDriver
  let Parms := env.ReceivePropertiesForRPC Function PayloadData
  emit (Event.ProcessEvent TargetObject Function Parms)

/-- The function `USpatialReceiver::ReceiveMulticastUpdate`: `EventIndex` runs from 1 to
`RPCArray.Num()`, and for each the instance index from 0 to the object count. -/
def ReceiveMulticastUpdate (env : UpdateEnv) (ComponentUpdate : Worker_ComponentUpdate)
    (EntityId : Worker_EntityId) (RPCArray : List UFunction) : RExec Unit :=
  let EventsObject := env.Schema_GetComponentUpdateEvents ComponentUpdate.schema_type
  Exec.forEach (fun EventIndex => do
      let Function ← Exec.deref (RPCArray.get? (EventIndex - 1))
      Exec.forEach (ReceiveMulticastEvent env EventsObject EntityId EventIndex Function)
        (List.range (env.Schema_GetObjectCount EventsObject EventIndex)))
    (List.range' 1 RPCArray.length)

/-- The second `switch` of `OnComponentUpdate`: the hand-written components. -/
def IsHandWrittenComponent (env : UpdateEnv) (component_id : Worker_ComponentId) : Bool :=
  decide (component_id = env.ENTITY_ACL_COMPONENT_ID) ||
  decide (component_id = env.METADATA_COMPONENT_ID) ||
  decide (component_id = env.POSITION_COMPONENT_ID) ||
  decide (component_id = env.PERSISTENCE_COMPONENT_ID) ||
  decide (component_id = env.PLAYER_SPAWNER_COMPONENT_ID) ||
  decide (component_id = env.UNREAL_METADATA_COMPONENT_ID)

/-- The function `USpatialReceiver::OnComponentUpdate`. -/
def OnComponentUpdate (env : UpdateEnv) (View : USpatialStaticComponentView)
    (Op : Worker_ComponentUpdateOp) : RExec Unit :=
  if View.GetAuthority Op.entity_id Op.update.component_id =
      Worker_Authority.WORKER_AUTHORITY_AUTHORITATIVE then
    pure ()
  else if IsHandWrittenComponent env Op.update.component_id then
    pure ()
  else do
    let Class ← Exec.deref (env.FindClassByComponentId Op.update.component_id)
    let Info ← Exec.deref (env.FindClassInfoByClass Class)
    let s ← Exec.get
    Exec.check s.NetDriver
    let ActorChannel := env.GetActorChannelByEntityId Op.entity_id
    let bIsServer := env.IsServer
    if Op.update.component_id = Info.SingleClientComponent then
      let Channel ← Exec.deref ActorChannel
      let TargetObject ← GetTargetObjectFromChannelAndClass env.toEnv Channel Class
      ApplyComponentUpdate env Op.update TargetObject Channel
    else if Op.update.component_id = Info.MultiClientComponent then
      let Channel ← Exec.deref ActorChannel
      let TargetObject ← GetTargetObjectFromChannelAndClass env.toEnv Channel Class
      ApplyComponentUpdate env Op.update TargetObject Channel
    else if Op.update.component_id = Info.HandoverComponent then
      if !bIsServer then pure () else pure ()
    else if Op.update.component_id = Info.RPCComponents ERPCType.RPC_NetMulticast then
      let _ ← Exec.deref ActorChannel
      let RPCArray ← Exec.deref (TMap.Find Info.RPCs ERPCType.RPC_NetMulticast)
      ReceiveMulticastUpdate env Op.update Op.entity_id RPCArray
    else
      pure ()

/-- The position of an enumerator of `ERPCType`. -/
def ERPCType.toNat : ERPCType → Nat
  | ERPCType.RPC_Client => 0
  | ERPCType.RPC_Server => 1
  | ERPCType.RPC_CrossServer => 2
  | ERPCType.RPC_NetMulticast => 3
  | ERPCType.RPC_Count => 4

/-- The loop of `OnCommandRequest` over `RPC_Client` to `RPC_CrossServer`: the first type
whose component is the requested one, `RPC_Count` when there is none. -/
def FindRPCType (Info : FClassInfo) (component_id : Worker_ComponentId) : ERPCType :=
  if Info.RPCComponents ERPCType.RPC_Client = component_id then ERPCType.RPC_Client
  else if Info.RPCComponents ERPCType.RPC_Server = component_id then ERPCType.RPC_Server
  else if Info.RPCComponents ERPCType.RPC_CrossServer = component_id then
    ERPCType.RPC_CrossServer
  else ERPCType.RPC_Count

/-- The conversion of a 32-bit unsigned value to `int`. -/
def toInt32 (n : Nat) : Int :=
  if n % 2 ^ 32 < 2 ^ 31 then Int.ofNat (n % 2 ^ 32) else Int.ofNat (n % 2 ^ 32) - 2 ^ 32

/-- The element access `TArray::operator[](int32 Index)` with its range check: none where
the check `(Index >= 0) & (Index < ArrayNum)` fails. -/
def TArray.At {α : Type} (Array : List α) (Index : Int) : Option α :=
  if 0 ≤ Index then Array.get? Index.toNat else none

/-- The function `USpatialReceiver::ReceiveRPCCommandRequest`; the result is the out
parameter `OutTargetObject` and the decoded parameters.  An unresolvable target reaches
`checkNoEntry()`, a null target object fails the `checkf`. -/
def ReceiveRPCCommandRequest (env : UpdateEnv) (CommandRequest : Worker_CommandRequest)
    (EntityId : Worker_EntityId) (Function : UFunction) : RExec (Option UObject × List Nat) := do
  let RequestObject := env.Schema_GetCommandRequestObject CommandRequest.schema_type
  let TargetObjectRef : UnrealObjectRef :=
    { Entity := EntityId, Offset := env.Schema_GetUint32 RequestObject 1 }
  let TargetNetGUID ← Exec.deref (env.GetNetGUIDFromUnrealObjectRef TargetObjectRef)
  let OutTargetObject ← Exec.deref (env.GetObjectFromNetGUID TargetNetGUID)
  let PayloadData := env.Schema_GetString RequestObject 2
  let s ← Exec.get
  Exec.check s.NetDriver
  pure (some OutTargetObject, env.ReceivePropertiesForRPC Function PayloadData)

/-- The branch of `OnCommandRequest` for a component that maps to a class: find the
function, receive the request, and invoke the function on the target if there is one. -/
def InvokeCommandRequest (env : UpdateEnv) (Op : Worker_CommandRequestOp) (CommandIndex : Nat)
    (Class : UClass) : RExec Unit := do
  let Info ← Exec.deref (env.FindClassInfoByClass Class)
  let RPCType := FindRPCType Info Op.request.component_id
  Exec.check (decide (RPCType.toNat ≤ ERPCType.RPC_CrossServer.toNat))
  let RPCArray ← Exec.deref (TMap.Find Info.RPCs RPCType)
  Exec.check (decide (toInt32 CommandIndex - 1 < Int.ofNat RPCArray.length))
  let Function ← Exec.deref (TArray.At RPCArray (toInt32 ((CommandIndex + 2 ^ 32 - 1) % 2 ^ 32)))
  let Received ← ReceiveRPCCommandRequest env Op.request Op.entity_id Function
  match Received.1 with
  | some TargetObject => emit (Event.ProcessEvent TargetObject Function Received.2)
  | none => pure ()

/-- The function `USpatialReceiver::OnCommandRequest`. -/
def OnCommandRequest (env : UpdateEnv) (Op : Worker_CommandRequestOp) : RExec Unit := do
  let CommandIndex := env.Schema_GetCommandRequestCommandIndex Op.request.schema_type
  if Op.request.component_id = env.PLAYER_SPAWNER_COMPONENT_ID ∧ CommandIndex = 1 then
    let Payload := env.Schema_GetCommandRequestObject Op.request.schema_type
    let URLString := env.Schema_GetString Payload 1 ++ "?workerId=" ++ Op.caller_worker_id
    let s ← Exec.get
    Exec.check s.NetDriver
    emit (Event.AcceptNewPlayer URLString)
    emit (Event.Worker_Connection_SendCommandResponse Op.request_id
      env.PLAYER_SPAWNER_COMPONENT_ID 1)
  else
    match env.FindClassByComponentId Op.request.component_id with
    | some Class =>
      InvokeCommandRequest env Op CommandIndex Class
      emit (Event.SendCommandResponse Op.request_id Op.request.component_id CommandIndex)
    | none =>
      emit (Event.SendCommandResponse Op.request_id Op.request.component_id CommandIndex)

/-! ## Reference resolution (SpatialReceiver.cpp, lines 688 to 707 and 723 to 890)

The memory behind `StoredData` and `Data` belongs to the engine.  An address is an
integer, `Data + AbsOffset` is integer addition, and what the code reads from memory
(the length and the data pointer of a script array, whether two values are identical) is
given by the environment as the value found when it is read; the writes are recorded as
calls.  Offsets and lengths are `int32` in the source; they are integers here and the
product `Min(...) * ElementSize` is taken without overflow. -/

/-- The part of an `FRepParentCmd` that reference resolution inspects: its property,
whether the property has the flag `CPF_RepNotify`, and whether its condition is
`REPNOTIFY_Always`. -/
structure FRepParentCmd where
  Property : UProperty
  bRepNotify : Bool
  bRepNotifyAlways : Bool
  deriving Repr, DecidableEq

/-- What reference resolution is given from outside this file, besides what updates and
remote calls are given. -/
structure ResolveEnv extends UpdateEnv where
  /-- The array `Parents` of `DependentChannel->GetObjectRepLayout(ReplicatingObject)`. -/
  GetObjectRepLayout : Nat → UObject → List FRepParentCmd
  /-- The buffer `DependentChannel->GetObjectStaticBuffer(ReplicatingObject)`: the address
  `GetData()` and the size `Num()`. -/
  GetObjectStaticBuffer : Nat → UObject → Int × Int
  /-- The address `(uint8*)ReplicatingObject`. -/
  ObjectAddress : UObject → Int
  /-- The length `Num()` of the script array at an address, as read after the copy. -/
  ScriptArrayNum : Int → Int
  /-- The pointer `GetData()` of the script array at an address. -/
  ScriptArrayData : Int → Int
  /-- The test `Property->Identical(A, B)`. -/
  Identical : UProperty → Int → Int → Bool

/-- What `ResolveObjectReferences` shares between its levels of recursion: the reference
parameters `RepNotifies` and `bOutSomeObjectsWereMapped`, and the calls made so far. -/
structure ResolveState where
  Calls : List Event
  RepNotifies : List UProperty
  bOutSomeObjectsWereMapped : Bool

/-- Record a call made during reference resolution. -/
def ResolveState.call (e : Event) : Exec ResolveState Unit :=
  Exec.modify (fun st => { st with Calls := st.Calls ++ [e] })

/-- The insertion `TArray::AddUnique`. -/
def TArray.AddUnique {α : Type} [DecidableEq α] (xs : List α) (x : α) : List α :=
  if x ∈ xs then xs else xs ++ [x]

/-- The inner loop of `ResolveObjectReferences` over the unresolved references of one entry.
A reference whose GUID is valid is removed (a null object fails the `check`); the
result is what remains of the set, `bResolvedSomeRefs` and `SinglePropObject`. -/
def ResolveUnresolvedRefs (env : ResolveEnv) (bSingleProp : Bool) :
    List UnrealObjectRef → Bool → Option UObject →
      Exec ResolveState (List UnrealObjectRef × Bool × Option UObject)
  | [], bResolvedSomeRefs, SinglePropObject => pure ([], bResolvedSomeRefs, SinglePropObject)
  | ObjectRef :: rest, bResolvedSomeRefs, SinglePropObject =>
    match env.GetNetGUIDFromUnrealObjectRef ObjectRef with
    | some NetGUID => do
      let Object ← Exec.deref (env.GetObjectFromNetGUID NetGUID)
      ResolveUnresolvedRefs env bSingleProp rest true
        (if bSingleProp then some Object else SinglePropObject)
    | none => do
      let r ← ResolveUnresolvedRefs env bSingleProp rest bResolvedSomeRefs SinglePropObject
      pure (ObjectRef :: r.1, r.2)

/-- The part of the loop body of `ResolveObjectReferences` that follows the inner loop
when some reference was resolved: `PreNetReceive` once per top-level call, the write of a
single object property, and the rep-notify bookkeeping. -/
def ApplyResolvedRefs (env : ResolveEnv) (ReplicatedObject : UObject) (Parent : FRepParentCmd)
    (Property : UProperty) (bSingleProp : Bool) (SinglePropObject : Option UObject)
    (StoredData Data AbsOffset : Int) : Exec ResolveState Unit := do
  let st ← Exec.get
  Exec.when (!st.bOutSomeObjectsWereMapped) (do
    ResolveState.call (Event.PreNetReceive ReplicatedObject)
    Exec.modify (fun st => { st with bOutSomeObjectsWereMapped := true }))
  Exec.when bSingleProp (do
    Exec.check Property.bObjectPropertyBase
    ResolveState.call (Event.SetObjectPropertyValue Property (Data + AbsOffset) SinglePropObject))
  Exec.when Parent.bRepNotify
    (Exec.when (Parent.bRepNotifyAlways ||
        !env.Identical Property (StoredData + AbsOffset) (Data + AbsOffset))
      (Exec.modify (fun st => { st with
        RepNotifies := TArray.AddUnique st.RepNotifies Parent.Property })))

mutual
/-- The function `USpatialReceiver::ResolveObjectReferences`.  The result is the reference
map as the call leaves it and the value of `bOutStillHasUnresolved`; an entry that
`RemoveCurrent` removes is left out of the result. -/
def ResolveObjectReferences (env : ResolveEnv) (RepLayout : List FRepParentCmd)
    (ReplicatedObject : UObject) :
    List (Int × FObjectReferences) → Int → Int → Int → Bool →
      Exec ResolveState (List (Int × FObjectReferences) × Bool)
  | [], _, _, _, bOutStillHasUnresolved => pure ([], bOutStillHasUnresolved)
  | (AbsOffset, ObjectReferences) :: rest, StoredData, Data, MaxAbsOffset,
      bOutStillHasUnresolved =>
    if AbsOffset ≥ MaxAbsOffset then
      ResolveObjectReferences env RepLayout ReplicatedObject rest StoredData Data MaxAbsOffset
        bOutStillHasUnresolved
    else do
      let r ← ResolveObjectReferencesEntry env RepLayout ReplicatedObject ObjectReferences
        AbsOffset StoredData Data bOutStillHasUnresolved
      let rs ← ResolveObjectReferences env RepLayout ReplicatedObject rest StoredData Data
        MaxAbsOffset r.2
      match r.1 with
      | some Kept => pure ((AbsOffset, Kept) :: rs.1, rs.2)
      | none => pure rs
/-- The loop body of `ResolveObjectReferences` for an entry below the bound: the entry
as it is kept, none when it is removed, and the value of `bOutStillHasUnresolved`. -/
def ResolveObjectReferencesEntry (env : ResolveEnv) (RepLayout : List FRepParentCmd)
    (ReplicatedObject : UObject) :
    FObjectReferences → Int → Int → Int → Bool →
      Exec ResolveState (Option FObjectReferences × Bool)
  | FObjectReferences.mk UnresolvedRefs bSingleProp Array ParentIndex Property, AbsOffset,
      StoredData, Data, bOutStillHasUnresolved => do
    let Parent ← Exec.deref (RepLayout.get? ParentIndex)
    match Array with
    | some ArrayMap =>
      Exec.check Property.bArrayProperty
      ResolveState.call (Event.CopySingleValue Property (StoredData + AbsOffset)
        (Data + AbsOffset))
      let NewMaxOffset := min (env.ScriptArrayNum (StoredData + AbsOffset))
        (env.ScriptArrayNum (Data + AbsOffset)) * Property.ElementSize
      let r ← ResolveObjectReferences env RepLayout ReplicatedObject ArrayMap
        (env.ScriptArrayData (StoredData + AbsOffset)) (env.ScriptArrayData (Data + AbsOffset))
        NewMaxOffset false
      if !r.2 then
        pure (none, bOutStillHasUnresolved)
      else
        pure (some (FObjectReferences.mk UnresolvedRefs bSingleProp (some r.1) ParentIndex
          Property), true)
    | none =>
      let r ← ResolveUnresolvedRefs env bSingleProp UnresolvedRefs false none
      Exec.when r.2.1 (ApplyResolvedRefs env ReplicatedObject Parent Property bSingleProp
        r.2.2 StoredData Data AbsOffset)
      if r.1.length > 0 then
        pure (some (FObjectReferences.mk r.1 bSingleProp none ParentIndex Property), true)
      else
        pure (none, bOutStillHasUnresolved)
end

/-- The state in which `ResolveIncomingOperations` starts `ResolveObjectReferences`:
`RepNotifies` empty and `bSomeObjectsWereMapped` false. -/
def ResolveState.initial : ResolveState :=
  { Calls := [], RepNotifies := [], bOutSomeObjectsWereMapped := false }

/-- The call of `ResolveObjectReferences` that `ResolveIncomingOperations` makes for one
waiting channel and object, on the reference map found for them, with
`bStillHasUnresolved` false. -/
def ResolveOwner (env : ResolveEnv) (ChannelObjectPair : FChannelObjectPair)
    (UnresolvedRefs : FObjectReferencesMap) :
    Outcome ResolveState (FObjectReferencesMap × Bool) :=
  ResolveObjectReferences env
    (env.GetObjectRepLayout ChannelObjectPair.1 ChannelObjectPair.2) ChannelObjectPair.2
    UnresolvedRefs (env.GetObjectStaticBuffer ChannelObjectPair.1 ChannelObjectPair.2).1
    (env.ObjectAddress ChannelObjectPair.2)
    (env.GetObjectStaticBuffer ChannelObjectPair.1 ChannelObjectPair.2).2 false
    ResolveState.initial

/-- The loop body of `ResolveIncomingOperations` for one waiting channel and object.  The
reference map is changed in place by `ResolveObjectReferences`; here it is written back
when that call returns, and a fatal stop inside the call leaves it as it was before. -/
def ResolveIncomingOperationsFor (env : ResolveEnv) (ChannelObjectPair : FChannelObjectPair) :
    RExec Unit := do
  let s ← Exec.get
  match TMap.Find s.UnresolvedRefsMap ChannelObjectPair with
  | none => pure ()
  | some UnresolvedRefs =>
    emit (Event.ResolveObjectReferences ChannelObjectPair.1 ChannelObjectPair.2)
    match ResolveOwner env ChannelObjectPair UnresolvedRefs with
    | Outcome.fatal st =>
      fun s => Outcome.fatal { s with Trace := s.Trace ++ st.Calls }
    | Outcome.ok r st =>
      Exec.modify (fun s => { s with
        Trace := s.Trace ++ st.Calls
        UnresolvedRefsMap := TMap.Set s.UnresolvedRefsMap ChannelObjectPair r.1 })
      Exec.when st.bOutSomeObjectsWereMapped
        (emit (Event.PostReceiveSpatialUpdate ChannelObjectPair.1 ChannelObjectPair.2
          st.RepNotifies))
      Exec.when (!r.2) (Exec.modify (fun s => { s with
        UnresolvedRefsMap := TMap.Remove s.UnresolvedRefsMap ChannelObjectPair }))

/-- The function `USpatialReceiver::ResolveIncomingOperations`; the resolved object is
only logged. -/
def ResolveIncomingOperations (env : ResolveEnv) (_Object : UObject)
    (ObjectRef : UnrealObjectRef) : RExec Unit := do
  let s ← Exec.get
  match TMap.Find s.IncomingRefsMap ObjectRef with
  | none => pure ()
  | some TargetObjectSet =>
    Exec.forEach (ResolveIncomingOperationsFor env) TargetObjectSet
    Exec.modify (fun s => { s with IncomingRefsMap := TMap.Remove s.IncomingRefsMap ObjectRef })

/-- The function `USpatialReceiver::ResolvePendingOperations_Internal`. -/
def ResolvePendingOperations_Internal (env : ResolveEnv) (Object : UObject)
    (ObjectRef : UnrealObjectRef) : RExec Unit := do
  emit (Event.ResolveOutgoingOperations Object)
  ResolveIncomingOperations env Object ObjectRef
  emit (Event.ResolveOutgoingRPCs Object)

/-- The function `USpatialReceiver::ResolvePendingOperations`. -/
def ResolvePendingOperations (env : ResolveEnv) (Object : UObject)
    (ObjectRef : UnrealObjectRef) : RExec Unit := do
  let s ← Exec.get
  if s.bInCriticalSection then
    Exec.modify (fun s => { s with
      ResolvedObjectQueue := s.ResolvedObjectQueue ++ [(Object, ObjectRef)] })
  else
    ResolvePendingOperations_Internal env Object ObjectRef

/-- The function `USpatialReceiver::ProcessQueuedResolvedObjects`. -/
def ProcessQueuedResolvedObjects (env : ResolveEnv) : RExec Unit := do
  let s ← Exec.get
  Exec.forEach (fun It => ResolvePendingOperations_Internal env It.1 It.2) s.ResolvedObjectQueue
  Exec.modify (fun s => { s with ResolvedObjectQueue := [] })

/-! ## Notifications and observations -/

/-- A notification delivered to the receiver by the dispatcher. -/
inductive Notification where
  | EnterCriticalSection
  | LeaveCriticalSection
  | AddEntity (entity_id : Worker_EntityId)
  | AddComponent (Op : Worker_AddComponentOp)
  | RemoveEntity (entity_id : Worker_EntityId)
  deriving Repr, DecidableEq

/-- The handler that a notification is dispatched to. -/
def Notification.deliver (env : Env) : Notification → RExec Unit
  | Notification.EnterCriticalSection => SpatialGDK.EnterCriticalSection
  | Notification.LeaveCriticalSection => SpatialGDK.LeaveCriticalSection env
  | Notification.AddEntity entity_id => SpatialGDK.OnAddEntity entity_id
  | Notification.AddComponent Op => SpatialGDK.OnAddComponent env Op
  | Notification.RemoveEntity entity_id => SpatialGDK.OnRemoveEntity env entity_id

/-- Delivery of a sequence of notifications, one after the other. -/
def Deliver (env : Env) (ns : List Notification) : RExec Unit :=
  Exec.forEach (Notification.deliver env) ns

/-- The three notifications that are buffered inside a critical section. -/
def Notification.isLifecycle : Notification → Bool
  | Notification.AddEntity _ => true
  | Notification.AddComponent _ => true
  | Notification.RemoveEntity _ => true
  | _ => false

/-- The entity ids of the entity-add notifications of a sequence, in order. -/
def AddedEntities : List Notification → List Worker_EntityId
  | [] => []
  | Notification.AddEntity E :: ns => E :: AddedEntities ns
  | _ :: ns => AddedEntities ns

/-- The buffer entries of the component-add notifications of a sequence, in order. -/
def AddedComponents (env : Env) : List Notification → List PendingAddComponentWrapper
  | [] => []
  | Notification.AddComponent Op :: ns =>
    { EntityId := Op.entity_id, ComponentId := Op.data.component_id,
      Data := some (MakeComponent env Op.data) } :: AddedComponents env ns
  | _ :: ns => AddedComponents env ns

/-- The entity ids of the entity-remove notifications of a sequence, in order. -/
def RemovedEntities : List Notification → List Worker_EntityId
  | [] => []
  | Notification.RemoveEntity E :: ns => E :: RemovedEntities ns
  | _ :: ns => RemovedEntities ns

/-- The state an outcome ends in. -/
def Outcome.state {σ α : Type} : Outcome σ α → σ
  | Outcome.ok _ s => s
  | Outcome.fatal s => s

/-- Whether an outcome is a fatal stop. -/
def Outcome.isFatal {σ α : Type} : Outcome σ α → Bool
  | Outcome.ok _ _ => false
  | Outcome.fatal _ => true

/-- The entities for which `CreateActor` was entered, in trace order. -/
def CreateActorCalls : List Event → List Worker_EntityId
  | [] => []
  | Event.CreateActor E :: t => E :: CreateActorCalls t
  | _ :: t => CreateActorCalls t

/-- The entities for which `RemoveActor` was entered, in trace order. -/
def RemoveActorCalls : List Event → List Worker_EntityId
  | [] => []
  | Event.RemoveActor E :: t => E :: RemoveActorCalls t
  | _ :: t => RemoveActorCalls t

/-- Entry records of the two lifecycle functions. -/
def Event.isLifecycleCall : Event → Bool
  | Event.CreateActor _ => true
  | Event.RemoveActor _ => true
  | _ => false

/-- Records made on the destruction side: `RemoveActor` and what it calls. -/
def Event.isDestruction : Event → Bool
  | Event.RemoveActor _ => true
  | Event.ClearPlayer _ => true
  | Event.ClearPawnController _ => true
  | Event.DestroyActor _ => true
  | Event.RemoveFromRegistry _ => true
  | Event.RemoveEntityActor _ => true
  | _ => false

/-- Records made inside `CreateActor` after its entry record. -/
def InsideCreate (e : Event) : Prop := e.isDestruction = false ∧ e.isLifecycleCall = false

/-- Records made inside `RemoveActor` after its entry record. -/
def InsideRemove (e : Event) : Prop := e.isDestruction = true ∧ e.isLifecycleCall = false

/-- The frame of the lifecycle functions: the critical-section flag, the three buffers
and the collaborator pointers are as before, and the trace has grown by records that
all satisfy `P`. -/
def Frame (P : Event → Prop) (s s' : USpatialReceiver) : Prop :=
  s'.bInCriticalSection = s.bInCriticalSection ∧
  s'.PendingAddEntities = s.PendingAddEntities ∧
  s'.PendingAddComponents = s.PendingAddComponents ∧
  s'.PendingRemoveEntities = s.PendingRemoveEntities ∧
  s'.World = s.World ∧ s'.NetDriver = s.NetDriver ∧
  s'.EntityRegistry.isSome = s.EntityRegistry.isSome ∧
  ∃ t, s'.Trace = s.Trace ++ t ∧ ∀ e ∈ t, P e

/-- Every end state of an operation, normal or fatal, is related to its start state. -/
structure Exec.Keeps {σ α : Type} (R : σ → σ → Prop) (m : Exec σ α) : Prop where
  run : ∀ s, R s (m s).state

/-- Every normal return of an operation ends in a state satisfying `Q`. -/
structure Exec.Ensures {σ α : Type} (Q : σ → Prop) (m : Exec σ α) : Prop where
  run : ∀ s a s', m s = Outcome.ok a s' → Q s'

/-- Reflexive and transitive relations on states. -/
structure Exec.Preorder {σ : Type} (R : σ → σ → Prop) : Prop where
  refl : ∀ s, R s s
  trans : ∀ a b c, R a b → R b c → R a c

/-- No buffered component entry for this entity and component id. -/
def NoPendingEntry (s : USpatialReceiver) (E : Worker_EntityId) (C : Worker_ComponentId) : Prop :=
  ∀ w ∈ s.PendingAddComponents, ¬ (w.EntityId = E ∧ w.ComponentId = C)

/-- The collaborators that `RemoveActor` dereferences without a check are all set. -/
def CollaboratorsSet (env : Env) (s : USpatialReceiver) : Bool :=
  s.World && s.NetDriver && s.EntityRegistry.isSome &&
    (match env.SpatialOSNetConnection with
     | some Connection => Connection.bSpatialPackageMap
     | none => false)

/-- The two loops of `LeaveCriticalSection`, without its guard and its final clearing. -/
def ApplyPendingLifecycle (env : Env) : RExec Unit := do
  let s ← Exec.get
  Exec.forEach (CreateActor env) s.PendingAddEntities
  let s1 ← Exec.get
  Exec.forEach (RemoveActor env) s1.PendingRemoveEntities

/-- A closed receiver with empty buffers. -/
def IsInitial (s : USpatialReceiver) : Prop :=
  s.bInCriticalSection = false ∧ s.PendingAddEntities = [] ∧ s.PendingAddComponents = [] ∧
    s.PendingRemoveEntities = []

/-! ## Example environment and states -/

/-- An actor class known locally. -/
def Example.Character : UClass :=
  { Name := "Character", bChildOfActor := true, bChildOfActorComponent := false,
    bChildOfPlayerController := false }

/-- A live pawn of that class. -/
def Example.Pawn : AActor :=
  { Object := 1, Class := Example.Character, bPendingKill := false, bIsPlayerController := false,
    bIsPawn := true, bControllerHasAuthority := false }

/-- The worker connection: a spatial package map and a fresh actor channel. -/
def Example.Connection : USpatialNetConnection :=
  { Id := 0, PlayerController := Example.Pawn, bSpatialPackageMap := true,
    NewChannel := some { Id := 1, Actor := none } }

/-- A client worker that knows the class `Character` only.  The first payload word is
the x coordinate of a position and, for metadata, selects the entity type. -/
def Example.env : Env :=
  { ENTITY_ACL_COMPONENT_ID := 50
    METADATA_COMPONENT_ID := 53
    POSITION_COMPONENT_ID := 54
    PERSISTENCE_COMPONENT_ID := 55
    UNREAL_METADATA_COMPONENT_ID := 100004
    MetadataOf := fun d => if d.schema_type.head? = some 1 then "Character" else "Unmapped"
    PositionOf := fun d => { X := Int.ofNat (d.schema_type.headD 0), Y := 0, Z := 0 }
    UnrealMetadataOf := fun _ => { StaticPath := "", OwnerWorkerId := "", SubobjectNameToOffset := [] }
    FindObjectClass := fun Name => if Name = "Character" then some Example.Character else none
    FindObjectActor := fun _ => none
    SpawnActorAbsolute := fun _ _ _ => some Example.Pawn
    DestroyActor := fun _ => true
    IsServer := false
    AcceptNewPlayer := fun _ => none
    SpatialOSNetConnection := some Example.Connection
    ServerConnection := true
    DefaultURL := ""
    FindClassByComponentId := fun _ => none
    FindClassInfoByClass := fun _ => none
    IsA := fun _ _ => true
    GetComponentsByClass := fun _ _ => []
    ReaderApplyComponentData := fun _ _ _ m => (m, []) }

/-- The receiver after `Init`: closed, nothing buffered, an empty registry. -/
def Example.initial : USpatialReceiver :=
  { bInCriticalSection := false
    PendingAddEntities := []
    PendingAddComponents := []
    PendingRemoveEntities := []
    UnresolvedRefsMap := []
    IncomingRefsMap := []
    ResolvedObjectQueue := []
    World := true
    NetDriver := true
    EntityRegistry := some { EntityIdToActor := [] }
    Trace := [] }

/-- An add-component operation with a one-word payload. -/
def Example.AddOp (entity_id : Worker_EntityId) (component_id : Worker_ComponentId) (word : Nat) :
    Worker_AddComponentOp :=
  { entity_id := entity_id, data := { component_id := component_id, schema_type := [word] } }

/-- Open a section and announce entity 7 without any component. -/
def Example.announceOnly : List Notification :=
  [Notification.EnterCriticalSection, Notification.AddEntity 7]

/-- A complete burst for entity 1, still open: the entity, its metadata, position and
Unreal metadata, and the removal of entity 5. -/
def Example.openBurst : List Notification :=
  [Notification.EnterCriticalSection,
   Notification.AddEntity 1,
   Notification.AddComponent (Example.AddOp 1 53 1),
   Notification.AddComponent (Example.AddOp 1 54 10),
   Notification.AddComponent (Example.AddOp 1 100004 0),
   Notification.RemoveEntity 5]

/-- The same burst, closed. -/
def Example.burst : List Notification :=
  Example.openBurst ++ [Notification.LeaveCriticalSection]

/-- An open section with entity 1 announced twice and a component of entity 2, which is
never announced. -/
def Example.repeatedBurst : List Notification :=
  [Notification.EnterCriticalSection,
   Notification.AddEntity 1,
   Notification.AddComponent (Example.AddOp 1 53 1),
   Notification.AddComponent (Example.AddOp 1 54 10),
   Notification.AddComponent (Example.AddOp 1 100004 0),
   Notification.AddComponent (Example.AddOp 2 54 20),
   Notification.AddEntity 1]

/-- An open section holding metadata of an unmapped type and a position for entity 3. -/
def Example.unmappedBurst : List Notification :=
  [Notification.EnterCriticalSection,
   Notification.AddEntity 3,
   Notification.AddComponent (Example.AddOp 3 53 0),
   Notification.AddComponent (Example.AddOp 3 54 10)]

/-- An open section in which the position of entity 1 arrives twice. -/
def Example.repeatedComponent : List Notification :=
  [Notification.EnterCriticalSection,
   Notification.AddComponent (Example.AddOp 1 54 10),
   Notification.AddComponent (Example.AddOp 1 54 20)]

/-- The receiver after `Init` with a section opened. -/
def Example.opened : USpatialReceiver :=
  { Example.initial with bInCriticalSection := true }

/-- The state a sequence of notifications leads to from the initial receiver. -/
def Example.after (ns : List Notification) : USpatialReceiver :=
  (Deliver Example.env ns Example.initial).state

/-! ## Operations on the view, and observations of updates and calls -/

/-- An operation delivered to the static component view. -/
inductive ViewOp where
  | AddComponent (Op : Worker_AddComponentOp)
  | RemoveEntity (entity_id : Worker_EntityId)
  | ComponentUpdate (Op : Worker_ComponentUpdateOp)
  | AuthorityChange (Op : Worker_AuthorityChangeOp)
  deriving Repr, DecidableEq

/-- The handler of the view that an operation is dispatched to. -/
def ViewOp.deliver (env : UpdateEnv) :
    ViewOp → USpatialStaticComponentView → USpatialStaticComponentView
  | ViewOp.AddComponent Op => USpatialStaticComponentView.OnAddComponent env Op
  | ViewOp.RemoveEntity entity_id => USpatialStaticComponentView.OnRemoveEntity entity_id
  | ViewOp.ComponentUpdate Op => USpatialStaticComponentView.OnComponentUpdate env Op
  | ViewOp.AuthorityChange Op => USpatialStaticComponentView.OnAuthorityChange Op

/-- Delivery of a sequence of operations to the view, one after the other. -/
def USpatialStaticComponentView.Deliver (env : UpdateEnv) (ops : List ViewOp)
    (View : USpatialStaticComponentView) : USpatialStaticComponentView :=
  ops.foldl (fun v op => op.deliver env v) View

/-- The view as constructed: both maps empty. -/
def USpatialStaticComponentView.empty : USpatialStaticComponentView :=
  { EntityComponentAuthorityMap := [], EntityComponentMap := [] }

/-- Whether an operation is an authority change for this entity and component. -/
def ViewOp.recordsAuthority (E : Worker_EntityId) (C : Worker_ComponentId) : ViewOp → Bool
  | ViewOp.AuthorityChange Op => decide (Op.entity_id = E) && decide (Op.component_id = C)
  | _ => false

/-- The calls of `ApplyComponentData` in a trace, in order. -/
def ApplyComponentDataCalls : List Event → List (Worker_EntityId × Worker_ComponentData)
  | [] => []
  | Event.ApplyComponentData E Data _ :: t => (E, Data) :: ApplyComponentDataCalls t
  | _ :: t => ApplyComponentDataCalls t

/-- Records of an object being constructed or bound anew: a spawn, an accepted player, a
new channel, a deferred construction being finished, a registry binding being added. -/
def Event.isConstruction : Event → Bool
  | Event.AcceptNewPlayer _ => true
  | Event.SpawnActorAbsolute _ _ _ => true
  | Event.AddToRegistry _ _ => true
  | Event.CreateChannel _ => true
  | Event.FinishSpawning _ _ => true
  | Event.SetChannelActor _ _ => true
  | _ => false

/-- The buffered entries of an entity that carry a dynamic component. -/
def PendingDynamicComponents (s : USpatialReceiver) (E : Worker_EntityId) :
    List PendingAddComponentWrapper :=
  s.PendingAddComponents.filter (fun w =>
    decide (w.EntityId = E) &&
      (match w.Data with
       | some Data => Data.bIsDynamic
       | none => false))

/-- What `CreateActor` needs to return in the branch for an entity that already has an
actor: the world and the net driver set, the three buffered core components, and a
connection whose package map is the spatial one. -/
def CanRebind (env : Env) (s : USpatialReceiver) (E : Worker_EntityId) : Bool :=
  s.World && s.NetDriver &&
  (GetComponentData env.POSITION_COMPONENT_ID Component.asPosition s E).isSome &&
  (GetComponentData env.METADATA_COMPONENT_ID Component.asMetadata s E).isSome &&
  (GetComponentData env.UNREAL_METADATA_COMPONENT_ID Component.asUnrealMetadata s E).isSome &&
  (match env.SpatialOSNetConnection with
   | some Connection => Connection.bSpatialPackageMap
   | none => false)

/-- The `ProcessEvent` records of one function index of a multicast update, in instance
order, given the object each instance's target resolves to. -/
def MulticastInvocationsOf (env : UpdateEnv) (EventsObject : Schema_Object)
    (target : Nat → Nat → UObject) (EventIndex : Nat) (Function : UFunction) : List Event :=
  (List.range (env.Schema_GetObjectCount EventsObject EventIndex)).map (fun i =>
    Event.ProcessEvent (target EventIndex i) Function
      (env.ReceivePropertiesForRPC Function
        (env.Schema_GetString (env.Schema_IndexObject EventsObject EventIndex i) 2)))

/-- The `ProcessEvent` records of a whole multicast update: function index 1 first, and
for each index its instances in payload order. -/
def MulticastInvocations (env : UpdateEnv) (EventsObject : Schema_Object)
    (target : Nat → Nat → UObject) (RPCArray : List UFunction) : List Event :=
  (List.range' 1 RPCArray.length).flatMap (fun EventIndex =>
    match RPCArray.get? (EventIndex - 1) with
    | some Function => MulticastInvocationsOf env EventsObject target EventIndex Function
    | none => [])

/-- Every event instance of a multicast update names a target that resolves to the
object `target EventIndex i`. -/
def AllTargetsResolved (env : UpdateEnv) (EventsObject : Schema_Object)
    (EntityId : Worker_EntityId) (Count : Nat) (target : Nat → Nat → UObject) : Prop :=
  ∀ EventIndex i, 1 ≤ EventIndex → EventIndex ≤ Count →
    i < env.Schema_GetObjectCount EventsObject EventIndex →
    ∃ NetGUID,
      env.GetNetGUIDFromUnrealObjectRef
        { Entity := EntityId,
          Offset := env.Schema_GetUint32 (env.Schema_IndexObject EventsObject EventIndex i) 1 } =
        some NetGUID ∧
      env.GetObjectFromNetGUID NetGUID = some (target EventIndex i)

/-! ## Example environment and states for updates and calls -/

/-- The class info of `Character`: components 2001 to 2003, remote-call components 2004
to 2007, two client functions and two multicast functions. -/
def Example.CharacterInfo : FClassInfo :=
  { SingleClientComponent := 2001
    MultiClientComponent := 2002
    HandoverComponent := 2003
    ComponentClasses := []
    RPCComponents := fun t =>
      match t with
      | ERPCType.RPC_Client => 2004
      | ERPCType.RPC_Server => 2005
      | ERPCType.RPC_CrossServer => 2006
      | ERPCType.RPC_NetMulticast => 2007
      | ERPCType.RPC_Count => 0
    RPCs := [(ERPCType.RPC_Client, [{ Id := 1 }, { Id := 2 }]),
             (ERPCType.RPC_NetMulticast, [{ Id := 10 }, { Id := 11 }])] }

/-- The example worker with type bindings for `Character`.  Entity 1 has a channel and its
objects resolve (offset n to object 101 + n); no other entity does.  A schema object is a
list of words; an event word is 100 times its field id plus its target offset; a command
request is its command index followed by its target offset; a data payload starting with
5 has one reference to entity 5 that the reader cannot resolve; an update payload replaces
the x coordinate of a stored position. -/
def Example.updateEnv : UpdateEnv :=
  { toEnv := { Example.env with
      FindClassByComponentId := fun c => if 2001 ≤ c ∧ c ≤ 2007 then some Example.Character else none
      FindClassInfoByClass := fun k => if k = Example.Character then some Example.CharacterInfo else none
      ReaderApplyComponentData := fun d _ _ m =>
        if d.schema_type.head? = some 5 then
          ([(0, FObjectReferences.mk [{ Entity := 5, Offset := 0 }] true none 0
              { Id := 0, bArrayProperty := false, bObjectPropertyBase := true, ElementSize := 8 })],
            [{ Entity := 5, Offset := 0 }])
        else (m, []) }
    ROTATION_COMPONENT_ID := 100001
    PLAYER_SPAWNER_COMPONENT_ID := 100002
    EntityAclApplyComponentUpdate := fun _ u => u.schema_type
    PositionApplyComponentUpdate := fun c u =>
      match u.schema_type.head? with
      | some x => { c with X := Int.ofNat x }
      | none => c
    RotationApplyComponentUpdate := fun _ u => u.schema_type
    GetActorChannelByEntityId := fun E =>
      if E = 1 then some { Id := 1, Actor := some Example.Pawn } else none
    Schema_GetComponentUpdateEvents := fun st => st
    Schema_GetObjectCount := fun o f => (o.filter (fun w => w / 100 == f)).length
    Schema_IndexObject := fun o f i => [(o.filter (fun w => w / 100 == f)).getD i 0]
    Schema_GetUint32 := fun o _ => o.headD 0 % 100
    Schema_GetString := fun _ _ => ""
    Schema_GetCommandRequestCommandIndex := fun st => st.headD 0
    Schema_GetCommandRequestObject := fun st => st.tail
    GetNetGUIDFromUnrealObjectRef := fun r => if r.Entity = 1 then some (r.Offset + 1) else none
    GetObjectFromNetGUID := fun g => some (100 + g)
    ReceivePropertiesForRPC := fun _ _ => []
    ReaderApplyComponentUpdate := fun _ _ _ m => (m, []) }

/-- After the example burst entity 1 is bound; a second burst announces it again with its
core components and one dynamic component. -/
def Example.rebindBurst : List Notification :=
  Example.burst ++
  [Notification.EnterCriticalSection,
   Notification.AddEntity 1,
   Notification.AddComponent (Example.AddOp 1 53 1),
   Notification.AddComponent (Example.AddOp 1 54 10),
   Notification.AddComponent (Example.AddOp 1 100004 0),
   Notification.AddComponent (Example.AddOp 1 2001 7)]

/-- A burst for entity 2 whose dynamic component 2001 refers to entity 5, which is not
known locally. -/
def Example.referringBurst : List Notification :=
  [Notification.EnterCriticalSection,
   Notification.AddEntity 2,
   Notification.AddComponent (Example.AddOp 2 53 1),
   Notification.AddComponent (Example.AddOp 2 54 10),
   Notification.AddComponent (Example.AddOp 2 100004 0),
   Notification.AddComponent (Example.AddOp 2 2001 5),
   Notification.LeaveCriticalSection]

/-- The state the referring burst leads to in the example worker with type bindings. -/
def Example.referring : USpatialReceiver :=
  (Deliver Example.updateEnv.toEnv Example.referringBurst Example.initial).state

/-- An authority change. -/
def Example.AuthorityOp (entity_id : Worker_EntityId) (component_id : Worker_ComponentId)
    (authority : Worker_Authority) : Worker_AuthorityChangeOp :=
  { entity_id := entity_id, component_id := component_id, authority := authority }

/-- The view after the position of entity 7 (x = 10) was added and authority over it was
gained. -/
def Example.authoritativeView : USpatialStaticComponentView :=
  USpatialStaticComponentView.Deliver Example.updateEnv
    [ViewOp.AddComponent (Example.AddOp 7 54 10),
     ViewOp.AuthorityChange (Example.AuthorityOp 7 54
       Worker_Authority.WORKER_AUTHORITY_AUTHORITATIVE)]
    USpatialStaticComponentView.empty

/-- A component update with a one-word payload. -/
def Example.UpdateOp (entity_id : Worker_EntityId) (component_id : Worker_ComponentId)
    (words : List Nat) : Worker_ComponentUpdateOp :=
  { entity_id := entity_id, update := { component_id := component_id, schema_type := words } }

/-- A command request for a component of an entity: command index and target offset. -/
def Example.CommandOp (entity_id : Worker_EntityId) (component_id : Worker_ComponentId)
    (CommandIndex Offset : Nat) : Worker_CommandRequestOp :=
  { request_id := 42, entity_id := entity_id, caller_worker_id := "worker",
    request := { component_id := component_id, schema_type := [CommandIndex, Offset] } }

/-- Both reference maps are as before. -/
def SameReferences (s s' : USpatialReceiver) : Prop :=
  s'.IncomingRefsMap = s.IncomingRefsMap ∧ s'.UnresolvedRefsMap = s.UnresolvedRefsMap

/-- The references that a recorded `FObjectReferences` is itself waiting for (those of a
nested array map are not included). -/
def FObjectReferences.UnresolvedRefs : FObjectReferences → List UnrealObjectRef
  | FObjectReferences.mk UnresolvedRefs _ _ _ _ => UnresolvedRefs

/-- The references that the entries of `UnresolvedRefsMap` are waiting for. -/
def UnresolvedTargets (s : USpatialReceiver) : List UnrealObjectRef :=
  s.UnresolvedRefsMap.flatMap (fun p => p.2.flatMap (fun q => q.2.UnresolvedRefs))

/-- The command responses sent in a trace, in order, each with the request id and the
component id it carries, whichever of the two ways it was sent. -/
def CommandResponses : List Event → List (Nat × Worker_ComponentId)
  | [] => []
  | Event.SendCommandResponse request_id component_id _ :: t =>
    (request_id, component_id) :: CommandResponses t
  | Event.Worker_Connection_SendCommandResponse request_id component_id _ :: t =>
    (request_id, component_id) :: CommandResponses t
  | _ :: t => CommandResponses t

/-- The command responses sent so far are the same in both states. -/
def SameResponses (s s' : USpatialReceiver) : Prop :=
  CommandResponses s'.Trace = CommandResponses s.Trace

/-- Records of a buffered snapshot being applied: `ApplyComponentData` being entered and
the reader call it makes. -/
def Event.isApplication : Event → Bool
  | Event.ApplyComponentData _ _ _ => true
  | Event.ReaderApplyComponentData _ _ _ => true
  | _ => false

/-- The arguments of the `ApplyComponentData` calls that the loop at the end of
`CreateActor` makes over a buffer: one for each entry of the entity whose data is a
dynamic component, in buffer order. -/
def PendingDynamicData (ws : List PendingAddComponentWrapper) (E : Worker_EntityId) :
    List (Worker_EntityId × Worker_ComponentData) :=
  ws.filterMap (fun w =>
    match w.Data with
    | some (Component.DynamicComponent Data) => if w.EntityId = E then some (E, Data) else none
    | _ => none)

/-- The state of the example worker with type bindings when the referring burst is still
open: entity 2 is announced and its four components are buffered. -/
def Example.referringPending : USpatialReceiver :=
  (Deliver Example.updateEnv.toEnv Example.referringBurst.dropLast Example.initial).state

/-! ## Observations of reference resolution -/

mutual
/-- The references that resolution reads as unresolved in a reference map: those of its
entries, in order. -/
def PendingRefsOfMap : List (Int × FObjectReferences) → List UnrealObjectRef
  | [] => []
  | (_, ObjectReferences) :: rest => PendingRefs ObjectReferences ++ PendingRefsOfMap rest
/-- The references that resolution reads as unresolved in an entry: those of the nested
map for an array entry, its own set otherwise. -/
def PendingRefs : FObjectReferences → List UnrealObjectRef
  | FObjectReferences.mk _ _ (some ArrayMap) _ _ => PendingRefsOfMap ArrayMap
  | FObjectReferences.mk UnresolvedRefs _ none _ _ => UnresolvedRefs
end

/-- The references that the forward index holds for a channel and object. -/
def ForwardRefs (s : USpatialReceiver) (ChannelObjectPair : FChannelObjectPair) :
    List UnrealObjectRef :=
  match TMap.Find s.UnresolvedRefsMap ChannelObjectPair with
  | some ObjectReferencesMap => PendingRefsOfMap ObjectReferencesMap
  | none => []

/-- The channels and objects that the reverse index holds for a reference. -/
def WaitingFor (s : USpatialReceiver) (ObjectRef : UnrealObjectRef) : List FChannelObjectPair :=
  (TMap.Find s.IncomingRefsMap ObjectRef).getD []

mutual
/-- The references that `ResolveObjectReferences` looks at in a reference map: those of
the entries below the bound, and for an array entry those that the nested call looks
at. -/
def VisitedRefsOfMap (env : ResolveEnv) :
    List (Int × FObjectReferences) → Int → Int → Int → List UnrealObjectRef
  | [], _, _, _ => []
  | (AbsOffset, ObjectReferences) :: rest, StoredData, Data, MaxAbsOffset =>
    if AbsOffset ≥ MaxAbsOffset then VisitedRefsOfMap env rest StoredData Data MaxAbsOffset
    else VisitedRefs env ObjectReferences AbsOffset StoredData Data ++
      VisitedRefsOfMap env rest StoredData Data MaxAbsOffset
/-- The references that the loop body of `ResolveObjectReferences` looks at in an entry. -/
def VisitedRefs (env : ResolveEnv) : FObjectReferences → Int → Int → Int → List UnrealObjectRef
  | FObjectReferences.mk _ _ (some ArrayMap) _ Property, AbsOffset, StoredData, Data =>
    VisitedRefsOfMap env ArrayMap (env.ScriptArrayData (StoredData + AbsOffset))
      (env.ScriptArrayData (Data + AbsOffset))
      (min (env.ScriptArrayNum (StoredData + AbsOffset)) (env.ScriptArrayNum (Data + AbsOffset)) *
        Property.ElementSize)
  | FObjectReferences.mk UnresolvedRefs _ none _ _, _, _, _ => UnresolvedRefs
end

mutual
/-- The reference map that `ResolveObjectReferences` leaves when it returns, computed
without its calls and checks: entries at or beyond the bound are dropped, a reference
with a valid GUID is dropped, an entry without references and an array entry with an
empty nested map are dropped. -/
def UnresolvedAfter (env : ResolveEnv) :
    List (Int × FObjectReferences) → Int → Int → Int → List (Int × FObjectReferences)
  | [], _, _, _ => []
  | (AbsOffset, ObjectReferences) :: rest, StoredData, Data, MaxAbsOffset =>
    if AbsOffset ≥ MaxAbsOffset then UnresolvedAfter env rest StoredData Data MaxAbsOffset
    else
      match UnresolvedAfterEntry env ObjectReferences AbsOffset StoredData Data with
      | some Kept => (AbsOffset, Kept) :: UnresolvedAfter env rest StoredData Data MaxAbsOffset
      | none => UnresolvedAfter env rest StoredData Data MaxAbsOffset
/-- What `UnresolvedAfter` keeps of one entry below the bound. -/
def UnresolvedAfterEntry (env : ResolveEnv) :
    FObjectReferences → Int → Int → Int → Option FObjectReferences
  | FObjectReferences.mk UnresolvedRefs bSingleProp (some ArrayMap) ParentIndex Property,
      AbsOffset, StoredData, Data =>
    if (UnresolvedAfter env ArrayMap (env.ScriptArrayData (StoredData + AbsOffset))
        (env.ScriptArrayData (Data + AbsOffset))
        (min (env.ScriptArrayNum (StoredData + AbsOffset))
          (env.ScriptArrayNum (Data + AbsOffset)) * Property.ElementSize)).isEmpty then none
    else some (FObjectReferences.mk UnresolvedRefs bSingleProp
      (some (UnresolvedAfter env ArrayMap (env.ScriptArrayData (StoredData + AbsOffset))
        (env.ScriptArrayData (Data + AbsOffset))
        (min (env.ScriptArrayNum (StoredData + AbsOffset))
          (env.ScriptArrayNum (Data + AbsOffset)) * Property.ElementSize)))
      ParentIndex Property)
  | FObjectReferences.mk UnresolvedRefs bSingleProp none ParentIndex Property, _, _, _ =>
    if (UnresolvedRefs.filter
        (fun ObjectRef => (env.GetNetGUIDFromUnrealObjectRef ObjectRef).isNone)).isEmpty then none
    else some (FObjectReferences.mk
      (UnresolvedRefs.filter
        (fun ObjectRef => (env.GetNetGUIDFromUnrealObjectRef ObjectRef).isNone))
      bSingleProp none ParentIndex Property)
end

mutual
/-- Every entry of a reference map still has an unresolved reference. -/
def StillUnresolvedMap : List (Int × FObjectReferences) → Bool
  | [] => true
  | (_, ObjectReferences) :: rest => StillUnresolved ObjectReferences && StillUnresolvedMap rest
/-- An entry still has an unresolved reference: its own set is not empty, or for an array
entry the nested map is not empty and every entry of it still has one. -/
def StillUnresolved : FObjectReferences → Bool
  | FObjectReferences.mk _ _ (some ArrayMap) _ _ =>
    !ArrayMap.isEmpty && StillUnresolvedMap ArrayMap
  | FObjectReferences.mk UnresolvedRefs _ none _ _ => !UnresolvedRefs.isEmpty
end

mutual
/-- No check of `ResolveObjectReferences` can fail on a reference map: see
`WellFormedRefs`. -/
def WellFormedRefsMap (env : ResolveEnv) (RepLayout : List FRepParentCmd) :
    List (Int × FObjectReferences) → Bool
  | [] => true
  | (_, ObjectReferences) :: rest =>
    WellFormedRefs env RepLayout ObjectReferences && WellFormedRefsMap env RepLayout rest
/-- No check of `ResolveObjectReferences` can fail on an entry: its parent index is one of
the layout, an array entry belongs to an array property and its nested map is well formed,
and otherwise every reference with a valid GUID has an object and a single property is an
object property. -/
def WellFormedRefs (env : ResolveEnv) (RepLayout : List FRepParentCmd) :
    FObjectReferences → Bool
  | FObjectReferences.mk _ _ (some ArrayMap) ParentIndex Property =>
    decide (ParentIndex < RepLayout.length) && Property.bArrayProperty &&
      WellFormedRefsMap env RepLayout ArrayMap
  | FObjectReferences.mk UnresolvedRefs bSingleProp none ParentIndex Property =>
    decide (ParentIndex < RepLayout.length) &&
      UnresolvedRefs.all (fun ObjectRef =>
        match env.GetNetGUIDFromUnrealObjectRef ObjectRef with
        | some NetGUID => (env.GetObjectFromNetGUID NetGUID).isSome
        | none => true) &&
      (!bSingleProp || Property.bObjectPropertyBase)
end

/-- The calls of `ResolveObjectReferences` that `ResolveIncomingOperations` made in a
trace: the channel and object of each, in order. -/
def ResolveObjectReferencesCalls : List Event → List FChannelObjectPair
  | [] => []
  | Event.ResolveObjectReferences Channel ReplicatedObject :: t =>
    (Channel, ReplicatedObject) :: ResolveObjectReferencesCalls t
  | _ :: t => ResolveObjectReferencesCalls t

/-- The property of the example references: a single object property of eight bytes. -/
def Example.ObjectProperty : UProperty :=
  { Id := 0, bArrayProperty := false, bObjectPropertyBase := true, ElementSize := 8 }

/-- The example worker at a later time: the objects of entities 1 and 5 resolve (offset n
of entity 5 to object 501 + n), every object has one parent command, which notifies, a
static buffer of 64 bytes, and script arrays of two elements. -/
def Example.resolveEnv : ResolveEnv :=
  { toUpdateEnv := { Example.updateEnv with
      GetNetGUIDFromUnrealObjectRef := fun r =>
        if r.Entity = 1 then some (r.Offset + 1)
        else if r.Entity = 5 then some (r.Offset + 401)
        else none }
    GetObjectRepLayout := fun _ _ =>
      [{ Property := Example.ObjectProperty, bRepNotify := true, bRepNotifyAlways := false }]
    GetObjectStaticBuffer := fun _ o => (1000 * Int.ofNat o, 64)
    ObjectAddress := fun o => 2000 * Int.ofNat o
    ScriptArrayNum := fun _ => 2
    ScriptArrayData := fun a => a + 100000
    Identical := fun _ _ _ => false }

/-- The receiver in which the object on channel 1 waits for two references into entity 5,
at offsets 0 and 8 of its data, and for one into entity 6 at offset 16: the reader has
written the reference map and `QueueIncomingRepUpdates` has registered the three
references. -/
def Example.waiting : USpatialReceiver :=
  (QueueIncomingRepUpdates (1, 1)
    [(0, FObjectReferences.mk [{ Entity := 5, Offset := 0 }] true none 0 Example.ObjectProperty),
     (8, FObjectReferences.mk [{ Entity := 5, Offset := 1 }] true none 0 Example.ObjectProperty),
     (16, FObjectReferences.mk [{ Entity := 6, Offset := 0 }] true none 0 Example.ObjectProperty)]
    [{ Entity := 5, Offset := 0 }, { Entity := 5, Offset := 1 }, { Entity := 6, Offset := 0 }]
    { Example.initial with
      UnresolvedRefsMap :=
        [((1, 1),
          [(0, FObjectReferences.mk [{ Entity := 5, Offset := 0 }] true none 0
              Example.ObjectProperty),
           (8, FObjectReferences.mk [{ Entity := 5, Offset := 1 }] true none 0
              Example.ObjectProperty),
           (16, FObjectReferences.mk [{ Entity := 6, Offset := 0 }] true none 0
              Example.ObjectProperty)])] }).state

/-- The reference map that the call of `ResolveObjectReferences` made for a waiting channel
and object leaves: `UnresolvedAfter` with the arguments of `ResolveOwner`. -/
def UnresolvedAfterOwner (env : ResolveEnv) (ChannelObjectPair : FChannelObjectPair)
    (UnresolvedRefs : FObjectReferencesMap) : FObjectReferencesMap :=
  UnresolvedAfter env UnresolvedRefs
    (env.GetObjectStaticBuffer ChannelObjectPair.1 ChannelObjectPair.2).1
    (env.ObjectAddress ChannelObjectPair.2)
    (env.GetObjectStaticBuffer ChannelObjectPair.1 ChannelObjectPair.2).2

/-- The references that the call of `ResolveObjectReferences` made for a waiting channel and
object looks at: `VisitedRefsOfMap` with the arguments of `ResolveOwner`. -/
def VisitedRefsOfOwner (env : ResolveEnv) (ChannelObjectPair : FChannelObjectPair)
    (UnresolvedRefs : FObjectReferencesMap) : List UnrealObjectRef :=
  VisitedRefsOfMap env UnresolvedRefs
    (env.GetObjectStaticBuffer ChannelObjectPair.1 ChannelObjectPair.2).1
    (env.ObjectAddress ChannelObjectPair.2)
    (env.GetObjectStaticBuffer ChannelObjectPair.1 ChannelObjectPair.2).2

/-- The calls that `ResolveObjectReferences` makes on the engine. -/
def Event.isResolveWrite : Event → Bool
  | Event.CopySingleValue _ _ _ => true
  | Event.PreNetReceive _ => true
  | Event.SetObjectPropertyValue _ _ _ => true
  | _ => false

/-- The calls recorded during reference resolution grow by calls on the engine. -/
def CallsGrow (st st' : ResolveState) : Prop :=
  ∃ t, st'.Calls = st.Calls ++ t ∧ ∀ e ∈ t, e.isResolveWrite = true

/-- The queue of resolution notifications is as before. -/
def SameQueue (s s' : USpatialReceiver) : Prop :=
  s'.ResolvedObjectQueue = s.ResolvedObjectQueue

/-- An operation returns normally from every state. -/
structure Exec.Returns {σ α : Type} (m : Exec σ α) : Prop where
  run : ∀ s, (m s).isFatal = false

/-- The forward entry of a waiting channel and object after `ResolveIncomingOperations` has
handled them, from the entry found before: no entry stays no entry, and a reference map is
replaced by what `ResolveObjectReferences` leaves of it, or removed when nothing is left. -/
def ForwardEntryAfter (env : ResolveEnv) (ChannelObjectPair : FChannelObjectPair) :
    Option FObjectReferencesMap → Option FObjectReferencesMap
  | none => none
  | some UnresolvedRefs =>
    if (UnresolvedAfterOwner env ChannelObjectPair UnresolvedRefs).isEmpty then none
    else some (UnresolvedAfterOwner env ChannelObjectPair UnresolvedRefs)

/-- The two indexes agree: a channel and object are in the waiting set of a reference
exactly when the reference is among the unresolved references of their forward entry. -/
def IndexConsistent (s : USpatialReceiver) : Prop :=
  ∀ (p : FChannelObjectPair) (R : UnrealObjectRef), p ∈ WaitingFor s R ↔ R ∈ ForwardRefs s p

/-- The forward index is covered by the reverse index: a channel and object are in the
waiting set of every unresolved reference of their forward entry. -/
def ForwardCovered (s : USpatialReceiver) : Prop :=
  ∀ (p : FChannelObjectPair) (R : UnrealObjectRef), R ∈ ForwardRefs s p → p ∈ WaitingFor s R

/-- A step of reference bookkeeping.  In `queue` the reader has written the reference map
of a channel and object through the reference that `FindOrAdd` returned and reported a set
of references, and `QueueIncomingRepUpdates` is called with that map and that set, as in
`ApplyComponentData`; every unresolved reference of the map written was reported or was in
the forward entry before.  In `resolve` a call of `ResolveIncomingOperations` for a
reference that has a valid GUID returns normally. -/
inductive ResolverStep : USpatialReceiver → USpatialReceiver → Prop where
  | queue (s : USpatialReceiver) (p : FChannelObjectPair) (M : FObjectReferencesMap)
      (refs : List UnrealObjectRef)
      (hreported : ∀ R ∈ PendingRefsOfMap M, R ∈ refs ∨ R ∈ ForwardRefs s p) :
      ResolverStep s (QueueIncomingRepUpdates p M refs { s with
        UnresolvedRefsMap := TMap.Set s.UnresolvedRefsMap p M }).state
  | resolve (env : ResolveEnv) (Object : UObject) (R : UnrealObjectRef) (s s' : USpatialReceiver)
      (hvalid : (env.GetNetGUIDFromUnrealObjectRef R).isSome = true)
      (hreturn : ResolveIncomingOperations env Object R s = Outcome.ok () s') :
      ResolverStep s s'

/-- The states that reference bookkeeping reaches from a receiver with both indexes empty. -/
inductive ResolverReachable : USpatialReceiver → Prop where
  | start (s : USpatialReceiver) (hforward : s.UnresolvedRefsMap = [])
      (hreverse : s.IncomingRefsMap = []) : ResolverReachable s
  | step (s s' : USpatialReceiver) (hs : ResolverReachable s) (hstep : ResolverStep s s') :
      ResolverReachable s'

/-- An array property whose elements are eight bytes wide. -/
def Example.ArrayProperty : UProperty :=
  { Id := 1, bArrayProperty := true, bObjectPropertyBase := false, ElementSize := 8 }

/-- A reference map for an object whose array at offset 0 has shrunk to two elements: the
nested map still has an entry for the third element, at offset 16, and the map has an
entry at offset 64, the size of the object's buffer.  Every entry waits for a reference
into entity 6. -/
def Example.shrunk : List (Int × FObjectReferences) :=
  [(0, FObjectReferences.mk [] false
      (some
        [(0, FObjectReferences.mk [{ Entity := 6, Offset := 0 }] true none 0
            Example.ObjectProperty),
         (16, FObjectReferences.mk [{ Entity := 6, Offset := 0 }] true none 0
            Example.ObjectProperty)])
      0 Example.ArrayProperty),
   (64, FObjectReferences.mk [{ Entity := 6, Offset := 0 }] true none 0 Example.ObjectProperty)]

/-- The records that `ResolveIncomingOperations` makes: its calls of
`ResolveObjectReferences`, the calls that those make on the engine, and
`PostReceiveSpatialUpdate`.  The two calls on the sender are not among them. -/
def Event.isIncomingResolution : Event → Bool
  | Event.ResolveObjectReferences _ _ => true
  | Event.CopySingleValue _ _ _ => true
  | Event.PreNetReceive _ => true
  | Event.SetObjectPropertyValue _ _ _ => true
  | Event.PostReceiveSpatialUpdate _ _ _ => true
  | _ => false

/-! ## Sequencing lemmas -/

theorem Exec.bind_apply {σ α β : Type} (m : Exec σ α) (f : α → Exec σ β) (s : σ) :
    (m >>= f) s = match m s with
      | Outcome.ok a s1 => f a s1
      | Outcome.fatal s1 => Outcome.fatal s1 := rfl

theorem Exec.pure_apply {σ α : Type} (a : α) (s : σ) :
    (pure a : Exec σ α) s = Outcome.ok a s := rfl

theorem Exec.forEach_nil {σ α : Type} (f : α → Exec σ Unit) (s : σ) :
    Exec.forEach f [] s = Outcome.ok () s := rfl

theorem Exec.forEach_cons {σ α : Type} (f : α → Exec σ Unit) (x : α) (xs : List α) (s : σ) :
    Exec.forEach f (x :: xs) s = match f x s with
      | Outcome.ok _ s1 => Exec.forEach f xs s1
      | Outcome.fatal s1 => Outcome.fatal s1 := by
  rw [Exec.forEach, Exec.andThen]
  cases f x s <;> rfl

theorem Outcome.eq_ok_of_not_fatal {σ : Type} (o : Outcome σ Unit) (h : o.isFatal = false) :
    o = Outcome.ok () o.state := by
  cases o with
  | ok a s => rfl
  | fatal s => cases h

theorem Exec.keeps_pure {σ α : Type} {R : σ → σ → Prop} (h : Exec.Preorder R) (a : α) :
    Exec.Keeps R (pure a : Exec σ α) := ⟨fun s => h.refl s⟩

theorem Exec.keeps_bind {σ α β : Type} {R : σ → σ → Prop} (h : Exec.Preorder R)
    {m : Exec σ α} {f : α → Exec σ β} (hm : Exec.Keeps R m) (hf : ∀ a, Exec.Keeps R (f a)) :
    Exec.Keeps R (m >>= f) := by
  constructor
  intro s
  have h1 := hm.run s
  rw [Exec.bind_apply]
  cases hms : m s with
  | ok a s1 =>
    rw [hms] at h1
    exact h.trans _ _ _ h1 ((hf a).run s1)
  | fatal s1 =>
    rw [hms] at h1
    exact h1

theorem Exec.keeps_check {σ : Type} {R : σ → σ → Prop} (h : Exec.Preorder R) (c : Bool) :
    Exec.Keeps R (Exec.check c : Exec σ Unit) := by
  constructor
  intro s
  cases c <;> exact h.refl s

theorem Exec.keeps_deref {σ α : Type} {R : σ → σ → Prop} (h : Exec.Preorder R) (p : Option α) :
    Exec.Keeps R (Exec.deref p : Exec σ α) := by
  constructor
  intro s
  cases p <;> exact h.refl s

theorem Exec.keeps_get {σ : Type} {R : σ → σ → Prop} (h : Exec.Preorder R) :
    Exec.Keeps R (Exec.get : Exec σ σ) := ⟨fun s => h.refl s⟩

theorem Exec.keeps_when {σ : Type} {R : σ → σ → Prop} (h : Exec.Preorder R) (c : Bool)
    {m : Exec σ Unit} (hm : Exec.Keeps R m) : Exec.Keeps R (Exec.when c m) := by
  cases c
  · exact ⟨fun s => h.refl s⟩
  · exact hm

theorem Exec.keeps_forEach {σ α : Type} {R : σ → σ → Prop} (h : Exec.Preorder R)
    (f : α → Exec σ Unit) (hf : ∀ a, Exec.Keeps R (f a)) (xs : List α) :
    Exec.Keeps R (Exec.forEach f xs) := by
  induction xs with
  | nil => exact ⟨fun s => h.refl s⟩
  | cons x xs ih => exact Exec.keeps_bind h (hf x) (fun _ => ih)

/-- A property of states that every step of a loop carries over carries over the loop. -/
theorem Exec.forEach_invariant {σ α : Type} (I : σ → Prop) (f : α → Exec σ Unit)
    (hf : ∀ x s s', I s → f x s = Outcome.ok () s' → I s') (xs : List α) :
    ∀ s s', I s → Exec.forEach f xs s = Outcome.ok () s' → I s' := by
  induction xs with
  | nil =>
    intro s s' hI h
    rw [Exec.forEach_nil] at h
    cases h
    exact hI
  | cons x xs ih =>
    intro s s' hI h
    rw [Exec.forEach_cons] at h
    cases hx : f x s with
    | ok a s1 =>
      rw [hx] at h
      exact ih s1 s' (hf x s s1 hI hx) h
    | fatal s1 =>
      rw [hx] at h
      cases h

/-! ## The frame of the lifecycle functions -/

theorem Frame.preorder (P : Event → Prop) : Exec.Preorder (Frame P) where
  refl := fun s => ⟨rfl, rfl, rfl, rfl, rfl, rfl, rfl, [], by simp, by simp⟩
  trans := by
    rintro a b c ⟨h1, h2, h3, h4, h5, h6, h7, t, ht, hP⟩ ⟨g1, g2, g3, g4, g5, g6, g7, u, hu, hQ⟩
    refine ⟨g1.trans h1, g2.trans h2, g3.trans h3, g4.trans h4, g5.trans h5, g6.trans h6,
      g7.trans h7, t ++ u, ?_, ?_⟩
    · rw [hu, ht, List.append_assoc]
    · intro e he
      rcases List.mem_append.mp he with h | h
      · exact hP e h
      · exact hQ e h

theorem emit_frame {P : Event → Prop} (e : Event) (he : P e) : Exec.Keeps (Frame P) (emit e) := by
  constructor
  intro s
  refine ⟨rfl, rfl, rfl, rfl, rfl, rfl, rfl, [e], rfl, ?_⟩
  intro x hx
  rw [List.mem_singleton.mp hx]
  exact he

theorem modify_registry_frame (P : Event → Prop) (g : UEntityRegistry → UEntityRegistry) :
    Exec.Keeps (Frame P)
      (Exec.modify (fun s : USpatialReceiver => { s with EntityRegistry := s.EntityRegistry.map g })) :=
  ⟨fun s => ⟨rfl, rfl, rfl, rfl, rfl, rfl, by simp [Exec.modify, Outcome.state], [],
    by simp [Exec.modify, Outcome.state], by simp⟩⟩

theorem modify_incoming_frame (P : Event → Prop)
    (g : USpatialReceiver → List (UnrealObjectRef × List FChannelObjectPair)) :
    Exec.Keeps (Frame P)
      (Exec.modify (fun s : USpatialReceiver => { s with IncomingRefsMap := g s })) :=
  ⟨fun s => ⟨rfl, rfl, rfl, rfl, rfl, rfl, rfl, [],
    by simp [Exec.modify, Outcome.state], by simp⟩⟩

theorem modify_unresolved_frame (P : Event → Prop)
    (g : USpatialReceiver → List (FChannelObjectPair × FObjectReferencesMap)) :
    Exec.Keeps (Frame P)
      (Exec.modify (fun s : USpatialReceiver => { s with UnresolvedRefsMap := g s })) :=
  ⟨fun s => ⟨rfl, rfl, rfl, rfl, rfl, rfl, rfl, [],
    by simp [Exec.modify, Outcome.state], by simp⟩⟩

theorem CleanupDeletedEntity_frame (env : Env) (E : Worker_EntityId) :
    Exec.Keeps (Frame InsideRemove) (CleanupDeletedEntity env E) := by
  have hp := Frame.preorder InsideRemove
  unfold CleanupDeletedEntity
  repeat (first
    | (with_reducible refine Exec.keeps_bind hp ?_ ?_)
    | intro _
    | ((with_reducible refine emit_frame _ ?_) <;> exact ⟨rfl, rfl⟩)
    | (with_reducible exact Exec.keeps_check hp _)
    | (with_reducible exact Exec.keeps_deref hp _)
    | (with_reducible exact Exec.keeps_get hp)
    | (with_reducible exact modify_registry_frame _ _))

theorem QueueIncomingRepUpdates_frame (P : Event → Prop) (p : FChannelObjectPair)
    (m : FObjectReferencesMap) (u : List UnrealObjectRef) :
    Exec.Keeps (Frame P) (QueueIncomingRepUpdates p m u) := by
  have hp := Frame.preorder P
  unfold QueueIncomingRepUpdates
  repeat (first
    | (with_reducible refine Exec.keeps_bind hp ?_ ?_)
    | (with_reducible refine Exec.keeps_forEach hp _ ?_ _)
    | intro _
    | split
    | (with_reducible exact Exec.keeps_pure hp _)
    | (with_reducible exact modify_incoming_frame _ _)
    | (with_reducible exact modify_unresolved_frame _ _))

theorem GetTargetObjectFromChannelAndClass_frame (P : Event → Prop) (env : Env)
    (c : USpatialActorChannel) (k : UClass) :
    Exec.Keeps (Frame P) (GetTargetObjectFromChannelAndClass env c k) := by
  have hp := Frame.preorder P
  unfold GetTargetObjectFromChannelAndClass
  repeat (first
    | (with_reducible refine Exec.keeps_bind hp ?_ ?_)
    | intro _
    | split
    | (with_reducible exact Exec.keeps_check hp _)
    | (with_reducible exact Exec.keeps_deref hp _)
    | (with_reducible exact Exec.keeps_pure hp _))

theorem ApplyComponentData_frame (env : Env) (E : Worker_EntityId) (d : Worker_ComponentData)
    (c : USpatialActorChannel) :
    Exec.Keeps (Frame InsideCreate) (ApplyComponentData env E d c) := by
  have hp := Frame.preorder InsideCreate
  unfold ApplyComponentData
  repeat (first
    | (with_reducible refine Exec.keeps_bind hp ?_ ?_)
    | intro _
    | split
    | ((with_reducible refine emit_frame _ ?_) <;> exact ⟨rfl, rfl⟩)
    | (with_reducible exact GetTargetObjectFromChannelAndClass_frame _ _ _ _)
    | (with_reducible exact QueueIncomingRepUpdates_frame _ _ _ _)
    | (with_reducible exact Exec.keeps_deref hp _)
    | (with_reducible exact Exec.keeps_get hp)
    | (with_reducible exact Exec.keeps_pure hp _)
    | (with_reducible exact modify_unresolved_frame _ _))

theorem SpawnNewEntity_frame (env : Env) (c : Coordinates) (k : Option UClass) (b : Bool) :
    Exec.Keeps (Frame InsideCreate) (SpawnNewEntity env c k b) := by
  have hp := Frame.preorder InsideCreate
  unfold SpawnNewEntity
  repeat (first
    | (with_reducible refine Exec.keeps_bind hp ?_ ?_)
    | intro _
    | split
    | ((with_reducible refine emit_frame _ ?_) <;> exact ⟨rfl, rfl⟩)
    | (with_reducible exact Exec.keeps_deref hp _)
    | (with_reducible exact Exec.keeps_pure hp _))

theorem ApplyPendingDynamicComponents_frame (env : Env) (E : Worker_EntityId)
    (c : USpatialActorChannel) (ws : List PendingAddComponentWrapper) :
    Exec.Keeps (Frame InsideCreate) (ApplyPendingDynamicComponents env E c ws) := by
  have hp := Frame.preorder InsideCreate
  unfold ApplyPendingDynamicComponents
  refine Exec.keeps_forEach hp _ ?_ _
  intro w
  repeat (first
    | split
    | (with_reducible exact ApplyComponentData_frame _ _ _ _)
    | (with_reducible exact Exec.keeps_pure hp _))

/-- The part of an operation that follows its entry record. -/
theorem Exec.keeps_after_emit {P : Event → Prop} {α : Type} (e : Event) (f : Unit → RExec α)
    (hf : Exec.Keeps (Frame P) (f ())) (s : USpatialReceiver) :
    Frame P { s with Trace := s.Trace ++ [e] } ((emit e >>= f) s).state :=
  hf.run _

theorem CreateActor_frame (env : Env) (E : Worker_EntityId) (s : USpatialReceiver) :
    Frame InsideCreate { s with Trace := s.Trace ++ [Event.CreateActor E] }
      (CreateActor env E s).state := by
  have hp := Frame.preorder InsideCreate
  unfold CreateActor
  refine Exec.keeps_after_emit _ _ ?_ s
  beta_reduce
  repeat (first
    | (with_reducible refine Exec.keeps_bind hp ?_ ?_)
    | (with_reducible refine Exec.keeps_when hp _ ?_)
    | intro _
    | split
    | ((with_reducible refine emit_frame _ ?_) <;> exact ⟨rfl, rfl⟩)
    | (with_reducible exact SpawnNewEntity_frame _ _ _ _)
    | (with_reducible exact ApplyPendingDynamicComponents_frame _ _ _ _)
    | (with_reducible exact Exec.keeps_check hp _)
    | (with_reducible exact Exec.keeps_deref hp _)
    | (with_reducible exact Exec.keeps_get hp)
    | (with_reducible exact Exec.keeps_pure hp _)
    | (with_reducible exact modify_registry_frame _ _))

theorem RemoveActor_frame (env : Env) (E : Worker_EntityId) (s : USpatialReceiver) :
    Frame InsideRemove { s with Trace := s.Trace ++ [Event.RemoveActor E] }
      (RemoveActor env E s).state := by
  have hp := Frame.preorder InsideRemove
  unfold RemoveActor
  refine Exec.keeps_after_emit _ _ ?_ s
  beta_reduce
  repeat (first
    | (with_reducible refine Exec.keeps_bind hp ?_ ?_)
    | (with_reducible refine Exec.keeps_when hp _ ?_)
    | intro _
    | split
    | ((with_reducible refine emit_frame _ ?_) <;> exact ⟨rfl, rfl⟩)
    | (with_reducible exact CleanupDeletedEntity_frame _ _)
    | (with_reducible exact Exec.keeps_check hp _)
    | (with_reducible exact Exec.keeps_deref hp _)
    | (with_reducible exact Exec.keeps_get hp)
    | (with_reducible exact Exec.keeps_pure hp _))

/-! ## The handlers in closed form -/

theorem EnterCriticalSection_eq (s : USpatialReceiver) :
    EnterCriticalSection s =
      if s.bInCriticalSection then Outcome.fatal s
      else Outcome.ok () { s with bInCriticalSection := true } := by
  cases h : s.bInCriticalSection <;>
    simp [EnterCriticalSection, Exec.bind_apply, Exec.get, Exec.check, Exec.modify, h]

theorem OnAddEntity_eq (E : Worker_EntityId) (s : USpatialReceiver) :
    OnAddEntity E s =
      if s.bInCriticalSection then
        Outcome.ok () { s with PendingAddEntities := s.PendingAddEntities ++ [E] }
      else Outcome.fatal s := by
  cases h : s.bInCriticalSection <;>
    simp [OnAddEntity, Exec.bind_apply, Exec.get, Exec.check, Exec.modify, h]

theorem OnAddComponent_eq (env : Env) (Op : Worker_AddComponentOp) (s : USpatialReceiver) :
    OnAddComponent env Op s =
      if s.bInCriticalSection then
        Outcome.ok () { s with PendingAddComponents := s.PendingAddComponents ++
          [{ EntityId := Op.entity_id, ComponentId := Op.data.component_id,
             Data := some (MakeComponent env Op.data) }] }
      else Outcome.fatal s := by
  cases h : s.bInCriticalSection <;>
    simp [OnAddComponent, Exec.bind_apply, Exec.get, Exec.check, Exec.modify, h]

theorem OnRemoveEntity_eq (env : Env) (E : Worker_EntityId) (s : USpatialReceiver) :
    OnRemoveEntity env E s =
      if s.bInCriticalSection then
        Outcome.ok () { s with PendingRemoveEntities := s.PendingRemoveEntities ++ [E] }
      else RemoveActor env E s := by
  cases h : s.bInCriticalSection <;>
    simp [OnRemoveEntity, Exec.bind_apply, Exec.get, Exec.modify, h]

theorem LeaveCriticalSection_eq (env : Env) (s : USpatialReceiver) :
    LeaveCriticalSection env s =
      if s.bInCriticalSection then
        match ApplyPendingLifecycle env s with
        | Outcome.ok _ s2 => Outcome.ok () { s2 with
            bInCriticalSection := false, PendingAddEntities := [], PendingAddComponents := [],
            PendingRemoveEntities := [] }
        | Outcome.fatal s2 => Outcome.fatal s2
      else Outcome.fatal s := by
  cases h : s.bInCriticalSection
  · simp [LeaveCriticalSection, Exec.bind_apply, Exec.get, Exec.check, h]
  · simp only [LeaveCriticalSection, ApplyPendingLifecycle, Exec.bind_apply, Exec.get,
      Exec.check, Exec.modify, h, if_true]
    cases Exec.forEach (CreateActor env) s.PendingAddEntities s with
    | ok a s1 =>
      simp only []
      cases Exec.forEach (RemoveActor env) s1.PendingRemoveEntities s1 <;> rfl
    | fatal s1 => rfl

/-! ## The two loops of `LeaveCriticalSection` -/

theorem CreateActorCalls_append (a b : List Event) :
    CreateActorCalls (a ++ b) = CreateActorCalls a ++ CreateActorCalls b := by
  induction a with
  | nil => rfl
  | cons e a ih => cases e <;> simp [CreateActorCalls, ih]

theorem RemoveActorCalls_append (a b : List Event) :
    RemoveActorCalls (a ++ b) = RemoveActorCalls a ++ RemoveActorCalls b := by
  induction a with
  | nil => rfl
  | cons e a ih => cases e <;> simp [RemoveActorCalls, ih]

theorem CreateActorCalls_eq_nil (t : List Event)
    (h : ∀ e ∈ t, e.isLifecycleCall = false ∨ e.isDestruction = true) : CreateActorCalls t = [] := by
  induction t with
  | nil => rfl
  | cons e t ih =>
    have he := h e (List.mem_cons_self e t)
    have ht := ih (fun x hx => h x (List.mem_cons_of_mem e hx))
    cases e <;> simp_all [CreateActorCalls, Event.isLifecycleCall, Event.isDestruction]

theorem RemoveActorCalls_eq_nil (t : List Event)
    (h : ∀ e ∈ t, e.isLifecycleCall = false ∨ e.isDestruction = false) : RemoveActorCalls t = [] := by
  induction t with
  | nil => rfl
  | cons e t ih =>
    have he := h e (List.mem_cons_self e t)
    have ht := ih (fun x hx => h x (List.mem_cons_of_mem e hx))
    cases e <;> simp_all [RemoveActorCalls, Event.isLifecycleCall, Event.isDestruction]

/-- What one call of `CreateActor` adds to the trace: its entry record, then records that
are neither entry records nor on the destruction side. -/
theorem CreateActor_trace (env : Env) (E : Worker_EntityId) (s : USpatialReceiver) :
    Frame (fun e => e.isDestruction = false) s (CreateActor env E s).state ∧
      ∀ t, (CreateActor env E s).state.Trace = s.Trace ++ t →
        CreateActorCalls t = [E] ∧ RemoveActorCalls t = [] := by
  obtain ⟨h1, h2, h3, h4, h5, h6, h7, u, hu, hP⟩ := CreateActor_frame env E s
  have hu2 : (CreateActor env E s).state.Trace = s.Trace ++ (Event.CreateActor E :: u) := by
    rw [hu]
    simp
  refine ⟨⟨h1, h2, h3, h4, h5, h6, h7, Event.CreateActor E :: u, hu2, ?_⟩, ?_⟩
  · intro e he
    rcases List.mem_cons.mp he with h | h
    · rw [h]
      rfl
    · exact (hP e h).1
  · intro t ht
    have : t = Event.CreateActor E :: u := List.append_cancel_left (ht.symm.trans hu2)
    rw [this]
    constructor
    · show E :: CreateActorCalls u = [E]
      rw [CreateActorCalls_eq_nil u (fun e he => Or.inl (hP e he).2)]
    · show RemoveActorCalls u = []
      exact RemoveActorCalls_eq_nil u (fun e he => Or.inl (hP e he).2)

/-- What one call of `RemoveActor` adds to the trace: its entry record, then records on
the destruction side that are not entry records. -/
theorem RemoveActor_trace (env : Env) (E : Worker_EntityId) (s : USpatialReceiver) :
    Frame (fun e => e.isDestruction = true) s (RemoveActor env E s).state ∧
      ∀ t, (RemoveActor env E s).state.Trace = s.Trace ++ t →
        RemoveActorCalls t = [E] ∧ CreateActorCalls t = [] := by
  obtain ⟨h1, h2, h3, h4, h5, h6, h7, u, hu, hP⟩ := RemoveActor_frame env E s
  have hu2 : (RemoveActor env E s).state.Trace = s.Trace ++ (Event.RemoveActor E :: u) := by
    rw [hu]
    simp
  refine ⟨⟨h1, h2, h3, h4, h5, h6, h7, Event.RemoveActor E :: u, hu2, ?_⟩, ?_⟩
  · intro e he
    rcases List.mem_cons.mp he with h | h
    · rw [h]
      rfl
    · exact (hP e h).1
  · intro t ht
    have : t = Event.RemoveActor E :: u := List.append_cancel_left (ht.symm.trans hu2)
    rw [this]
    constructor
    · show E :: RemoveActorCalls u = [E]
      rw [RemoveActorCalls_eq_nil u (fun e he => Or.inl (hP e he).2)]
    · show CreateActorCalls u = []
      exact CreateActorCalls_eq_nil u (fun e he => Or.inl (hP e he).2)

/-- A loop over calls that each leave exactly one entry record leaves the looped-over
list as its entry records when it runs to the end. -/
theorem forEach_calls {α : Type} (f : α → RExec Unit) (P : Event → Prop)
    (calls : List Event → List α)
    (happ : ∀ a b, calls (a ++ b) = calls a ++ calls b) (hnil : calls [] = [])
    (hf : ∀ x s, Frame P s (f x s).state ∧
      ∀ t, (f x s).state.Trace = s.Trace ++ t → calls t = [x])
    (xs : List α) :
    ∀ s, Frame P s (Exec.forEach f xs s).state ∧
      ∀ t, (Exec.forEach f xs s).state.Trace = s.Trace ++ t →
        (Exec.forEach f xs s).isFatal = false → calls t = xs := by
  induction xs with
  | nil =>
    intro s
    refine ⟨(Frame.preorder P).refl s, ?_⟩
    intro t ht _
    have : t = [] := by
      have h2 : s.Trace ++ t = s.Trace ++ [] := by
        rw [List.append_nil]
        exact ht.symm
      exact List.append_cancel_left h2
    rw [this, hnil]
  | cons x xs ih =>
    intro s
    obtain ⟨hframe, hcalls⟩ := hf x s
    rw [Exec.forEach_cons]
    cases hx : f x s with
    | fatal s1 =>
      rw [hx] at hframe
      refine ⟨hframe, ?_⟩
      intro t _ hfatal
      cases hfatal
    | ok a s1 =>
      rw [hx] at hframe hcalls
      obtain ⟨ihframe, ihcalls⟩ := ih s1
      refine ⟨(Frame.preorder P).trans _ _ _ hframe ihframe, ?_⟩
      intro t ht hok
      obtain ⟨_, _, _, _, _, _, _, u, hu, _⟩ := hframe
      obtain ⟨_, _, _, _, _, _, _, v, hv, _⟩ := ihframe
      have hu1 : s1.Trace = s.Trace ++ u := hu
      have ht2 : t = u ++ v := by
        have hboth : s.Trace ++ t = s.Trace ++ (u ++ v) := by
          rw [← ht]
          show (Exec.forEach f xs s1).state.Trace = s.Trace ++ (u ++ v)
          rw [hv, hu1, List.append_assoc]
        exact List.append_cancel_left hboth
      rw [ht2, happ, hcalls u hu1, ihcalls v hv hok]
      rfl

theorem forEach_CreateActor_trace (env : Env) (xs : List Worker_EntityId) (s : USpatialReceiver) :
    Frame (fun e => e.isDestruction = false) s (Exec.forEach (CreateActor env) xs s).state ∧
      ∀ t, (Exec.forEach (CreateActor env) xs s).state.Trace = s.Trace ++ t →
        (Exec.forEach (CreateActor env) xs s).isFatal = false → CreateActorCalls t = xs :=
  forEach_calls (CreateActor env) _ CreateActorCalls CreateActorCalls_append rfl
    (fun x s => ⟨(CreateActor_trace env x s).1, fun t ht => ((CreateActor_trace env x s).2 t ht).1⟩)
    xs s

theorem forEach_RemoveActor_trace (env : Env) (xs : List Worker_EntityId) (s : USpatialReceiver) :
    Frame (fun e => e.isDestruction = true) s (Exec.forEach (RemoveActor env) xs s).state ∧
      ∀ t, (Exec.forEach (RemoveActor env) xs s).state.Trace = s.Trace ++ t →
        (Exec.forEach (RemoveActor env) xs s).isFatal = false → RemoveActorCalls t = xs :=
  forEach_calls (RemoveActor env) _ RemoveActorCalls RemoveActorCalls_append rfl
    (fun x s => ⟨(RemoveActor_trace env x s).1, fun t ht => ((RemoveActor_trace env x s).2 t ht).1⟩)
    xs s

/-- The two passes of `LeaveCriticalSection`: every outcome keeps the flag and the buffers
and splits the new trace into a creation part followed by a destruction part; a normal
return has entered `CreateActor` for the buffered adds and `RemoveActor` for the buffered
removes, each once and in buffer order. -/
theorem ApplyPendingLifecycle_trace (env : Env) (s : USpatialReceiver) :
    ∃ tA tR, (ApplyPendingLifecycle env s).state.Trace = s.Trace ++ (tA ++ tR) ∧
      (∀ e ∈ tA, e.isDestruction = false) ∧ (∀ e ∈ tR, e.isDestruction = true) ∧
      ((ApplyPendingLifecycle env s).isFatal = false →
        CreateActorCalls tA = s.PendingAddEntities ∧
        RemoveActorCalls tR = s.PendingRemoveEntities) ∧
      (ApplyPendingLifecycle env s).state.bInCriticalSection = s.bInCriticalSection ∧
      (ApplyPendingLifecycle env s).state.PendingAddEntities = s.PendingAddEntities ∧
      (ApplyPendingLifecycle env s).state.PendingAddComponents = s.PendingAddComponents ∧
      (ApplyPendingLifecycle env s).state.PendingRemoveEntities = s.PendingRemoveEntities := by
  have hA := forEach_CreateActor_trace env s.PendingAddEntities s
  have hrun : ApplyPendingLifecycle env s =
      match Exec.forEach (CreateActor env) s.PendingAddEntities s with
      | Outcome.ok _ s1 => Exec.forEach (RemoveActor env) s1.PendingRemoveEntities s1
      | Outcome.fatal s1 => Outcome.fatal s1 := by
    simp only [ApplyPendingLifecycle, Exec.bind_apply, Exec.get]
    cases Exec.forEach (CreateActor env) s.PendingAddEntities s <;> rfl
  rw [hrun]
  cases hc : Exec.forEach (CreateActor env) s.PendingAddEntities s with
  | fatal s1 =>
    rw [hc] at hA
    obtain ⟨⟨h1, h2, h3, h4, _, _, _, u, hu, hP⟩, _⟩ := hA
    refine ⟨u, [], ?_, hP, ?_, ?_, h1, h2, h3, h4⟩
    · rw [List.append_nil]
      exact hu
    · intro e he
      cases he
    · intro h
      cases h
  | ok a s1 =>
    rw [hc] at hA
    obtain ⟨⟨h1, h2, h3, h4, _, _, _, u, hu, hP⟩, hcallsA⟩ := hA
    have hu1 : s1.Trace = s.Trace ++ u := hu
    have h41 : s1.PendingRemoveEntities = s.PendingRemoveEntities := h4
    obtain ⟨⟨g1, g2, g3, g4, _, _, _, v, hv, hQ⟩, hcallsR⟩ :=
      forEach_RemoveActor_trace env s1.PendingRemoveEntities s1
    refine ⟨u, v, ?_, hP, hQ, ?_, g1.trans h1, g2.trans h2, g3.trans h3, g4.trans h4⟩
    · show (Exec.forEach (RemoveActor env) s1.PendingRemoveEntities s1).state.Trace = _
      rw [hv, hu1, List.append_assoc]
    · intro hok
      refine ⟨hcallsA u hu1 rfl, ?_⟩
      rw [← h41]
      exact hcallsR v hv hok

/-! ## Reading the component buffer and the registry -/

theorem GetComponentData_eq_none {T : Type} (C : Worker_ComponentId) (cast : Component → Option T)
    (s : USpatialReceiver) (E : Worker_EntityId) (h : NoPendingEntry s E C) :
    GetComponentData C cast s E = none := by
  unfold GetComponentData
  have : s.PendingAddComponents.find?
      (fun w => decide (w.EntityId = E) && decide (w.ComponentId = C)) = none := by
    rw [List.find?_eq_none]
    intro w hw
    have := h w hw
    simpa using this
  rw [this]

/-- The buffered component read by `GetComponentData` does not depend on the trace. -/
theorem GetComponentData_trace {T : Type} (C : Worker_ComponentId) (cast : Component → Option T)
    (s : USpatialReceiver) (E : Worker_EntityId) (t : List Event) :
    GetComponentData C cast { s with Trace := t } E = GetComponentData C cast s E := rfl

/-- The template `GetComponentData` returns the first match: with no earlier entry for the
pair, an appended entry for the pair is the one read, whatever follows it. -/
theorem GetComponentData_append_first {T : Type} (C : Worker_ComponentId)
    (cast : Component → Option T) (s s2 : USpatialReceiver) (E : Worker_EntityId)
    (w : PendingAddComponentWrapper) (rest : List PendingAddComponentWrapper)
    (hw : w.EntityId = E ∧ w.ComponentId = C) (hnew : NoPendingEntry s E C)
    (h2 : s2.PendingAddComponents = s.PendingAddComponents ++ w :: rest) :
    GetComponentData C cast s2 E = w.Data.bind cast := by
  unfold GetComponentData
  rw [h2, List.find?_append]
  have h1 : s.PendingAddComponents.find?
      (fun w => decide (w.EntityId = E) && decide (w.ComponentId = C)) = none := by
    rw [List.find?_eq_none]
    intro x hx
    have := hnew x hx
    simpa using this
  rw [h1]
  simp [List.find?_cons, hw.1, hw.2]

theorem UEntityRegistry.GetActorFromEntityId_RemoveFromRegistry (r : UEntityRegistry)
    (E : Worker_EntityId) : (r.RemoveFromRegistry E).GetActorFromEntityId E = none := by
  unfold UEntityRegistry.GetActorFromEntityId UEntityRegistry.RemoveFromRegistry
  have : (r.EntityIdToActor.filter (fun p => !(p.1 == E))).find? (fun p => p.1 == E) = none := by
    rw [List.find?_eq_none]
    intro p hp
    have := (List.mem_filter.mp hp).2
    simpa using this
  simp only [this, Option.map_none']

/-! ## Destruction -/

theorem CleanupDeletedEntity_ok (env : Env) (E : Worker_EntityId) (s s' : USpatialReceiver)
    (h : CleanupDeletedEntity env E s = Outcome.ok () s') :
    s'.GetActorFromEntityId E = none ∧
      ∃ t, s'.Trace = t ++ [Event.RemoveFromRegistry E, Event.RemoveEntityActor E] := by
  unfold CleanupDeletedEntity at h
  simp only [Exec.bind_apply, Exec.get, Exec.check, Exec.deref, Exec.modify, emit] at h
  cases hN : s.NetDriver <;> simp only [hN] at h
  · cases h
  cases hR : s.EntityRegistry with
  | none =>
    simp only [hR] at h
    cases h
  | some r =>
    simp only [hR] at h
    cases hC : env.SpatialOSNetConnection with
    | none =>
      simp only [hC] at h
      cases h
    | some c =>
      simp only [hC] at h
      cases hB : c.bSpatialPackageMap <;> simp only [hB] at h
      · cases h
      · simp at h
        cases h
        refine ⟨?_, s.Trace, ?_⟩
        · simp [USpatialReceiver.GetActorFromEntityId, hR,
            UEntityRegistry.GetActorFromEntityId_RemoveFromRegistry]
        · simp

/-- Every normal return of a sequence ends as its last part ends. -/
theorem Exec.ensures_bind {σ α β : Type} {Q : σ → Prop} {m : Exec σ α} {f : α → Exec σ β}
    (hf : ∀ a, Exec.Ensures Q (f a)) : Exec.Ensures Q (m >>= f) := by
  constructor
  intro s b s' h
  rw [Exec.bind_apply] at h
  cases hm : m s with
  | ok a s1 =>
    rw [hm] at h
    exact (hf a).run s1 b s' h
  | fatal s1 =>
    rw [hm] at h
    cases h

/-- Every path through `RemoveActor` ends in `CleanupDeletedEntity`, so a normal return
leaves no registry binding for the entity and ends with the two removal calls. -/
theorem RemoveActor_ensures (env : Env) (E : Worker_EntityId) :
    Exec.Ensures (fun s => s.GetActorFromEntityId E = none ∧
      ∃ t, s.Trace = t ++ [Event.RemoveFromRegistry E, Event.RemoveEntityActor E])
      (RemoveActor env E) := by
  have hc : Exec.Ensures (fun s => s.GetActorFromEntityId E = none ∧
      ∃ t, s.Trace = t ++ [Event.RemoveFromRegistry E, Event.RemoveEntityActor E])
      (CleanupDeletedEntity env E) := ⟨fun s _ s' h => CleanupDeletedEntity_ok env E s s' h⟩
  unfold RemoveActor
  repeat (first
    | (with_reducible exact hc)
    | (with_reducible refine Exec.ensures_bind ?_)
    | intro _
    | split)

/-- With its collaborators set, `RemoveActor` returns normally on every path. -/
theorem RemoveActor_returns (env : Env) (E : Worker_EntityId) (s : USpatialReceiver)
    (h : CollaboratorsSet env s = true) : (RemoveActor env E s).isFatal = false := by
  unfold CollaboratorsSet at h
  simp only [Bool.and_eq_true] at h
  obtain ⟨⟨⟨hW, hN⟩, hR⟩, hC⟩ := h
  cases hr : s.EntityRegistry with
  | none =>
    rw [hr] at hR
    cases hR
  | some r =>
    cases hc : env.SpatialOSNetConnection with
    | none =>
      rw [hc] at hC
      cases hC
    | some c =>
      rw [hc] at hC
      simp only at hC
      unfold RemoveActor CleanupDeletedEntity
      simp only [Exec.bind_apply, Exec.get, Exec.check, Exec.deref, Exec.modify, emit,
        Exec.when, hW, hN, hr, hc, hC]
      cases r.GetActorFromEntityId E with
      | none =>
        simp [Exec.bind_apply, Exec.get, Exec.check, Exec.deref, Exec.modify, hN, hr, hc, hC,
          Outcome.isFatal]
      | some a =>
        cases h1 : a.bPendingKill <;> cases h2 : a.bIsPlayerController <;>
          cases h3 : a.bIsPawn <;> cases h4 : a.bControllerHasAuthority <;>
          cases h5 : env.DestroyActor a <;>
          simp [Exec.bind_apply, Exec.get, Exec.check, Exec.deref, Exec.modify, Exec.ret,
            Exec.pure_apply, hN, hr, hc, hC, hW, h1, h2, h3, h4, h5, Outcome.isFatal]

/-! ## Leaving a critical section -/

/-- A normal return of `LeaveCriticalSection` in terms of its two passes. -/
theorem LeaveCriticalSection_ok (env : Env) (s s' : USpatialReceiver)
    (h : LeaveCriticalSection env s = Outcome.ok () s') :
    s.bInCriticalSection = true ∧ (ApplyPendingLifecycle env s).isFatal = false ∧
      s' = { (ApplyPendingLifecycle env s).state with
        bInCriticalSection := false, PendingAddEntities := [], PendingAddComponents := [],
        PendingRemoveEntities := [] } := by
  rw [LeaveCriticalSection_eq] at h
  split at h
  · rename_i ho
    refine ⟨ho, ?_⟩
    cases hp : ApplyPendingLifecycle env s with
    | ok a s2 =>
      rw [hp] at h
      cases h
      exact ⟨rfl, rfl⟩
    | fatal s2 =>
      rw [hp] at h
      cases h
  · cases h

/-- A fatal stop of `LeaveCriticalSection` with the section open is the stop of a pass. -/
theorem LeaveCriticalSection_fatal (env : Env) (s sf : USpatialReceiver)
    (ho : s.bInCriticalSection = true)
    (h : LeaveCriticalSection env s = Outcome.fatal sf) :
    sf = (ApplyPendingLifecycle env s).state := by
  rw [LeaveCriticalSection_eq, ho] at h
  cases hp : ApplyPendingLifecycle env s with
  | ok a s2 =>
    rw [hp] at h
    cases h
  | fatal s2 =>
    rw [hp] at h
    cases h
    rfl

/-- Each handler keeps the property that a closed receiver has empty buffers. -/
theorem deliver_keeps_empty_when_closed (env : Env) (n : Notification)
    (s s' : USpatialReceiver)
    (hI : s.bInCriticalSection = false →
      s.PendingAddEntities = [] ∧ s.PendingAddComponents = [] ∧ s.PendingRemoveEntities = [])
    (h : n.deliver env s = Outcome.ok () s') :
    s'.bInCriticalSection = false →
      s'.PendingAddEntities = [] ∧ s'.PendingAddComponents = [] ∧ s'.PendingRemoveEntities = [] := by
  cases n with
  | EnterCriticalSection =>
    simp only [Notification.deliver] at h
    rw [EnterCriticalSection_eq] at h
    split at h
    · cases h
    · cases h
      intro hc
      cases hc
  | LeaveCriticalSection =>
    simp only [Notification.deliver] at h
    rw [LeaveCriticalSection_eq] at h
    split at h
    · split at h
      · cases h
        intro _
        exact ⟨rfl, rfl, rfl⟩
      · cases h
    · cases h
  | AddEntity E =>
    simp only [Notification.deliver] at h
    rw [OnAddEntity_eq] at h
    split at h
    · rename_i ho
      cases h
      intro hc
      rw [ho] at hc
      cases hc
    · cases h
  | AddComponent Op =>
    simp only [Notification.deliver] at h
    rw [OnAddComponent_eq] at h
    split at h
    · rename_i ho
      cases h
      intro hc
      rw [ho] at hc
      cases hc
    · cases h
  | RemoveEntity E =>
    simp only [Notification.deliver] at h
    rw [OnRemoveEntity_eq] at h
    split at h
    · rename_i ho
      cases h
      intro hc
      rw [ho] at hc
      cases hc
    · obtain ⟨h1, h2, h3, h4, _⟩ := RemoveActor_frame env E s
      rw [h] at h1 h2 h3 h4
      intro hc
      have hs : s.bInCriticalSection = false := by
        rw [← hc]
        exact h1.symm
      obtain ⟨i1, i2, i3⟩ := hI hs
      exact ⟨h2.trans i1, h3.trans i2, h4.trans i3⟩

/-- Inside an open section the three lifecycle notifications only append to the buffers. -/
theorem Deliver_lifecycle_open (env : Env) (ns : List Notification)
    (hns : ∀ n ∈ ns, n.isLifecycle = true) :
    ∀ s : USpatialReceiver, s.bInCriticalSection = true →
      Deliver env ns s = Outcome.ok () { s with
        PendingAddEntities := s.PendingAddEntities ++ AddedEntities ns,
        PendingAddComponents := s.PendingAddComponents ++ AddedComponents env ns,
        PendingRemoveEntities := s.PendingRemoveEntities ++ RemovedEntities ns } := by
  induction ns with
  | nil =>
    intro s _
    simp [Deliver, Exec.forEach_nil, AddedEntities, AddedComponents, RemovedEntities]
  | cons n ns ih =>
    intro s hs
    have hn := hns n (List.mem_cons_self n ns)
    have ih2 := ih (fun x hx => hns x (List.mem_cons_of_mem n hx))
    unfold Deliver at ih2 ⊢
    rw [Exec.forEach_cons]
    cases n with
    | EnterCriticalSection => cases hn
    | LeaveCriticalSection => cases hn
    | AddEntity E =>
      simp only [Notification.deliver, OnAddEntity_eq, hs, if_true]
      rw [ih2 _ rfl]
      simp [AddedEntities, AddedComponents, RemovedEntities]
    | AddComponent Op =>
      simp only [Notification.deliver, OnAddComponent_eq, hs, if_true]
      rw [ih2 _ rfl]
      simp [AddedEntities, AddedComponents, RemovedEntities]
    | RemoveEntity E =>
      simp only [Notification.deliver, OnRemoveEntity_eq, hs, if_true]
      rw [ih2 _ rfl]
      simp [AddedEntities, AddedComponents, RemovedEntities]

/-! ## Properties of the critical-section protocol and of materialisation -/

/-- C1, as stated, fails for `LeaveCriticalSection`: after a section is opened and entity 7
is announced without components, the section is open and `LeaveCriticalSection` still stops
fatally (inside `CreateActor`, at the check for the position and metadata components). -/
theorem C1_counterexample_leave_fatal_while_open :
    (Deliver Example.env Example.announceOnly Example.initial).isFatal = false ∧
    (Example.after Example.announceOnly).bInCriticalSection = true ∧
    (LeaveCriticalSection Example.env (Example.after Example.announceOnly)).isFatal = true := by
  decide

/-- C1 (amended): `EnterCriticalSection` stops fatally exactly when the section is already
open and otherwise sets it open.  `LeaveCriticalSection` stops fatally whenever the section
is not open; with the section open it stops fatally exactly when applying a buffered add or
remove stops fatally, a normal return leaves the section closed, and with no buffered
entity it always returns normally. -/
theorem C1_critical_section_guards (env : Env) (s : USpatialReceiver) :
    (s.bInCriticalSection = true → EnterCriticalSection s = Outcome.fatal s) ∧
    (s.bInCriticalSection = false →
      EnterCriticalSection s = Outcome.ok () { s with bInCriticalSection := true }) ∧
    (s.bInCriticalSection = false → LeaveCriticalSection env s = Outcome.fatal s) ∧
    (s.bInCriticalSection = true →
      ((LeaveCriticalSection env s).isFatal = true ↔
        (ApplyPendingLifecycle env s).isFatal = true) ∧
      ((LeaveCriticalSection env s).isFatal = false →
        (LeaveCriticalSection env s).state.bInCriticalSection = false)) ∧
    (s.bInCriticalSection = true → s.PendingAddEntities = [] → s.PendingRemoveEntities = [] →
      LeaveCriticalSection env s = Outcome.ok () { s with
        bInCriticalSection := false, PendingAddEntities := [], PendingAddComponents := [],
        PendingRemoveEntities := [] }) := by
  refine ⟨?_, ?_, ?_, ?_, ?_⟩
  · intro h
    rw [EnterCriticalSection_eq, h]
    rfl
  · intro h
    rw [EnterCriticalSection_eq, h]
    rfl
  · intro h
    rw [LeaveCriticalSection_eq, h]
    rfl
  · intro h
    rw [LeaveCriticalSection_eq, h]
    cases ApplyPendingLifecycle env s <;> simp [Outcome.isFatal, Outcome.state]
  · intro h hA hR
    rw [LeaveCriticalSection_eq, h]
    have : ApplyPendingLifecycle env s = Outcome.ok () s := by
      simp [ApplyPendingLifecycle, Exec.bind_apply, Exec.get, hA, hR, Exec.forEach_nil]
    rw [this]
    rfl

/-- C1 at the initial receiver: entering opens the section, leaving stops fatally; at the
opened receiver: entering stops fatally, leaving closes the section. -/
theorem C1_critical_section_guards_witness :
    EnterCriticalSection Example.initial = Outcome.ok () Example.opened ∧
    LeaveCriticalSection Example.env Example.initial = Outcome.fatal Example.initial ∧
    EnterCriticalSection Example.opened = Outcome.fatal Example.opened ∧
    LeaveCriticalSection Example.env Example.opened = Outcome.ok () Example.initial :=
  ⟨(C1_critical_section_guards Example.env Example.initial).2.1 rfl,
   (C1_critical_section_guards Example.env Example.initial).2.2.1 rfl,
   (C1_critical_section_guards Example.env Example.opened).1 rfl,
   (C1_critical_section_guards Example.env Example.opened).2.2.2.2 rfl rfl rfl⟩

/-- C2: in every state reached from a closed receiver with empty buffers by notifications
that all return normally, a closed section has all three buffers empty. -/
theorem C2_buffers_empty_outside_section (env : Env) (ns : List Notification)
    (s0 s : USpatialReceiver) (h0 : IsInitial s0)
    (hrun : Deliver env ns s0 = Outcome.ok () s) (hclosed : s.bInCriticalSection = false) :
    s.PendingAddEntities = [] ∧ s.PendingAddComponents = [] ∧ s.PendingRemoveEntities = [] :=
  Exec.forEach_invariant
    (fun s => s.bInCriticalSection = false →
      s.PendingAddEntities = [] ∧ s.PendingAddComponents = [] ∧ s.PendingRemoveEntities = [])
    (Notification.deliver env)
    (fun n s s' hI h => deliver_keeps_empty_when_closed env n s s' hI h)
    ns s0 s (fun _ => h0.2) hrun hclosed

/-- C2 at the example burst: it returns normally, ends closed, and the buffers are empty. -/
theorem C2_buffers_empty_outside_section_witness :
    (Deliver Example.env Example.burst Example.initial).isFatal = false ∧
    (Example.after Example.burst).bInCriticalSection = false ∧
    (Example.after Example.burst).PendingAddEntities = [] ∧
    (Example.after Example.burst).PendingAddComponents = [] ∧
    (Example.after Example.burst).PendingRemoveEntities = [] :=
  ⟨by decide, by decide,
    C2_buffers_empty_outside_section Example.env Example.burst Example.initial _
      ⟨rfl, rfl, rfl, rfl⟩ (Outcome.eq_ok_of_not_fatal _ (by decide)) (by decide)⟩

/-- C3: with the section open, every sequence of entity-add, component-add and
entity-remove notifications returns normally and changes only the three buffers, which
grow by exactly the notified entries in order: the trace is unchanged (neither
`CreateActor` nor `RemoveActor` nor any collaborator is called), the entity registry is
unchanged, and the section stays open. -/
theorem C3_open_section_only_buffers (env : Env) (ns : List Notification)
    (s : USpatialReceiver) (hopen : s.bInCriticalSection = true)
    (hns : ∀ n ∈ ns, n.isLifecycle = true) :
    Deliver env ns s = Outcome.ok () { s with
        PendingAddEntities := s.PendingAddEntities ++ AddedEntities ns,
        PendingAddComponents := s.PendingAddComponents ++ AddedComponents env ns,
        PendingRemoveEntities := s.PendingRemoveEntities ++ RemovedEntities ns } ∧
      (Deliver env ns s).state.Trace = s.Trace ∧
      CreateActorCalls (Deliver env ns s).state.Trace = CreateActorCalls s.Trace ∧
      RemoveActorCalls (Deliver env ns s).state.Trace = RemoveActorCalls s.Trace ∧
      (Deliver env ns s).state.EntityRegistry = s.EntityRegistry ∧
      (Deliver env ns s).state.bInCriticalSection = true := by
  have h := Deliver_lifecycle_open env ns hns s hopen
  rw [h]
  exact ⟨rfl, rfl, rfl, rfl, rfl, hopen⟩

/-- C3 at the opened example receiver: an add of entity 1, its position, and a removal of
entity 5 leave the trace and the registry as they were. -/
theorem C3_open_section_only_buffers_witness :
    (Deliver Example.env [Notification.AddEntity 1,
        Notification.AddComponent (Example.AddOp 1 54 10), Notification.RemoveEntity 5]
        Example.opened).state.Trace = [] ∧
    (Deliver Example.env [Notification.AddEntity 1,
        Notification.AddComponent (Example.AddOp 1 54 10), Notification.RemoveEntity 5]
        Example.opened).state.EntityRegistry = some { EntityIdToActor := [] } :=
  ⟨(C3_open_section_only_buffers Example.env _ Example.opened rfl (by decide)).2.1,
   (C3_open_section_only_buffers Example.env _ Example.opened rfl (by decide)).2.2.2.2.1⟩

/-- C4, as stated, fails: in an open section where entity 1 was announced twice and entity
2 only has a buffered component, nothing was called yet, `LeaveCriticalSection` returns
normally, and `CreateActor` is entered twice for entity 1 and never for entity 2. -/
theorem C4_counterexample_repeated_and_unannounced :
    (Deliver Example.env Example.repeatedBurst Example.initial).isFatal = false ∧
    (Example.after Example.repeatedBurst).Trace = [] ∧
    (Example.after Example.repeatedBurst).PendingAddEntities = [1, 1] ∧
    ((Example.after Example.repeatedBurst).PendingAddComponents.map
      (fun w => w.EntityId)).dedup = [1, 2] ∧
    (LeaveCriticalSection Example.env (Example.after Example.repeatedBurst)).isFatal = false ∧
    CreateActorCalls
      (LeaveCriticalSection Example.env (Example.after Example.repeatedBurst)).state.Trace =
        [1, 1] := by
  decide

/-- C4 (amended): when `LeaveCriticalSection` returns normally, `CreateActor` was entered
once for each entry of `PendingAddEntities`, that is once per entity-add notification of
the section, repeated entries included, in buffer order. -/
theorem C4_create_actor_once_per_buffered_add_entity (env : Env) (s s' : USpatialReceiver)
    (h : LeaveCriticalSection env s = Outcome.ok () s') :
    ∃ t, s'.Trace = s.Trace ++ t ∧ CreateActorCalls t = s.PendingAddEntities := by
  obtain ⟨_, hok, hs'⟩ := LeaveCriticalSection_ok env s s' h
  obtain ⟨tA, tR, ht, _, hR, hcalls, _⟩ := ApplyPendingLifecycle_trace env s
  refine ⟨tA ++ tR, ?_, ?_⟩
  · rw [hs']
    exact ht
  · rw [CreateActorCalls_append, (hcalls hok).1,
      CreateActorCalls_eq_nil tR (fun e he => Or.inr (hR e he)), List.append_nil]

/-- C4 (amended) at the open example burst. -/
theorem C4_create_actor_once_per_buffered_add_entity_witness :
    ∃ t, (LeaveCriticalSection Example.env (Example.after Example.openBurst)).state.Trace =
        (Example.after Example.openBurst).Trace ++ t ∧
      CreateActorCalls t = (Example.after Example.openBurst).PendingAddEntities :=
  C4_create_actor_once_per_buffered_add_entity Example.env (Example.after Example.openBurst) _
    (Outcome.eq_ok_of_not_fatal _ (by decide))

/-- C5, as stated, fails: after two position components for entity 1 in one section the
buffer holds two entries for the pair, and `GetComponentData` reads the earlier snapshot
(x = 10), not the later one (x = 20). -/
theorem C5_counterexample_two_entries_first_read :
    (Deliver Example.env Example.repeatedComponent Example.initial).isFatal = false ∧
    ((Example.after Example.repeatedComponent).PendingAddComponents.filter
      (fun w => decide (w.EntityId = 1) && decide (w.ComponentId = 54))).length = 2 ∧
    GetComponentData Example.env.POSITION_COMPONENT_ID Component.asPosition
      (Example.after Example.repeatedComponent) 1 = some { X := 10, Y := 0, Z := 0 } ∧
    (MakeComponent Example.env (Example.AddOp 1 54 20).data).asPosition =
      some { X := 20, Y := 0, Z := 0 } := by
  decide

/-- C5 (amended): in an open section two component-add notifications for the same entity
and component id append two entries, one per notification; what `GetComponentData` reads
for the pair is what it read before the later notification arrived, and when the pair had
no entry before the two, it is the snapshot of the earlier notification. -/
theorem C5_add_component_appends_first_write_wins (env : Env) (s : USpatialReceiver)
    (Op1 Op2 : Worker_AddComponentOp) (hopen : s.bInCriticalSection = true)
    (hE : Op2.entity_id = Op1.entity_id)
    (hC : Op2.data.component_id = Op1.data.component_id) :
    Deliver env [Notification.AddComponent Op1, Notification.AddComponent Op2] s =
        Outcome.ok () { s with PendingAddComponents := s.PendingAddComponents ++
          [{ EntityId := Op1.entity_id, ComponentId := Op1.data.component_id,
             Data := some (MakeComponent env Op1.data) },
           { EntityId := Op1.entity_id, ComponentId := Op1.data.component_id,
             Data := some (MakeComponent env Op2.data) }] } ∧
      (∀ (T : Type) (cast : Component → Option T),
        GetComponentData Op1.data.component_id cast
            (Deliver env [Notification.AddComponent Op1, Notification.AddComponent Op2] s).state
            Op1.entity_id =
          GetComponentData Op1.data.component_id cast
            (Deliver env [Notification.AddComponent Op1] s).state Op1.entity_id) ∧
      (NoPendingEntry s Op1.entity_id Op1.data.component_id →
        ∀ (T : Type) (cast : Component → Option T),
          GetComponentData Op1.data.component_id cast
            (Deliver env [Notification.AddComponent Op1, Notification.AddComponent Op2] s).state
            Op1.entity_id = cast (MakeComponent env Op1.data)) := by
  have hrun : Deliver env [Notification.AddComponent Op1, Notification.AddComponent Op2] s =
      Outcome.ok () { s with PendingAddComponents := s.PendingAddComponents ++
        [{ EntityId := Op1.entity_id, ComponentId := Op1.data.component_id,
           Data := some (MakeComponent env Op1.data) },
         { EntityId := Op1.entity_id, ComponentId := Op1.data.component_id,
           Data := some (MakeComponent env Op2.data) }] } := by
    simp only [Deliver, Exec.forEach_cons, Exec.forEach_nil, Notification.deliver,
      OnAddComponent_eq, hopen, if_true]
    simp [hE, hC]
  have hone : Deliver env [Notification.AddComponent Op1] s =
      Outcome.ok () { s with PendingAddComponents := s.PendingAddComponents ++
        [{ EntityId := Op1.entity_id, ComponentId := Op1.data.component_id,
           Data := some (MakeComponent env Op1.data) }] } := by
    simp only [Deliver, Exec.forEach_cons, Exec.forEach_nil, Notification.deliver,
      OnAddComponent_eq, hopen, if_true]
  refine ⟨hrun, ?_, ?_⟩
  · intro T cast
    rw [hrun, hone]
    simp only [GetComponentData, Outcome.state, List.find?_append]
    cases s.PendingAddComponents.find?
      (fun w => decide (w.EntityId = Op1.entity_id) &&
        decide (w.ComponentId = Op1.data.component_id)) <;> simp [List.find?_cons]
  intro hnew T cast
  rw [hrun]
  exact GetComponentData_append_first Op1.data.component_id cast s _ Op1.entity_id
    { EntityId := Op1.entity_id, ComponentId := Op1.data.component_id,
      Data := some (MakeComponent env Op1.data) } _ ⟨rfl, rfl⟩ hnew rfl

/-- C5 (amended) at the opened example receiver: both positions are buffered and the
first one, x = 10, is read. -/
theorem C5_add_component_appends_first_write_wins_witness :
    (Deliver Example.env [Notification.AddComponent (Example.AddOp 1 54 10),
        Notification.AddComponent (Example.AddOp 1 54 20)]
        Example.opened).state.PendingAddComponents =
      [{ EntityId := 1, ComponentId := 54,
         Data := some (Component.Position { X := 10, Y := 0, Z := 0 }) },
       { EntityId := 1, ComponentId := 54,
         Data := some (Component.Position { X := 20, Y := 0, Z := 0 }) }] ∧
    GetComponentData 54 Component.asPosition
      (Deliver Example.env [Notification.AddComponent (Example.AddOp 1 54 10),
        Notification.AddComponent (Example.AddOp 1 54 20)] Example.opened).state 1 =
      some { X := 10, Y := 0, Z := 0 } :=
  ⟨congrArg (fun o => o.state.PendingAddComponents)
      (C5_add_component_appends_first_write_wins Example.env Example.opened
        (Example.AddOp 1 54 10) (Example.AddOp 1 54 20) rfl rfl rfl).1,
    (C5_add_component_appends_first_write_wins Example.env Example.opened
        (Example.AddOp 1 54 10) (Example.AddOp 1 54 20) rfl rfl rfl).2.2
      (by intro w hw; cases hw) _ Component.asPosition⟩

/-- C6: whatever `LeaveCriticalSection` adds to the trace is a creation part followed by a
destruction part, so no destruction of a buffered remove precedes a materialisation of a
buffered add.  When it returns normally, `CreateActor` was entered for the buffered adds
and `RemoveActor` once per entry of `PendingRemoveEntities` in buffer order, repeated
entries included, and the end state is closed with all three buffers empty.  When it stops
fatally, the flag and the buffers are still as they were, so the clearing and the closing
happen only after both passes. -/
theorem C6_leave_creates_then_removes_then_clears (env : Env) (s : USpatialReceiver) :
    ∃ tA tR, (LeaveCriticalSection env s).state.Trace = s.Trace ++ (tA ++ tR) ∧
      (∀ e ∈ tA, e.isDestruction = false) ∧ (∀ e ∈ tR, e.isDestruction = true) ∧
      ((LeaveCriticalSection env s).isFatal = false →
        CreateActorCalls tA = s.PendingAddEntities ∧
        RemoveActorCalls tR = s.PendingRemoveEntities ∧
        (LeaveCriticalSection env s).state.bInCriticalSection = false ∧
        (LeaveCriticalSection env s).state.PendingAddEntities = [] ∧
        (LeaveCriticalSection env s).state.PendingAddComponents = [] ∧
        (LeaveCriticalSection env s).state.PendingRemoveEntities = []) ∧
      ((LeaveCriticalSection env s).isFatal = true →
        (LeaveCriticalSection env s).state.bInCriticalSection = s.bInCriticalSection ∧
        (LeaveCriticalSection env s).state.PendingAddEntities = s.PendingAddEntities ∧
        (LeaveCriticalSection env s).state.PendingAddComponents = s.PendingAddComponents ∧
        (LeaveCriticalSection env s).state.PendingRemoveEntities = s.PendingRemoveEntities) := by
  cases ho : s.bInCriticalSection with
  | false =>
    rw [LeaveCriticalSection_eq, ho]
    refine ⟨[], [], ?_, ?_, ?_, ?_, ?_⟩
    · simp [Outcome.state]
    · intro e he
      cases he
    · intro e he
      cases he
    · intro h
      cases h
    · intro _
      exact ⟨ho, rfl, rfl, rfl⟩
  | true =>
    obtain ⟨tA, tR, ht, hA, hR, hcalls, h1, h2, h3, h4⟩ := ApplyPendingLifecycle_trace env s
    refine ⟨tA, tR, ?_, hA, hR, ?_, ?_⟩
    · rw [LeaveCriticalSection_eq, ho]
      cases hp : ApplyPendingLifecycle env s with
      | ok a s2 =>
        rw [hp] at ht
        exact ht
      | fatal s2 =>
        rw [hp] at ht
        exact ht
    · intro hok
      have hrun := Outcome.eq_ok_of_not_fatal _ hok
      obtain ⟨_, hok2, hs'⟩ := LeaveCriticalSection_ok env s _ hrun
      refine ⟨(hcalls hok2).1, (hcalls hok2).2, ?_, ?_, ?_, ?_⟩
      all_goals rw [hs']
    · intro hfatal
      have hrun : LeaveCriticalSection env s =
          Outcome.fatal (LeaveCriticalSection env s).state := by
        cases hl : LeaveCriticalSection env s with
        | ok a s2 =>
          rw [hl] at hfatal
          cases hfatal
        | fatal s2 => rfl
      rw [LeaveCriticalSection_fatal env s _ ho hrun]
      exact ⟨h1.trans ho, h2, h3, h4⟩

/-- C6 at the open example burst, which buffers the add of entity 1 and the removal of
entity 5: leaving returns normally. -/
theorem C6_leave_creates_then_removes_then_clears_witness :
    (Example.after Example.openBurst).PendingAddEntities = [1] ∧
    (Example.after Example.openBurst).PendingRemoveEntities = [5] ∧
    (LeaveCriticalSection Example.env (Example.after Example.openBurst)).isFatal = false ∧
    ∃ tA tR, (LeaveCriticalSection Example.env (Example.after Example.openBurst)).state.Trace =
        (Example.after Example.openBurst).Trace ++ (tA ++ tR) ∧
      (∀ e ∈ tA, e.isDestruction = false) ∧ (∀ e ∈ tR, e.isDestruction = true) ∧
      CreateActorCalls tA = [1] ∧ RemoveActorCalls tR = [5] :=
  ⟨by decide, by decide, by decide,
    (C6_leave_creates_then_removes_then_clears Example.env
      (Example.after Example.openBurst)).elim (fun tA h => h.elim (fun tR h =>
        ⟨tA, tR, h.1, h.2.1, h.2.2.1, (h.2.2.2.1 (by decide)).1, (h.2.2.2.1 (by decide)).2.1⟩))⟩

/-- C7, as stated, fails: on the closed initial receiver `OnAddComponent` stops fatally. -/
theorem C7_counterexample_add_component_closed_is_fatal :
    Example.initial.bInCriticalSection = false ∧
    (OnAddComponent Example.env (Example.AddOp 1 54 10) Example.initial).isFatal = true := by
  decide

/-- C7 (amended): on a closed receiver `OnAddComponent` stops fatally at its guard
`check(bInCriticalSection)` with the state, and so the `PendingAddComponents` buffer,
unchanged; nothing is applied. -/
theorem C7_add_component_outside_section_is_fatal (env : Env) (Op : Worker_AddComponentOp)
    (s : USpatialReceiver) (hclosed : s.bInCriticalSection = false) :
    OnAddComponent env Op s = Outcome.fatal s := by
  rw [OnAddComponent_eq, hclosed]
  rfl

/-- C7 (amended) at the initial receiver. -/
theorem C7_add_component_outside_section_is_fatal_witness :
    OnAddComponent Example.env (Example.AddOp 1 54 10) Example.initial =
      Outcome.fatal Example.initial :=
  C7_add_component_outside_section_is_fatal Example.env (Example.AddOp 1 54 10)
    Example.initial rfl

/-- C8: on a closed receiver, whenever `OnRemoveEntity` returns, the registry holds no
binding for the entity, the call ended with `RemoveFromRegistry` and `RemoveEntityActor`
for it, and `PendingRemoveEntities` is unchanged, whether or not an actor was bound, was
pending kill, or `DestroyActor` failed; and it does return whenever the world, the net
driver, the registry and the spatial package map are set. -/
theorem C8_remove_entity_outside_section_applies_immediately (env : Env)
    (E : Worker_EntityId) (s : USpatialReceiver) (hclosed : s.bInCriticalSection = false) :
    (∀ s', OnRemoveEntity env E s = Outcome.ok () s' →
      s'.GetActorFromEntityId E = none ∧
        (∃ t, s'.Trace = t ++ [Event.RemoveFromRegistry E, Event.RemoveEntityActor E]) ∧
        s'.PendingRemoveEntities = s.PendingRemoveEntities) ∧
    (CollaboratorsSet env s = true → (OnRemoveEntity env E s).isFatal = false) := by
  rw [OnRemoveEntity_eq, hclosed]
  constructor
  · intro s' h
    have h2 : RemoveActor env E s = Outcome.ok () s' := h
    have h3 := (RemoveActor_ensures env E).run s () s' h2
    refine ⟨h3.1, h3.2, ?_⟩
    obtain ⟨_, _, _, h4, _⟩ := RemoveActor_frame env E s
    rw [h2] at h4
    exact h4
  · intro h
    exact RemoveActor_returns env E s h

/-- C8 after the example burst, where entity 1 is bound to a live pawn: removing entity 1
outside a section returns and leaves no binding and an empty remove buffer. -/
theorem C8_remove_entity_outside_section_applies_immediately_witness :
    ((Example.after Example.burst).GetActorFromEntityId 1).isSome = true ∧
    (OnRemoveEntity Example.env 1 (Example.after Example.burst)).isFatal = false ∧
    (OnRemoveEntity Example.env 1 (Example.after Example.burst)).state.GetActorFromEntityId 1 =
      none ∧
    (OnRemoveEntity Example.env 1 (Example.after Example.burst)).state.PendingRemoveEntities =
      [] :=
  ⟨by decide, by decide,
    ((C8_remove_entity_outside_section_applies_immediately Example.env 1
      (Example.after Example.burst) (by decide)).1 _
      (Outcome.eq_ok_of_not_fatal _ (by decide))).1,
    ((C8_remove_entity_outside_section_applies_immediately Example.env 1
      (Example.after Example.burst) (by decide)).1 _
      (Outcome.eq_ok_of_not_fatal _ (by decide))).2.2⟩

/-- C9: when no position entry or no metadata entry for the entity is buffered,
`CreateActor` stops fatally, and the state at the stop is the start state with only the
entry record of the call added: the registry was neither changed nor consulted. -/
theorem C9_create_actor_without_position_or_metadata_is_fatal (env : Env) (E : Worker_EntityId)
    (s : USpatialReceiver)
    (h : NoPendingEntry s E env.POSITION_COMPONENT_ID ∨
      NoPendingEntry s E env.METADATA_COMPONENT_ID) :
    CreateActor env E s = Outcome.fatal { s with Trace := s.Trace ++ [Event.CreateActor E] } := by
  have hcheck : ((GetComponentData env.POSITION_COMPONENT_ID Component.asPosition s E).isSome &&
      (GetComponentData env.METADATA_COMPONENT_ID Component.asMetadata s E).isSome) = false := by
    rcases h with h | h
    · rw [GetComponentData_eq_none _ _ s E h]
      rfl
    · rw [GetComponentData_eq_none _ _ s E h]
      simp
  unfold CreateActor
  simp only [Exec.bind_apply, Exec.get, Exec.check, Exec.deref, Exec.modify, emit,
    GetComponentData_trace, hcheck]
  cases s.World <;> cases s.NetDriver <;> cases s.EntityRegistry <;> rfl

/-- C9 at entity 7, announced without any component. -/
theorem C9_create_actor_without_position_or_metadata_is_fatal_witness :
    CreateActor Example.env 7 (Example.after Example.announceOnly) =
      Outcome.fatal { Example.after Example.announceOnly with
        Trace := (Example.after Example.announceOnly).Trace ++ [Event.CreateActor 7] } :=
  C9_create_actor_without_position_or_metadata_is_fatal Example.env 7 _
    (Or.inl (by intro w hw; cases hw))

/-- C10, as stated, fails: entity 3 has a buffered position and metadata whose type
"Unmapped" resolves to no class, it has no actor yet, and `CreateActor` returns normally. -/
theorem C10_counterexample_unmapped_type_returns :
    (Deliver Example.env Example.unmappedBurst Example.initial).isFatal = false ∧
    GetComponentData Example.env.METADATA_COMPONENT_ID Component.asMetadata
      (Example.after Example.unmappedBurst) 3 = some "Unmapped" ∧
    GetNativeEntityClass Example.env "Unmapped" = none ∧
    (Example.after Example.unmappedBurst).GetActorFromEntityId 3 = none ∧
    (CreateActor Example.env 3 (Example.after Example.unmappedBurst)).isFatal = false := by
  decide

/-- C10 (amended): when the metadata type of a not-yet-known entity resolves to no local
class, `CreateActor` returns normally through its guard `if (ActorClass == nullptr) return`,
having constructed nothing: the end state is the start state with only the entry record of
the call added, so the registry is unchanged. -/
theorem C10_create_actor_returns_on_unmapped_type (env : Env) (E : Worker_EntityId)
    (s : USpatialReceiver) (Coords : Coordinates) (EntityType : String)
    (hW : s.World = true) (hN : s.NetDriver = true) (hR : s.EntityRegistry.isSome = true)
    (hP : GetComponentData env.POSITION_COMPONENT_ID Component.asPosition s E = some Coords)
    (hM : GetComponentData env.METADATA_COMPONENT_ID Component.asMetadata s E = some EntityType)
    (hnew : s.GetActorFromEntityId E = none)
    (hclass : GetNativeEntityClass env EntityType = none) :
    CreateActor env E s = Outcome.ok () { s with Trace := s.Trace ++ [Event.CreateActor E] } := by
  cases hr : s.EntityRegistry with
  | none =>
    rw [hr] at hR
    cases hR
  | some r =>
    have hnew2 : USpatialReceiver.GetActorFromEntityId
        { s with Trace := s.Trace ++ [Event.CreateActor E] } E = none := hnew
    unfold CreateActor
    simp only [Exec.bind_apply, Exec.get, Exec.check, Exec.deref, Exec.modify, emit,
      GetComponentData_trace, hP, hM, hnew2, hclass]
    simp [hW, hN, hr, Exec.pure_apply]

/-- C10 (amended) at entity 3 of the unmapped example burst. -/
theorem C10_create_actor_returns_on_unmapped_type_witness :
    CreateActor Example.env 3 (Example.after Example.unmappedBurst) =
      Outcome.ok () { Example.after Example.unmappedBurst with
        Trace := (Example.after Example.unmappedBurst).Trace ++ [Event.CreateActor 3] } :=
  C10_create_actor_returns_on_unmapped_type Example.env 3 _ { X := 10, Y := 0, Z := 0 } "Unmapped"
    rfl rfl rfl (by decide) (by decide) (by decide) (by decide)

/-! ## Lookups in maps -/

theorem TMap.Find_Set_self {κ ν : Type} [DecidableEq κ] (m : List (κ × ν)) (k : κ) (v : ν) :
    TMap.Find (TMap.Set m k v) k = some v := by
  induction m with
  | nil => simp [TMap.Set, TMap.Find]
  | cons p m ih =>
    by_cases h : p.1 = k
    · simp [TMap.Set, TMap.Find, h]
    · simp only [TMap.Set, h, if_false]
      simp only [TMap.Find, List.find?_cons, h, decide_False] at ih ⊢
      exact ih

theorem TMap.Find_Set_of_ne {κ ν : Type} [DecidableEq κ] (m : List (κ × ν)) (k k' : κ) (v : ν)
    (hne : k' ≠ k) : TMap.Find (TMap.Set m k v) k' = TMap.Find m k' := by
  induction m with
  | nil => simp [TMap.Set, TMap.Find, Ne.symm hne]
  | cons p m ih =>
    by_cases h : p.1 = k
    · have h' : ¬ p.1 = k' := fun e => hne (e.symm.trans h)
      simp [TMap.Set, TMap.Find, h, h', Ne.symm hne]
    · simp only [TMap.Set, h, if_false]
      by_cases h2 : p.1 = k'
      · simp [TMap.Find, h2]
      · simp only [TMap.Find, List.find?_cons, h2, decide_False] at ih ⊢
        exact ih

theorem TMap.Find_Remove_self {κ ν : Type} [DecidableEq κ] (m : List (κ × ν)) (k : κ) :
    TMap.Find (TMap.Remove m k) k = none := by
  unfold TMap.Find TMap.Remove
  have : (m.filter (fun p => !decide (p.1 = k))).find? (fun p => decide (p.1 = k)) = none := by
    rw [List.find?_eq_none]
    intro p hp
    have := (List.mem_filter.mp hp).2
    simpa using this
  rw [this]
  rfl

theorem TMap.Find_Remove_of_ne {κ ν : Type} [DecidableEq κ] (m : List (κ × ν)) (k k' : κ)
    (hne : k' ≠ k) : TMap.Find (TMap.Remove m k) k' = TMap.Find m k' := by
  unfold TMap.Find TMap.Remove
  rw [List.find?_filter]
  congr 2
  funext p
  by_cases h2 : p.1 = k'
  · have h : ¬ p.1 = k := fun e => hne (h2.symm.trans e)
    simp [h, h2, hne]
  · simp [h2]

/-! ## The static component view -/

theorem USpatialStaticComponentView.GetAuthority_OnAuthorityChange_self
    (View : USpatialStaticComponentView) (Op : Worker_AuthorityChangeOp) :
    (View.OnAuthorityChange Op).GetAuthority Op.entity_id Op.component_id = Op.authority := by
  simp [USpatialStaticComponentView.GetAuthority, USpatialStaticComponentView.OnAuthorityChange,
    TMap.Find_Set_self]

theorem USpatialStaticComponentView.GetAuthority_OnAuthorityChange_other
    (View : USpatialStaticComponentView) (Op : Worker_AuthorityChangeOp)
    (E : Worker_EntityId) (C : Worker_ComponentId)
    (hne : ¬ (E = Op.entity_id ∧ C = Op.component_id)) :
    (View.OnAuthorityChange Op).GetAuthority E C = View.GetAuthority E C := by
  unfold USpatialStaticComponentView.GetAuthority USpatialStaticComponentView.OnAuthorityChange
  by_cases hE : E = Op.entity_id
  · have hC : C ≠ Op.component_id := fun e => hne ⟨hE, e⟩
    subst hE
    simp only [TMap.Find_Set_self, TMap.Find_Set_of_ne _ _ _ _ hC]
    cases TMap.Find View.EntityComponentAuthorityMap Op.entity_id <;> simp [TMap.Find]
  · simp only [TMap.Find_Set_of_ne _ _ _ _ hE]

/-- Only `OnAuthorityChange` writes the authority map. -/
theorem ViewOp.deliver_authority (env : UpdateEnv) (op : ViewOp)
    (View : USpatialStaticComponentView) (E : Worker_EntityId) (C : Worker_ComponentId)
    (h : op.recordsAuthority E C = false) :
    (op.deliver env View).GetAuthority E C = View.GetAuthority E C := by
  cases op with
  | AddComponent Op =>
    simp only [ViewOp.deliver, USpatialStaticComponentView.OnAddComponent]
    cases MakeComponentStorage env Op.data <;> rfl
  | RemoveEntity entity_id => rfl
  | ComponentUpdate Op =>
    simp only [ViewOp.deliver, USpatialStaticComponentView.OnComponentUpdate]
    repeat (first | rfl | split)
  | AuthorityChange Op =>
    apply USpatialStaticComponentView.GetAuthority_OnAuthorityChange_other
    intro hEC
    simp [ViewOp.recordsAuthority, hEC.1, hEC.2] at h

theorem USpatialStaticComponentView.GetAuthority_Deliver (env : UpdateEnv) (ops : List ViewOp)
    (E : Worker_EntityId) (C : Worker_ComponentId)
    (h : ∀ op ∈ ops, op.recordsAuthority E C = false) :
    ∀ View : USpatialStaticComponentView,
      (View.Deliver env ops).GetAuthority E C = View.GetAuthority E C := by
  induction ops with
  | nil =>
    intro View
    rfl
  | cons op ops ih =>
    intro View
    have h1 := h op (List.mem_cons_self op ops)
    have h2 := ih (fun x hx => h x (List.mem_cons_of_mem op hx)) (op.deliver env View)
    simp only [USpatialStaticComponentView.Deliver, List.foldl_cons] at h2 ⊢
    rw [h2, ViewOp.deliver_authority env op View E C h1]

/-- C14, as stated, fails: after authority over (7, 54) was gained, `OnRemoveEntity(7)`
leaves `GetAuthority(7, 54)` at `Authoritative`. -/
theorem C14_counterexample_authority_survives_removal :
    Example.authoritativeView.GetAuthority 7 54 =
      Worker_Authority.WORKER_AUTHORITY_AUTHORITATIVE ∧
    (Example.authoritativeView.OnRemoveEntity 7).GetAuthority 7 54 =
      Worker_Authority.WORKER_AUTHORITY_AUTHORITATIVE := by
  decide

/-- C14 (amended): after the view's `OnRemoveEntity(E)` the store holds no component data
for E, the data of every other entity is as before, and `GetAuthority` returns for every
pair, those of E included, what it returned before: the authority map is not written. -/
theorem C14_remove_entity_clears_data_keeps_authority (View : USpatialStaticComponentView)
    (E : Worker_EntityId) :
    TMap.Find (View.OnRemoveEntity E).EntityComponentMap E = none ∧
    (∀ (T : Type) (C : Worker_ComponentId) (cast : ComponentStorageBase → Option T),
      (View.OnRemoveEntity E).GetComponentData C cast E = none) ∧
    (∀ E', E' ≠ E →
      TMap.Find (View.OnRemoveEntity E).EntityComponentMap E' =
        TMap.Find View.EntityComponentMap E') ∧
    (View.OnRemoveEntity E).EntityComponentAuthorityMap = View.EntityComponentAuthorityMap ∧
    (∀ E' C, (View.OnRemoveEntity E).GetAuthority E' C = View.GetAuthority E' C) := by
  refine ⟨?_, ?_, ?_, rfl, fun _ _ => rfl⟩
  · exact TMap.Find_Remove_self _ _
  · intro T C cast
    simp [USpatialStaticComponentView.GetComponentData,
      USpatialStaticComponentView.OnRemoveEntity, TMap.Find_Remove_self]
  · intro E' hne
    exact TMap.Find_Remove_of_ne _ _ _ hne

/-- C14 (amended) at the example view: the position of entity 7 is gone, the authority
stays. -/
theorem C14_remove_entity_clears_data_keeps_authority_witness :
    Example.authoritativeView.GetComponentData 54 ComponentStorageBase.asPosition 7 =
      some { X := 10, Y := 0, Z := 0 } ∧
    (Example.authoritativeView.OnRemoveEntity 7).GetComponentData 54
      ComponentStorageBase.asPosition 7 = none ∧
    (Example.authoritativeView.OnRemoveEntity 7).GetAuthority 7 54 =
      Example.authoritativeView.GetAuthority 7 54 :=
  ⟨by decide,
    (C14_remove_entity_clears_data_keeps_authority Example.authoritativeView 7).2.1 _ 54
      ComponentStorageBase.asPosition,
    (C14_remove_entity_clears_data_keeps_authority Example.authoritativeView 7).2.2.2.2 7 54⟩

/-- C15: `GetAuthority(E, C)` is `NotAuthoritative` in the view reached from the empty one
by operations none of which is an authority change for (E, C); after
`OnAuthorityChange(E, C, a)` it is `a`; and for every other pair that call leaves it as it
was. -/
theorem C15_authority_is_a_map_with_default (env : UpdateEnv)
    (View : USpatialStaticComponentView) (Op : Worker_AuthorityChangeOp) :
    (∀ (ops : List ViewOp) (E : Worker_EntityId) (C : Worker_ComponentId),
      (∀ op ∈ ops, op.recordsAuthority E C = false) →
      (USpatialStaticComponentView.empty.Deliver env ops).GetAuthority E C =
        Worker_Authority.WORKER_AUTHORITY_NOT_AUTHORITATIVE) ∧
    (View.OnAuthorityChange Op).GetAuthority Op.entity_id Op.component_id = Op.authority ∧
    (∀ (E : Worker_EntityId) (C : Worker_ComponentId),
      ¬ (E = Op.entity_id ∧ C = Op.component_id) →
      (View.OnAuthorityChange Op).GetAuthority E C = View.GetAuthority E C) := by
  refine ⟨?_, ?_, ?_⟩
  · intro ops E C h
    rw [USpatialStaticComponentView.GetAuthority_Deliver env ops E C h]
    rfl
  · exact USpatialStaticComponentView.GetAuthority_OnAuthorityChange_self View Op
  · intro E C hne
    exact USpatialStaticComponentView.GetAuthority_OnAuthorityChange_other View Op E C hne

/-- C15 at the example view, which records authority over (7, 54) only: a loss of
authority over (7, 54) is returned for that pair and changes no other pair. -/
theorem C15_authority_is_a_map_with_default_witness :
    Example.authoritativeView.GetAuthority 7 53 =
      Worker_Authority.WORKER_AUTHORITY_NOT_AUTHORITATIVE ∧
    (Example.authoritativeView.OnAuthorityChange (Example.AuthorityOp 7 54
      Worker_Authority.WORKER_AUTHORITY_AUTHORITY_LOSS_IMMINENT)).GetAuthority 7 54 =
      Worker_Authority.WORKER_AUTHORITY_AUTHORITY_LOSS_IMMINENT ∧
    (Example.authoritativeView.OnAuthorityChange (Example.AuthorityOp 7 54
      Worker_Authority.WORKER_AUTHORITY_AUTHORITY_LOSS_IMMINENT)).GetAuthority 7 53 =
      Example.authoritativeView.GetAuthority 7 53 :=
  ⟨(C15_authority_is_a_map_with_default Example.updateEnv Example.authoritativeView
      (Example.AuthorityOp 7 54 Worker_Authority.WORKER_AUTHORITY_AUTHORITY_LOSS_IMMINENT)).1
      _ 7 53 (by decide),
   (C15_authority_is_a_map_with_default Example.updateEnv Example.authoritativeView
      (Example.AuthorityOp 7 54 Worker_Authority.WORKER_AUTHORITY_AUTHORITY_LOSS_IMMINENT)).2.1,
   (C15_authority_is_a_map_with_default Example.updateEnv Example.authoritativeView
      (Example.AuthorityOp 7 54 Worker_Authority.WORKER_AUTHORITY_AUTHORITY_LOSS_IMMINENT)).2.2
      7 53 (by decide)⟩

theorem USpatialStaticComponentView.GetComponentData_SetComponent {T : Type}
    (View : USpatialStaticComponentView) (E : Worker_EntityId) (C : Worker_ComponentId)
    (Data : ComponentStorageBase) (cast : ComponentStorageBase → Option T) :
    (View.SetComponent E C Data).GetComponentData C cast E = cast Data := by
  simp [USpatialStaticComponentView.GetComponentData, USpatialStaticComponentView.SetComponent,
    TMap.Find_Set_self]

/-- C16, as stated, fails: the view records authority over (7, Position), and the update
still replaces the stored position of entity 7 (x = 10 becomes x = 20). -/
theorem C16_counterexample_authoritative_position_is_updated :
    Example.authoritativeView.GetAuthority 7 Example.updateEnv.POSITION_COMPONENT_ID =
      Worker_Authority.WORKER_AUTHORITY_AUTHORITATIVE ∧
    Example.authoritativeView.GetComponentData Example.updateEnv.POSITION_COMPONENT_ID
      ComponentStorageBase.asPosition 7 = some { X := 10, Y := 0, Z := 0 } ∧
    (Example.authoritativeView.OnComponentUpdate Example.updateEnv
        (Example.UpdateOp 7 Example.updateEnv.POSITION_COMPONENT_ID [20])).GetComponentData
      Example.updateEnv.POSITION_COMPONENT_ID ComponentStorageBase.asPosition 7 =
      some { X := 20, Y := 0, Z := 0 } := by
  decide

/-- C16 (amended): the view's `OnComponentUpdate` does not consult the recorded authority.
For an update of (E, Position), where the position id is not the id of the access control
list, a stored Position snapshot `p` of E becomes the result of applying the update to
`p`, whatever authority is recorded for (E, Position); the authority map is unchanged. -/
theorem C16_view_applies_position_update_whatever_the_authority (env : UpdateEnv)
    (View : USpatialStaticComponentView) (Op : Worker_ComponentUpdateOp) (p : Coordinates)
    (hid : Op.update.component_id = env.POSITION_COMPONENT_ID)
    (hne : env.POSITION_COMPONENT_ID ≠ env.ENTITY_ACL_COMPONENT_ID)
    (hp : View.GetComponentData env.POSITION_COMPONENT_ID ComponentStorageBase.asPosition
      Op.entity_id = some p) :
    (View.OnComponentUpdate env Op).GetComponentData env.POSITION_COMPONENT_ID
        ComponentStorageBase.asPosition Op.entity_id =
      some (env.PositionApplyComponentUpdate p Op.update) ∧
    (View.OnComponentUpdate env Op).EntityComponentAuthorityMap =
      View.EntityComponentAuthorityMap := by
  unfold USpatialStaticComponentView.OnComponentUpdate
  rw [if_neg (by rw [hid]; exact hne), if_pos hid]
  simp only [hp]
  exact ⟨USpatialStaticComponentView.GetComponentData_SetComponent _ _ _ _ _, rfl⟩

/-- C16 (amended) at the example view, which records authority over (7, Position). -/
theorem C16_view_applies_position_update_whatever_the_authority_witness :
    Example.authoritativeView.GetAuthority 7 54 =
      Worker_Authority.WORKER_AUTHORITY_AUTHORITATIVE ∧
    (Example.authoritativeView.OnComponentUpdate Example.updateEnv
        (Example.UpdateOp 7 54 [20])).GetComponentData
      Example.updateEnv.POSITION_COMPONENT_ID ComponentStorageBase.asPosition 7 =
      some (Example.updateEnv.PositionApplyComponentUpdate { X := 10, Y := 0, Z := 0 }
        (Example.UpdateOp 7 54 [20]).update) :=
  ⟨by decide,
   (C16_view_applies_position_update_whatever_the_authority Example.updateEnv
      Example.authoritativeView (Example.UpdateOp 7 54 [20]) { X := 10, Y := 0, Z := 0 }
      rfl (by decide) (by decide)).1⟩

/-! ## Component updates at the receiver -/

/-- C17: when the view records `Authoritative` for the updated entity and component,
`OnComponentUpdate` returns normally and leaves the receiver as it was: nothing is
recorded in the trace (no property update is applied, no multicast handler invoked) and
both reference maps are unchanged, whatever the channel and class lookups would give. -/
theorem C17_authoritative_update_is_ignored (env : UpdateEnv)
    (View : USpatialStaticComponentView) (Op : Worker_ComponentUpdateOp) (s : USpatialReceiver)
    (hauth : View.GetAuthority Op.entity_id Op.update.component_id =
      Worker_Authority.WORKER_AUTHORITY_AUTHORITATIVE) :
    OnComponentUpdate env View Op s = Outcome.ok () s := by
  unfold OnComponentUpdate
  rw [if_pos hauth]
  rfl

/-- C17 at an entity without a channel and a component without a class. -/
theorem C17_authoritative_update_is_ignored_witness :
    Example.updateEnv.GetActorChannelByEntityId 9 = none ∧
    Example.updateEnv.FindClassByComponentId 9999 = none ∧
    OnComponentUpdate Example.updateEnv
      (Example.authoritativeView.OnAuthorityChange (Example.AuthorityOp 9 9999
        Worker_Authority.WORKER_AUTHORITY_AUTHORITATIVE))
      (Example.UpdateOp 9 9999 [1]) Example.referring = Outcome.ok () Example.referring :=
  ⟨by decide, by decide,
   C17_authoritative_update_is_ignored Example.updateEnv _ (Example.UpdateOp 9 9999 [1])
     Example.referring (by decide)⟩

/-- C18, as stated, fails: entity 9 has no actor channel and the view records no
authority, and a Position update for it returns normally with the receiver unchanged. -/
theorem C18_counterexample_position_update_without_channel_returns :
    Example.updateEnv.GetActorChannelByEntityId 9 = none ∧
    OnComponentUpdate Example.updateEnv USpatialStaticComponentView.empty
      (Example.UpdateOp 9 Example.updateEnv.POSITION_COMPONENT_ID [20]) Example.initial =
      Outcome.ok () Example.initial := by
  refine ⟨by decide, ?_⟩
  unfold OnComponentUpdate
  rw [if_neg (by decide), if_pos (by decide)]
  rfl

/-- C18 (amended): for an update of an entity with no actor channel, `OnComponentUpdate`
returns silently, the receiver unchanged, when the view records `Authoritative` for the
component or the component is hand-written; otherwise it stops fatally, the receiver
unchanged, when the component has no class or is the single-client, multi-client or
(not being the handover component) multicast component of its class; and with the net
driver set it returns silently for the handover component and for any other component of
the class. -/
theorem C18_update_without_channel (env : UpdateEnv) (View : USpatialStaticComponentView)
    (Op : Worker_ComponentUpdateOp) (s : USpatialReceiver)
    (hch : env.GetActorChannelByEntityId Op.entity_id = none) :
    ((View.GetAuthority Op.entity_id Op.update.component_id =
        Worker_Authority.WORKER_AUTHORITY_AUTHORITATIVE ∨
      IsHandWrittenComponent env Op.update.component_id = true) →
      OnComponentUpdate env View Op s = Outcome.ok () s) ∧
    (View.GetAuthority Op.entity_id Op.update.component_id ≠
        Worker_Authority.WORKER_AUTHORITY_AUTHORITATIVE →
      IsHandWrittenComponent env Op.update.component_id = false →
      (env.FindClassByComponentId Op.update.component_id = none →
        OnComponentUpdate env View Op s = Outcome.fatal s) ∧
      (∀ Class Info, env.FindClassByComponentId Op.update.component_id = some Class →
        env.FindClassInfoByClass Class = some Info →
        ((Op.update.component_id = Info.SingleClientComponent ∨
          Op.update.component_id = Info.MultiClientComponent ∨
          (Op.update.component_id ≠ Info.HandoverComponent ∧
            Op.update.component_id = Info.RPCComponents ERPCType.RPC_NetMulticast)) →
          OnComponentUpdate env View Op s = Outcome.fatal s) ∧
        (s.NetDriver = true →
          Op.update.component_id ≠ Info.SingleClientComponent →
          Op.update.component_id ≠ Info.MultiClientComponent →
          (Op.update.component_id = Info.HandoverComponent ∨
            Op.update.component_id ≠ Info.RPCComponents ERPCType.RPC_NetMulticast) →
          OnComponentUpdate env View Op s = Outcome.ok () s))) := by
  refine ⟨?_, ?_⟩
  · intro h
    unfold OnComponentUpdate
    rcases h with h | h
    · rw [if_pos h]
      rfl
    · split
      · rfl
      · rfl
  · intro hna hnh
    have hnh' : ¬ (IsHandWrittenComponent env Op.update.component_id = true) := by
      rw [hnh]
      decide
    refine ⟨?_, ?_⟩
    · intro hcl
      unfold OnComponentUpdate
      rw [if_neg hna, if_neg hnh']
      simp [Exec.bind_apply, Exec.deref, hcl]
    · intro Class Info hcl hinfo
      refine ⟨?_, ?_⟩
      · intro hbranch
        unfold OnComponentUpdate
        rw [if_neg hna, if_neg hnh']
        cases hN : s.NetDriver
        · simp [Exec.bind_apply, Exec.deref, Exec.get, Exec.check, Exec.pure_apply, hcl, hinfo, hN]
        · simp only [Exec.bind_apply, Exec.deref, Exec.get, Exec.check, Exec.pure_apply, hcl,
            hinfo, hN, hch, if_true]
          rcases hbranch with h | h | ⟨h1, h2⟩
          · rw [if_pos h]
            rfl
          · by_cases h0 : Op.update.component_id = Info.SingleClientComponent
            · rw [if_pos h0]
              rfl
            · rw [if_neg h0, if_pos h]
              rfl
          · by_cases h0 : Op.update.component_id = Info.SingleClientComponent
            · rw [if_pos h0]
              rfl
            · by_cases h3 : Op.update.component_id = Info.MultiClientComponent
              · rw [if_neg h0, if_pos h3]
                rfl
              · rw [if_neg h0, if_neg h3, if_neg h1, if_pos h2]
                rfl
      · intro hN h0 h3 hrest
        unfold OnComponentUpdate
        rw [if_neg hna, if_neg hnh']
        simp only [Exec.bind_apply, Exec.deref, Exec.get, Exec.check, Exec.pure_apply, hcl,
          hinfo, hN, hch, if_true]
        rw [if_neg h0, if_neg h3]
        by_cases h4 : Op.update.component_id = Info.HandoverComponent
        · rw [if_pos h4]
          cases env.IsServer <;> rfl
        · rcases hrest with h | h
          · exact absurd h h4
          · rw [if_neg h4, if_neg h]
            rfl

/-- C18 (amended) at entity 9 of the example worker, which has no channel: an update of
the single-client component of `Character` stops fatally, one of its handover component
returns silently. -/
theorem C18_update_without_channel_witness :
    Example.updateEnv.GetActorChannelByEntityId 9 = none ∧
    OnComponentUpdate Example.updateEnv USpatialStaticComponentView.empty
      (Example.UpdateOp 9 2001 [1]) Example.initial = Outcome.fatal Example.initial ∧
    OnComponentUpdate Example.updateEnv USpatialStaticComponentView.empty
      (Example.UpdateOp 9 2003 [1]) Example.initial = Outcome.ok () Example.initial :=
  ⟨by decide,
   (((C18_update_without_channel Example.updateEnv USpatialStaticComponentView.empty
      (Example.UpdateOp 9 2001 [1]) Example.initial (by decide)).2 (by decide) (by decide)).2
      Example.Character Example.CharacterInfo (by decide) rfl).1 (Or.inl (by decide)),
   (((C18_update_without_channel Example.updateEnv USpatialStaticComponentView.empty
      (Example.UpdateOp 9 2003 [1]) Example.initial (by decide)).2 (by decide) (by decide)).2
      Example.Character Example.CharacterInfo (by decide) rfl).2 (by decide)
      (by decide) (by decide) (Or.inl (by decide))⟩

/-! ## Re-binding an entity that already has an actor -/

/-- The branch of `CreateActor` for an entity that already has an actor, in closed form:
the call either stops with only its entry record made, or returns with the entry record
and one `ResolveEntityActor` on the existing actor; nothing else changes. -/
theorem CreateActor_of_existing_actor (env : Env) (E : Worker_EntityId) (s : USpatialReceiver)
    (A : AActor) (hA : s.GetActorFromEntityId E = some A) :
    CreateActor env E s = Outcome.fatal { s with Trace := s.Trace ++ [Event.CreateActor E] } ∨
    ∃ m, CreateActor env E s = Outcome.ok ()
      { s with Trace := s.Trace ++ [Event.CreateActor E, Event.ResolveEntityActor A E m] } := by
  have hA2 : USpatialReceiver.GetActorFromEntityId
      { s with Trace := s.Trace ++ [Event.CreateActor E] } E = some A := hA
  unfold CreateActor
  simp only [Exec.bind_apply, Exec.get, Exec.check, Exec.deref, Exec.modify, emit,
    GetComponentData_trace, hA2]
  cases s.World
  · left
    rfl
  cases s.NetDriver
  · left
    rfl
  cases s.EntityRegistry
  · left
    rfl
  cases GetComponentData env.POSITION_COMPONENT_ID Component.asPosition s E
  · left
    rfl
  cases GetComponentData env.METADATA_COMPONENT_ID Component.asMetadata s E
  · left
    rfl
  cases GetComponentData env.UNREAL_METADATA_COMPONENT_ID Component.asUnrealMetadata s E with
  | none =>
    left
    rfl
  | some UnrealMetadataComponent =>
    cases env.SpatialOSNetConnection with
    | none =>
      left
      rfl
    | some Connection =>
      cases hb : Connection.bSpatialPackageMap
      · left
        simp [hb]
      · right
        refine ⟨UnrealMetadataComponent.SubobjectNameToOffset, ?_⟩
        simp [hb]

/-- With what `CanRebind` asks for, that branch of `CreateActor` returns. -/
theorem CreateActor_of_existing_actor_returns (env : Env) (E : Worker_EntityId)
    (s : USpatialReceiver) (A : AActor) (hA : s.GetActorFromEntityId E = some A)
    (hcan : CanRebind env s E = true) : (CreateActor env E s).isFatal = false := by
  have hA2 : USpatialReceiver.GetActorFromEntityId
      { s with Trace := s.Trace ++ [Event.CreateActor E] } E = some A := hA
  have hr : s.EntityRegistry.isSome = true := by
    unfold USpatialReceiver.GetActorFromEntityId at hA
    cases h : s.EntityRegistry
    · rw [h] at hA
      cases hA
    · rfl
  unfold CanRebind at hcan
  unfold CreateActor
  simp only [Exec.bind_apply, Exec.get, Exec.check, Exec.deref, Exec.modify, emit,
    GetComponentData_trace, hA2]
  revert hcan hr
  cases s.World <;> cases s.NetDriver <;> cases s.EntityRegistry <;>
    cases GetComponentData env.POSITION_COMPONENT_ID Component.asPosition s E <;>
    cases GetComponentData env.METADATA_COMPONENT_ID Component.asMetadata s E <;>
    cases GetComponentData env.UNREAL_METADATA_COMPONENT_ID Component.asUnrealMetadata s E <;>
    cases env.SpatialOSNetConnection <;>
    simp [Outcome.isFatal]
  intro hb
  simp [hb, Outcome.isFatal]

theorem ApplyComponentDataCalls_append (t u : List Event) :
    ApplyComponentDataCalls (t ++ u) = ApplyComponentDataCalls t ++ ApplyComponentDataCalls u := by
  induction t with
  | nil => rfl
  | cons e t ih => cases e <;> simp [ApplyComponentDataCalls, ih]

/-- C11: for an entity E that the registry binds to an actor A, every outcome of
`CreateActor(E)` leaves the registry as it was, so E is still bound to A; after its entry
record the call makes no record at all or exactly one `ResolveEntityActor` on A, so
nothing is spawned, no player is accepted, no channel is created and no binding is added;
and the call returns normally when the collaborators and the three core components that
this branch reads are there. -/
theorem C11_create_actor_rebinds_existing_actor (env : Env) (E : Worker_EntityId)
    (s : USpatialReceiver) (A : AActor) (hA : s.GetActorFromEntityId E = some A) :
    (CreateActor env E s).state.EntityRegistry = s.EntityRegistry ∧
    (CreateActor env E s).state.GetActorFromEntityId E = some A ∧
    (∃ t, (CreateActor env E s).state.Trace = s.Trace ++ Event.CreateActor E :: t ∧
      (t = [] ∨ ∃ m, t = [Event.ResolveEntityActor A E m]) ∧
      ∀ e ∈ t, e.isConstruction = false) ∧
    (CanRebind env s E = true → (CreateActor env E s).isFatal = false) := by
  refine ⟨?_, ?_, ?_, CreateActor_of_existing_actor_returns env E s A hA⟩
  · rcases CreateActor_of_existing_actor env E s A hA with h | ⟨m, h⟩ <;> rw [h] <;> rfl
  · rcases CreateActor_of_existing_actor env E s A hA with h | ⟨m, h⟩ <;> rw [h] <;> exact hA
  · rcases CreateActor_of_existing_actor env E s A hA with h | ⟨m, h⟩
    · rw [h]
      exact ⟨[], rfl, Or.inl rfl, by simp⟩
    · rw [h]
      refine ⟨[Event.ResolveEntityActor A E m], rfl, Or.inr ⟨m, rfl⟩, ?_⟩
      intro e he
      rw [List.mem_singleton.mp he]
      rfl

/-- C11 at entity 1 of the example, bound by a first burst and announced again by a
second one: the call returns and entity 1 is still bound to the same pawn. -/
theorem C11_create_actor_rebinds_existing_actor_witness :
    (Example.after Example.rebindBurst).GetActorFromEntityId 1 = some Example.Pawn ∧
    (CreateActor Example.env 1 (Example.after Example.rebindBurst)).state.EntityRegistry =
      (Example.after Example.rebindBurst).EntityRegistry ∧
    (CreateActor Example.env 1 (Example.after Example.rebindBurst)).state.GetActorFromEntityId 1 =
      some Example.Pawn ∧
    (CreateActor Example.env 1 (Example.after Example.rebindBurst)).isFatal = false :=
  ⟨by decide,
   (C11_create_actor_rebinds_existing_actor Example.env 1 (Example.after Example.rebindBurst)
      Example.Pawn (by decide)).1,
   (C11_create_actor_rebinds_existing_actor Example.env 1 (Example.after Example.rebindBurst)
      Example.Pawn (by decide)).2.1,
   (C11_create_actor_rebinds_existing_actor Example.env 1 (Example.after Example.rebindBurst)
      Example.Pawn (by decide)).2.2.2 (by decide)⟩

/-- C12, as stated, fails: entity 1 is bound to an actor, a dynamic component of it is
buffered, and neither `CreateActor(1)` alone nor the `LeaveCriticalSection` that calls it
makes any call of `ApplyComponentData`; the section's end then clears the buffer. -/
theorem C12_counterexample_buffered_dynamic_component_not_applied :
    (Example.after Example.rebindBurst).GetActorFromEntityId 1 = some Example.Pawn ∧
    (PendingDynamicComponents (Example.after Example.rebindBurst) 1).length = 1 ∧
    (CreateActor Example.env 1 (Example.after Example.rebindBurst)).isFatal = false ∧
    ApplyComponentDataCalls
      (CreateActor Example.env 1 (Example.after Example.rebindBurst)).state.Trace = [] ∧
    (LeaveCriticalSection Example.env (Example.after Example.rebindBurst)).isFatal = false ∧
    ApplyComponentDataCalls
      (LeaveCriticalSection Example.env (Example.after Example.rebindBurst)).state.Trace = [] ∧
    (LeaveCriticalSection Example.env
      (Example.after Example.rebindBurst)).state.PendingAddComponents = [] := by
  decide

/-- C12 (amended): when `CreateActor(E)` finds an actor already bound to E, no buffered
component snapshot is applied: the call makes no call of `ApplyComponentData`, and the
buffer of component adds and both reference maps are as before. -/
theorem C12_rebinding_applies_no_buffered_component (env : Env) (E : Worker_EntityId)
    (s : USpatialReceiver) (A : AActor) (hA : s.GetActorFromEntityId E = some A) :
    ApplyComponentDataCalls (CreateActor env E s).state.Trace = ApplyComponentDataCalls s.Trace ∧
    (CreateActor env E s).state.PendingAddComponents = s.PendingAddComponents ∧
    (CreateActor env E s).state.UnresolvedRefsMap = s.UnresolvedRefsMap ∧
    (CreateActor env E s).state.IncomingRefsMap = s.IncomingRefsMap := by
  rcases CreateActor_of_existing_actor env E s A hA with h | ⟨m, h⟩
  · rw [h]
    refine ⟨?_, rfl, rfl, rfl⟩
    simp [Outcome.state, ApplyComponentDataCalls_append, ApplyComponentDataCalls]
  · rw [h]
    refine ⟨?_, rfl, rfl, rfl⟩
    simp [Outcome.state, ApplyComponentDataCalls_append, ApplyComponentDataCalls]

/-- C12 (amended) at entity 1 of the example, with one dynamic component buffered. -/
theorem C12_rebinding_applies_no_buffered_component_witness :
    (PendingDynamicComponents (Example.after Example.rebindBurst) 1).length = 1 ∧
    ApplyComponentDataCalls
        (CreateActor Example.env 1 (Example.after Example.rebindBurst)).state.Trace =
      ApplyComponentDataCalls (Example.after Example.rebindBurst).Trace :=
  ⟨by decide,
   (C12_rebinding_applies_no_buffered_component Example.env 1
      (Example.after Example.rebindBurst) Example.Pawn (by decide)).1⟩

/-! ## Destruction and the reference maps -/

theorem SameReferences_preorder : Exec.Preorder SameReferences where
  refl := fun _ => ⟨rfl, rfl⟩
  trans := fun _ _ _ h g => ⟨g.1.trans h.1, g.2.trans h.2⟩

theorem emit_references (e : Event) : Exec.Keeps SameReferences (emit e) :=
  ⟨fun _ => ⟨rfl, rfl⟩⟩

theorem modify_registry_references (g : UEntityRegistry → UEntityRegistry) :
    Exec.Keeps SameReferences
      (Exec.modify (fun s : USpatialReceiver => { s with EntityRegistry := s.EntityRegistry.map g })) :=
  ⟨fun _ => ⟨rfl, rfl⟩⟩

theorem CleanupDeletedEntity_references (env : Env) (E : Worker_EntityId) :
    Exec.Keeps SameReferences (CleanupDeletedEntity env E) := by
  have hp := SameReferences_preorder
  unfold CleanupDeletedEntity
  repeat (first
    | (with_reducible refine Exec.keeps_bind hp ?_ ?_)
    | intro _
    | (with_reducible exact emit_references _)
    | (with_reducible exact Exec.keeps_check hp _)
    | (with_reducible exact Exec.keeps_deref hp _)
    | (with_reducible exact Exec.keeps_get hp)
    | (with_reducible exact modify_registry_references _))

theorem RemoveActor_references (env : Env) (E : Worker_EntityId) :
    Exec.Keeps SameReferences (RemoveActor env E) := by
  have hp := SameReferences_preorder
  unfold RemoveActor
  repeat (first
    | (with_reducible refine Exec.keeps_bind hp ?_ ?_)
    | (with_reducible refine Exec.keeps_when hp _ ?_)
    | intro _
    | split
    | (with_reducible exact emit_references _)
    | (with_reducible exact CleanupDeletedEntity_references _ _)
    | (with_reducible exact Exec.keeps_check hp _)
    | (with_reducible exact Exec.keeps_deref hp _)
    | (with_reducible exact Exec.keeps_get hp)
    | (with_reducible exact Exec.keeps_pure hp _))

/-- C13, as stated, fails: a property of the object on channel 1 waits for a reference
into entity 5; `RemoveActor(5)` returns, and afterwards `IncomingRefsMap` still maps that
reference to its waiting consumer and `UnresolvedRefsMap` still holds the reference. -/
theorem C13_counterexample_references_survive_removal :
    TMap.Find Example.referring.IncomingRefsMap { Entity := 5, Offset := 0 } = some [(1, 1)] ∧
    (RemoveActor Example.updateEnv.toEnv 5 Example.referring).isFatal = false ∧
    TMap.Find (RemoveActor Example.updateEnv.toEnv 5 Example.referring).state.IncomingRefsMap
      { Entity := 5, Offset := 0 } = some [(1, 1)] ∧
    UnresolvedTargets (RemoveActor Example.updateEnv.toEnv 5 Example.referring).state =
      [{ Entity := 5, Offset := 0 }] := by
  decide

/-- C13 (amended): `RemoveActor(E)` purges nothing: in every outcome `IncomingRefsMap` and
`UnresolvedRefsMap` are exactly as before the call, so a consumer that waited for a
reference into E is still found under that reference afterwards. -/
theorem C13_remove_actor_keeps_reference_maps (env : Env) (E : Worker_EntityId)
    (s : USpatialReceiver) :
    (RemoveActor env E s).state.IncomingRefsMap = s.IncomingRefsMap ∧
    (RemoveActor env E s).state.UnresolvedRefsMap = s.UnresolvedRefsMap ∧
    (∀ ObjectRef : UnrealObjectRef,
      TMap.Find (RemoveActor env E s).state.IncomingRefsMap ObjectRef =
        TMap.Find s.IncomingRefsMap ObjectRef) := by
  have h := (RemoveActor_references env E).run s
  refine ⟨h.1, h.2, ?_⟩
  intro ObjectRef
  rw [h.1]

/-! ## Multicast updates and command requests -/

/-- A loop whose every step returns having appended `g x` to the trace, and nothing else,
returns having appended what the steps append, in order. -/
theorem Exec.forEach_appends {α : Type} (f : α → RExec Unit) (g : α → List Event)
    (s : USpatialReceiver) (xs : List α)
    (hf : ∀ x ∈ xs, ∀ t, f x { s with Trace := t } =
      Outcome.ok () { s with Trace := t ++ g x }) :
    ∀ t, Exec.forEach f xs { s with Trace := t } =
      Outcome.ok () { s with Trace := t ++ xs.flatMap g } := by
  induction xs with
  | nil =>
    intro t
    simp [Exec.forEach_nil, Exec.pure_apply]
  | cons x xs ih =>
    intro t
    rw [Exec.forEach_cons, hf x (List.mem_cons_self x xs) t]
    have h := ih (fun y hy => hf y (List.mem_cons_of_mem x hy)) (t ++ g x)
    simp only [] at h ⊢
    rw [h, List.flatMap_cons, List.append_assoc]

theorem ReceiveMulticastEvent_resolved (env : UpdateEnv) (EventsObject : Schema_Object)
    (EntityId : Worker_EntityId) (EventIndex : Nat) (Function : UFunction) (i : Nat)
    (s : USpatialReceiver) (NetGUID : FNetworkGUID) (TargetObject : UObject)
    (hN : s.NetDriver = true)
    (hguid : env.GetNetGUIDFromUnrealObjectRef
      { Entity := EntityId,
        Offset := env.Schema_GetUint32 (env.Schema_IndexObject EventsObject EventIndex i) 1 } =
      some NetGUID)
    (hobj : env.GetObjectFromNetGUID NetGUID = some TargetObject) (t : List Event) :
    ReceiveMulticastEvent env EventsObject EntityId EventIndex Function i { s with Trace := t } =
      Outcome.ok () { s with Trace := t ++ [Event.ProcessEvent TargetObject Function
        (env.ReceivePropertiesForRPC Function
          (env.Schema_GetString (env.Schema_IndexObject EventsObject EventIndex i) 2))] } := by
  unfold ReceiveMulticastEvent
  simp only [Exec.bind_apply, Exec.deref, Exec.get, Exec.check, emit, Exec.modify, hguid, hobj,
    hN, if_true]

theorem List.flatMap_singleton_eq_map {α β : Type} (h : α → β) (xs : List α) :
    xs.flatMap (fun x => [h x]) = xs.map h := by
  induction xs with
  | nil => rfl
  | cons x xs ih => simp [List.flatMap_cons, ih]

theorem MulticastInvocationsOf_length (env : UpdateEnv) (EventsObject : Schema_Object)
    (target : Nat → Nat → UObject) (EventIndex : Nat) (Function : UFunction) :
    (MulticastInvocationsOf env EventsObject target EventIndex Function).length =
      env.Schema_GetObjectCount EventsObject EventIndex := by
  simp [MulticastInvocationsOf]

/-- The inner loop of `ReceiveMulticastUpdate` for one function index whose instances
all resolve. -/
theorem ReceiveMulticastEvents_resolved (env : UpdateEnv) (EventsObject : Schema_Object)
    (EntityId : Worker_EntityId) (Count : Nat) (target : Nat → Nat → UObject)
    (EventIndex : Nat) (Function : UFunction) (s : USpatialReceiver)
    (hN : s.NetDriver = true)
    (hres : AllTargetsResolved env EventsObject EntityId Count target)
    (h1 : 1 ≤ EventIndex) (h2 : EventIndex ≤ Count) (t : List Event) :
    Exec.forEach (ReceiveMulticastEvent env EventsObject EntityId EventIndex Function)
        (List.range (env.Schema_GetObjectCount EventsObject EventIndex)) { s with Trace := t } =
      Outcome.ok () { s with
        Trace := t ++ MulticastInvocationsOf env EventsObject target EventIndex Function } := by
  unfold MulticastInvocationsOf
  rw [← List.flatMap_singleton_eq_map]
  apply Exec.forEach_appends
  intro i hi u
  obtain ⟨NetGUID, hguid, hobj⟩ := hres EventIndex i h1 h2 (List.mem_range.mp hi)
  exact ReceiveMulticastEvent_resolved env EventsObject EntityId EventIndex Function i s NetGUID
    (target EventIndex i) hN hguid hobj u

theorem MulticastInvocations_length_aux (env : UpdateEnv) (EventsObject : Schema_Object)
    (target : Nat → Nat → UObject) (RPCArray : List UFunction) (xs : List Nat)
    (hxs : ∀ x ∈ xs, 1 ≤ x ∧ x ≤ RPCArray.length) :
    (xs.flatMap (fun EventIndex =>
      match RPCArray.get? (EventIndex - 1) with
      | some Function => MulticastInvocationsOf env EventsObject target EventIndex Function
      | none => [])).length =
    (xs.map (fun EventIndex => env.Schema_GetObjectCount EventsObject EventIndex)).sum := by
  induction xs with
  | nil => rfl
  | cons x xs ih =>
    have hx := hxs x (List.mem_cons_self x xs)
    have hlt : x - 1 < RPCArray.length := by omega
    rw [List.flatMap_cons, List.length_append, List.map_cons, List.sum_cons,
      ih (fun y hy => hxs y (List.mem_cons_of_mem x hy))]
    rw [List.get?_eq_get hlt]
    simp only [MulticastInvocationsOf_length]

/-- C19: with the net driver set and every event instance of the update naming a target
that resolves, `ReceiveMulticastUpdate` returns normally and makes exactly the calls
`MulticastInvocations`: for function index 1 to `RPCArray.Num()` in turn, one
`ProcessEvent` per instance, on the object that instance's target resolves to, in instance
order; the number of calls is the sum of the instance counts; nothing else changes. -/
theorem C19_multicast_invokes_once_per_instance (env : UpdateEnv)
    (ComponentUpdate : Worker_ComponentUpdate) (EntityId : Worker_EntityId)
    (RPCArray : List UFunction) (target : Nat → Nat → UObject) (s : USpatialReceiver)
    (hN : s.NetDriver = true)
    (hres : AllTargetsResolved env
      (env.Schema_GetComponentUpdateEvents ComponentUpdate.schema_type) EntityId
      RPCArray.length target) :
    ReceiveMulticastUpdate env ComponentUpdate EntityId RPCArray s =
      Outcome.ok () { s with
        Trace := s.Trace ++ MulticastInvocations env
          (env.Schema_GetComponentUpdateEvents ComponentUpdate.schema_type) target RPCArray } ∧
    (MulticastInvocations env (env.Schema_GetComponentUpdateEvents ComponentUpdate.schema_type)
        target RPCArray).length =
      ((List.range' 1 RPCArray.length).map (fun EventIndex =>
        env.Schema_GetObjectCount
          (env.Schema_GetComponentUpdateEvents ComponentUpdate.schema_type) EventIndex)).sum ∧
    (∀ EventIndex Function, RPCArray.get? (EventIndex - 1) = some Function →
      ∀ i, i < env.Schema_GetObjectCount
          (env.Schema_GetComponentUpdateEvents ComponentUpdate.schema_type) EventIndex →
        (MulticastInvocationsOf env
          (env.Schema_GetComponentUpdateEvents ComponentUpdate.schema_type) target EventIndex
          Function).get? i =
        some (Event.ProcessEvent (target EventIndex i) Function
          (env.ReceivePropertiesForRPC Function
            (env.Schema_GetString (env.Schema_IndexObject
              (env.Schema_GetComponentUpdateEvents ComponentUpdate.schema_type)
              EventIndex i) 2)))) := by
  have hmem : ∀ x ∈ List.range' 1 RPCArray.length, 1 ≤ x ∧ x ≤ RPCArray.length := by
    intro x hx
    have := List.mem_range'_1.mp hx
    omega
  refine ⟨?_, ?_, ?_⟩
  · unfold ReceiveMulticastUpdate MulticastInvocations
    have key := Exec.forEach_appends
      (fun EventIndex => do
        let Function ← Exec.deref (RPCArray.get? (EventIndex - 1))
        Exec.forEach (ReceiveMulticastEvent env
            (env.Schema_GetComponentUpdateEvents ComponentUpdate.schema_type) EntityId
            EventIndex Function)
          (List.range (env.Schema_GetObjectCount
            (env.Schema_GetComponentUpdateEvents ComponentUpdate.schema_type) EventIndex)))
      (fun EventIndex =>
        match RPCArray.get? (EventIndex - 1) with
        | some Function => MulticastInvocationsOf env
            (env.Schema_GetComponentUpdateEvents ComponentUpdate.schema_type) target
            EventIndex Function
        | none => [])
      s (List.range' 1 RPCArray.length) ?_ s.Trace
    · exact key
    · intro x hx t
      have hx2 := hmem x hx
      have hlt : x - 1 < RPCArray.length := by omega
      simp only [Exec.bind_apply, Exec.deref, List.get?_eq_get hlt]
      exact ReceiveMulticastEvents_resolved env _ EntityId RPCArray.length target x _ s hN hres
        hx2.1 hx2.2 t
  · exact MulticastInvocations_length_aux env _ target RPCArray _ hmem
  · intro EventIndex Function _ i hi
    simp only [MulticastInvocationsOf, List.get?_eq_getElem?, List.getElem?_map,
      List.getElem?_range hi]
    rfl

/-- C19 at a multicast update of entity 1 of the example with three instances of the first
function (targets at offsets 0, 2 and 1, in payload order) and one of the second: four
calls, the three of the first function in payload order, then the one of the second. -/
theorem C19_multicast_invokes_once_per_instance_witness :
    Example.initial.NetDriver = true ∧
    ReceiveMulticastUpdate Example.updateEnv (Example.UpdateOp 1 2007 [100, 201, 102, 101]).update
        1 [{ Id := 10 }, { Id := 11 }] Example.initial =
      Outcome.ok () { Example.initial with
        Trace := Example.initial.Trace ++ MulticastInvocations Example.updateEnv
          [100, 201, 102, 101]
          (fun EventIndex i => 100 + (Example.updateEnv.Schema_GetUint32
            (Example.updateEnv.Schema_IndexObject [100, 201, 102, 101] EventIndex i) 1 + 1))
          [{ Id := 10 }, { Id := 11 }] } ∧
    MulticastInvocations Example.updateEnv [100, 201, 102, 101]
        (fun EventIndex i => 100 + (Example.updateEnv.Schema_GetUint32
          (Example.updateEnv.Schema_IndexObject [100, 201, 102, 101] EventIndex i) 1 + 1))
        [{ Id := 10 }, { Id := 11 }] =
      [Event.ProcessEvent 101 { Id := 10 } [], Event.ProcessEvent 103 { Id := 10 } [],
       Event.ProcessEvent 102 { Id := 10 } [], Event.ProcessEvent 102 { Id := 11 } []] :=
  ⟨rfl,
   (C19_multicast_invokes_once_per_instance Example.updateEnv
      (Example.UpdateOp 1 2007 [100, 201, 102, 101]).update 1 [{ Id := 10 }, { Id := 11 }]
      (fun EventIndex i => 100 + (Example.updateEnv.Schema_GetUint32
        (Example.updateEnv.Schema_IndexObject [100, 201, 102, 101] EventIndex i) 1 + 1))
      Example.initial rfl (fun _ _ _ _ _ => ⟨_, rfl, rfl⟩)).1,
   by decide⟩

theorem Exec.bind_check_true {σ β : Type} (f : Unit → Exec σ β) (s : σ) :
    (Exec.check true >>= f) s = f () s := rfl

theorem Exec.bind_deref_some {σ α β : Type} (a : α) (f : α → Exec σ β) (s : σ) :
    (Exec.deref (some a) >>= f) s = f a s := rfl

theorem ReceiveRPCCommandRequest_unresolved (env : UpdateEnv)
    (CommandRequest : Worker_CommandRequest) (EntityId : Worker_EntityId) (Function : UFunction)
    (s : USpatialReceiver)
    (hun : env.GetNetGUIDFromUnrealObjectRef
      { Entity := EntityId,
        Offset := env.Schema_GetUint32
          (env.Schema_GetCommandRequestObject CommandRequest.schema_type) 1 } = none) :
    ReceiveRPCCommandRequest env CommandRequest EntityId Function s = Outcome.fatal s := by
  unfold ReceiveRPCCommandRequest
  simp only [Exec.bind_apply, Exec.deref, hun]

/-- C20, as stated, fails: no object of entity 9 resolves, and the client command
directed at it stops `OnCommandRequest` fatally, with no call made, so without the
response either; the same command directed at entity 1, whose objects resolve, is
answered. -/
theorem C20_counterexample_unresolved_target_is_fatal :
    Example.updateEnv.GetNetGUIDFromUnrealObjectRef { Entity := 9, Offset := 0 } = none ∧
    (OnCommandRequest Example.updateEnv (Example.CommandOp 9 2004 1 0)
      Example.initial).isFatal = true ∧
    (OnCommandRequest Example.updateEnv (Example.CommandOp 9 2004 1 0)
      Example.initial).state.Trace = Example.initial.Trace ∧
    (OnCommandRequest Example.updateEnv (Example.CommandOp 1 2004 1 0)
      Example.initial).state.Trace =
      Example.initial.Trace ++ [Event.ProcessEvent 101 { Id := 1 } [],
        Event.SendCommandResponse 42 2004 1] := by
  decide

/-- C20 (amended): a command request that is not the player-spawn request, for a
component that maps to a class, whose target reference does not resolve, is fatal:
`ReceiveRPCCommandRequest` stops at its `checkNoEntry()` for every function, and
`OnCommandRequest` stops with the receiver as it was, so the function is not invoked and
no response is sent. -/
theorem C20_unresolved_command_target_is_fatal (env : UpdateEnv) (Op : Worker_CommandRequestOp)
    (s : USpatialReceiver) (Class : UClass)
    (hns : ¬ (Op.request.component_id = env.PLAYER_SPAWNER_COMPONENT_ID ∧
      env.Schema_GetCommandRequestCommandIndex Op.request.schema_type = 1))
    (hcl : env.FindClassByComponentId Op.request.component_id = some Class)
    (hun : env.GetNetGUIDFromUnrealObjectRef
      { Entity := Op.entity_id,
        Offset := env.Schema_GetUint32
          (env.Schema_GetCommandRequestObject Op.request.schema_type) 1 } = none) :
    (∀ Function, ReceiveRPCCommandRequest env Op.request Op.entity_id Function s =
      Outcome.fatal s) ∧
    OnCommandRequest env Op s = Outcome.fatal s := by
  refine ⟨fun Function => ReceiveRPCCommandRequest_unresolved env _ _ Function s hun, ?_⟩
  unfold OnCommandRequest
  simp only [hns, if_false, hcl, Exec.bind_apply]
  have hinv : InvokeCommandRequest env Op
      (env.Schema_GetCommandRequestCommandIndex Op.request.schema_type) Class s =
      Outcome.fatal s := by
    unfold InvokeCommandRequest
    cases env.FindClassInfoByClass Class with
    | none => rfl
    | some Info =>
      rw [Exec.bind_deref_some]
      show (Exec.check _ >>= _) s = _
      generalize decide (_ ≤ ERPCType.RPC_CrossServer.toNat) = c1
      cases c1 with
      | false => rfl
      | true =>
        rw [Exec.bind_check_true]
        cases TMap.Find Info.RPCs (FindRPCType Info Op.request.component_id) with
        | none => rfl
        | some RPCArray =>
          rw [Exec.bind_deref_some]
          generalize decide (_ < Int.ofNat RPCArray.length) = c2
          cases c2 with
          | false => rfl
          | true =>
            rw [Exec.bind_check_true]
            generalize TArray.At RPCArray _ = Found
            cases Found with
            | none => rfl
            | some Function =>
              rw [Exec.bind_deref_some, Exec.bind_apply,
                ReceiveRPCCommandRequest_unresolved env _ _ Function s hun]
  rw [hinv]

/-- C20 (amended) at the client command directed at entity 9 of the example. -/
theorem C20_unresolved_command_target_is_fatal_witness :
    OnCommandRequest Example.updateEnv (Example.CommandOp 9 2004 1 0) Example.initial =
      Outcome.fatal Example.initial :=
  (C20_unresolved_command_target_is_fatal Example.updateEnv (Example.CommandOp 9 2004 1 0)
    Example.initial Example.Character (by decide) (by decide) (by decide)).2

/-! ## Command responses -/

theorem CommandResponses_append (t u : List Event) :
    CommandResponses (t ++ u) = CommandResponses t ++ CommandResponses u := by
  induction t with
  | nil => rfl
  | cons e t ih => cases e <;> simp [CommandResponses, ih]

theorem SameResponses_preorder : Exec.Preorder SameResponses where
  refl := fun _ => rfl
  trans := fun _ _ _ h g => Eq.trans g h

theorem ReceiveRPCCommandRequest_responses (env : UpdateEnv)
    (CommandRequest : Worker_CommandRequest) (EntityId : Worker_EntityId) (Function : UFunction) :
    Exec.Keeps SameResponses (ReceiveRPCCommandRequest env CommandRequest EntityId Function) := by
  have hp := SameResponses_preorder
  unfold ReceiveRPCCommandRequest
  repeat (first
    | (with_reducible refine Exec.keeps_bind hp ?_ ?_)
    | intro _
    | (with_reducible exact Exec.keeps_check hp _)
    | (with_reducible exact Exec.keeps_deref hp _)
    | (with_reducible exact Exec.keeps_get hp)
    | (with_reducible exact Exec.keeps_pure hp _))

theorem emit_ProcessEvent_responses (Target : UObject) (Function : UFunction)
    (Parms : List Nat) :
    Exec.Keeps SameResponses (emit (Event.ProcessEvent Target Function Parms)) := by
  constructor
  intro s
  show CommandResponses (s.Trace ++ [Event.ProcessEvent Target Function Parms]) = _
  rw [CommandResponses_append]
  simp [CommandResponses]

theorem InvokeCommandRequest_responses (env : UpdateEnv) (Op : Worker_CommandRequestOp)
    (CommandIndex : Nat) (Class : UClass) :
    Exec.Keeps SameResponses (InvokeCommandRequest env Op CommandIndex Class) := by
  have hp := SameResponses_preorder
  unfold InvokeCommandRequest
  repeat (first
    | (with_reducible refine Exec.keeps_bind hp ?_ ?_)
    | intro _
    | (with_reducible exact Exec.keeps_check hp _)
    | (with_reducible exact Exec.keeps_deref hp _)
    | (with_reducible exact ReceiveRPCCommandRequest_responses _ _ _ _)
    | (with_reducible exact emit_ProcessEvent_responses _ _ _)
    | (with_reducible exact Exec.keeps_pure hp _)
    | split)

theorem ReceiveRPCCommandRequest_resolved (env : UpdateEnv)
    (CommandRequest : Worker_CommandRequest) (EntityId : Worker_EntityId) (Function : UFunction)
    (s : USpatialReceiver) (NetGUID : FNetworkGUID) (TargetObject : UObject)
    (hN : s.NetDriver = true)
    (hguid : env.GetNetGUIDFromUnrealObjectRef
      { Entity := EntityId,
        Offset := env.Schema_GetUint32
          (env.Schema_GetCommandRequestObject CommandRequest.schema_type) 1 } = some NetGUID)
    (hobj : env.GetObjectFromNetGUID NetGUID = some TargetObject) :
    ReceiveRPCCommandRequest env CommandRequest EntityId Function s =
      Outcome.ok (some TargetObject, env.ReceivePropertiesForRPC Function
        (env.Schema_GetString (env.Schema_GetCommandRequestObject CommandRequest.schema_type) 2))
        s := by
  unfold ReceiveRPCCommandRequest
  simp only [Exec.bind_apply, Exec.deref, Exec.get, Exec.check, hguid, hobj, hN, if_true,
    Exec.pure_apply]

/-- The branch of `OnCommandRequest` for a mapped class, when every check passes and the
target resolves: the function is invoked on the target. -/
theorem InvokeCommandRequest_resolved (env : UpdateEnv) (Op : Worker_CommandRequestOp)
    (CommandIndex : Nat) (Class : UClass) (s : USpatialReceiver) (Info : FClassInfo)
    (RPCArray : List UFunction) (Function : UFunction) (NetGUID : FNetworkGUID)
    (TargetObject : UObject)
    (hinfo : env.FindClassInfoByClass Class = some Info)
    (htype : (FindRPCType Info Op.request.component_id).toNat ≤ ERPCType.RPC_CrossServer.toNat)
    (hrpc : TMap.Find Info.RPCs (FindRPCType Info Op.request.component_id) = some RPCArray)
    (hguard : toInt32 CommandIndex - 1 < Int.ofNat RPCArray.length)
    (hfun : TArray.At RPCArray (toInt32 ((CommandIndex + 2 ^ 32 - 1) % 2 ^ 32)) = some Function)
    (hN : s.NetDriver = true)
    (hguid : env.GetNetGUIDFromUnrealObjectRef
      { Entity := Op.entity_id,
        Offset := env.Schema_GetUint32
          (env.Schema_GetCommandRequestObject Op.request.schema_type) 1 } = some NetGUID)
    (hobj : env.GetObjectFromNetGUID NetGUID = some TargetObject) :
    InvokeCommandRequest env Op CommandIndex Class s =
      Outcome.ok () { s with
        Trace := s.Trace ++ [Event.ProcessEvent TargetObject Function
          (env.ReceivePropertiesForRPC Function
            (env.Schema_GetString
              (env.Schema_GetCommandRequestObject Op.request.schema_type) 2))] } := by
  have h1 : decide ((FindRPCType Info Op.request.component_id).toNat ≤
      ERPCType.RPC_CrossServer.toNat) = true := decide_eq_true htype
  have h2 : decide (toInt32 CommandIndex - 1 < Int.ofNat RPCArray.length) = true :=
    decide_eq_true hguard
  unfold InvokeCommandRequest
  rw [hinfo, Exec.bind_deref_some]
  show (Exec.check _ >>= _) s = _
  rw [h1, Exec.bind_check_true, hrpc, Exec.bind_deref_some, h2, Exec.bind_check_true, hfun,
    Exec.bind_deref_some, Exec.bind_apply,
    ReceiveRPCCommandRequest_resolved env _ _ Function s NetGUID TargetObject hN hguid hobj]
  rfl

theorem Exec.bind_eq_ok {σ α β : Type} {m : Exec σ α} {f : α → Exec σ β} {s s' : σ} {b : β}
    (h : (m >>= f) s = Outcome.ok b s') : ∃ a s1, m s = Outcome.ok a s1 ∧ f a s1 = Outcome.ok b s' := by
  rw [Exec.bind_apply] at h
  cases hm : m s with
  | ok a s1 =>
    rw [hm] at h
    exact ⟨a, s1, rfl, h⟩
  | fatal s1 =>
    rw [hm] at h
    cases h

/-- C21: every normal return of `OnCommandRequest` has sent exactly one command response
more than were sent before, and that response carries the request id and the component
id of the request.  The three ways it returns: the player-spawn request, with the net
driver set, accepts the player and responds through the worker connection; a request
whose component maps to no class invokes nothing and responds; a request whose checks
pass and whose target resolves invokes the function on the target and responds. -/
theorem C21_one_response_per_processed_request (env : UpdateEnv) (Op : Worker_CommandRequestOp)
    (s : USpatialReceiver) :
    (∀ s', OnCommandRequest env Op s = Outcome.ok () s' →
      CommandResponses s'.Trace =
        CommandResponses s.Trace ++ [(Op.request_id, Op.request.component_id)]) ∧
    (Op.request.component_id = env.PLAYER_SPAWNER_COMPONENT_ID ∧
        env.Schema_GetCommandRequestCommandIndex Op.request.schema_type = 1 →
      s.NetDriver = true →
      OnCommandRequest env Op s = Outcome.ok () { s with
        Trace := s.Trace ++
          [Event.AcceptNewPlayer
            (env.Schema_GetString (env.Schema_GetCommandRequestObject Op.request.schema_type) 1 ++
              "?workerId=" ++ Op.caller_worker_id),
           Event.Worker_Connection_SendCommandResponse Op.request_id
             env.PLAYER_SPAWNER_COMPONENT_ID 1] }) ∧
    (¬ (Op.request.component_id = env.PLAYER_SPAWNER_COMPONENT_ID ∧
        env.Schema_GetCommandRequestCommandIndex Op.request.schema_type = 1) →
      env.FindClassByComponentId Op.request.component_id = none →
      OnCommandRequest env Op s = Outcome.ok () { s with
        Trace := s.Trace ++ [Event.SendCommandResponse Op.request_id Op.request.component_id
          (env.Schema_GetCommandRequestCommandIndex Op.request.schema_type)] }) ∧
    (¬ (Op.request.component_id = env.PLAYER_SPAWNER_COMPONENT_ID ∧
        env.Schema_GetCommandRequestCommandIndex Op.request.schema_type = 1) →
      ∀ Class Info RPCArray Function NetGUID TargetObject,
      env.FindClassByComponentId Op.request.component_id = some Class →
      env.FindClassInfoByClass Class = some Info →
      (FindRPCType Info Op.request.component_id).toNat ≤ ERPCType.RPC_CrossServer.toNat →
      TMap.Find Info.RPCs (FindRPCType Info Op.request.component_id) = some RPCArray →
      toInt32 (env.Schema_GetCommandRequestCommandIndex Op.request.schema_type) - 1 <
        Int.ofNat RPCArray.length →
      TArray.At RPCArray (toInt32
        ((env.Schema_GetCommandRequestCommandIndex Op.request.schema_type + 2 ^ 32 - 1) %
          2 ^ 32)) = some Function →
      s.NetDriver = true →
      env.GetNetGUIDFromUnrealObjectRef
        { Entity := Op.entity_id,
          Offset := env.Schema_GetUint32
            (env.Schema_GetCommandRequestObject Op.request.schema_type) 1 } = some NetGUID →
      env.GetObjectFromNetGUID NetGUID = some TargetObject →
      OnCommandRequest env Op s = Outcome.ok () { s with
        Trace := s.Trace ++
          [Event.ProcessEvent TargetObject Function
            (env.ReceivePropertiesForRPC Function
              (env.Schema_GetString
                (env.Schema_GetCommandRequestObject Op.request.schema_type) 2)),
           Event.SendCommandResponse Op.request_id Op.request.component_id
             (env.Schema_GetCommandRequestCommandIndex Op.request.schema_type)] }) := by
  refine ⟨?_, ?_, ?_, ?_⟩
  · intro s' h
    unfold OnCommandRequest at h
    by_cases hsp : Op.request.component_id = env.PLAYER_SPAWNER_COMPONENT_ID ∧
        env.Schema_GetCommandRequestCommandIndex Op.request.schema_type = 1
    · simp only [hsp, and_self, if_true, Exec.bind_apply, Exec.get, Exec.check, emit,
        Exec.modify] at h
      cases hN : s.NetDriver
      · simp [hN] at h
      · simp only [hN, if_true] at h
        cases h
        simp [CommandResponses_append, CommandResponses, hsp.1]
    · simp only [hsp, if_false] at h
      cases hcl : env.FindClassByComponentId Op.request.component_id with
      | none =>
        simp only [hcl, emit, Exec.modify] at h
        cases h
        simp [CommandResponses_append, CommandResponses]
      | some Class =>
        simp only [hcl] at h
        obtain ⟨_, s1, h1, h2⟩ := Exec.bind_eq_ok h
        have hk := (InvokeCommandRequest_responses env Op
          (env.Schema_GetCommandRequestCommandIndex Op.request.schema_type) Class).run s
        rw [h1] at hk
        simp only [emit, Exec.modify] at h2
        cases h2
        have hk2 : CommandResponses s1.Trace = CommandResponses s.Trace := hk
        simp [CommandResponses_append, CommandResponses, hk2]
  · intro hsp hN
    unfold OnCommandRequest
    simp only [hsp, and_self, if_true, Exec.bind_apply, Exec.get, Exec.check, emit,
      Exec.modify, hN, List.append_assoc, List.singleton_append]
  · intro hsp hcl
    unfold OnCommandRequest
    simp only [hsp, if_false, hcl, emit, Exec.modify]
  · intro hsp Class Info RPCArray Function NetGUID TargetObject hcl hinfo htype hrpc hguard hfun
      hN hguid hobj
    unfold OnCommandRequest
    simp only [hsp, if_false, hcl, Exec.bind_apply]
    rw [InvokeCommandRequest_resolved env Op _ Class s Info RPCArray Function NetGUID TargetObject
      hinfo htype hrpc hguard hfun hN hguid hobj]
    simp only [emit, Exec.modify, List.append_assoc, List.singleton_append]

/-- C21 at the example worker: a client command to entity 1, the player-spawn request, and
a request for a component that maps to no class each send one response carrying request
id 42 and the component id of the request. -/
theorem C21_one_response_per_processed_request_witness :
    OnCommandRequest Example.updateEnv (Example.CommandOp 1 2004 1 0) Example.initial =
      Outcome.ok () { Example.initial with
        Trace := Example.initial.Trace ++
          [Event.ProcessEvent 101 { Id := 1 } [], Event.SendCommandResponse 42 2004 1] } ∧
    CommandResponses (OnCommandRequest Example.updateEnv (Example.CommandOp 1 100002 1 0)
      Example.initial).state.Trace = [(42, 100002)] ∧
    CommandResponses (OnCommandRequest Example.updateEnv (Example.CommandOp 1 9999 3 0)
      Example.initial).state.Trace = [(42, 9999)] :=
  ⟨(C21_one_response_per_processed_request Example.updateEnv (Example.CommandOp 1 2004 1 0)
      Example.initial).2.2.2 (by decide) Example.Character Example.CharacterInfo
      [{ Id := 1 }, { Id := 2 }] { Id := 1 } 1 101 (by decide) rfl (by decide) (by decide)
      (by decide) (by decide) rfl (by decide) (by decide),
   by decide, by decide⟩

/-- C29, at command index 0: for every function array the guard
`check((int)CommandIndex - 1 < RPCArray->Num())` passes, the index `CommandIndex - 1`
wraps to 4294967295, which is -1 as an `int`, and the element access fails its range
check; so a client command with index 0 stops `OnCommandRequest` fatally after the guard,
where the same command with index 1 is invoked and answered. -/
theorem C29_command_index_zero_passes_the_guard (RPCArray : List UFunction) :
    toInt32 0 - 1 < Int.ofNat RPCArray.length ∧
    (0 + 2 ^ 32 - 1) % 2 ^ 32 = 4294967295 ∧
    toInt32 ((0 + 2 ^ 32 - 1) % 2 ^ 32) = -1 ∧
    TArray.At RPCArray (toInt32 ((0 + 2 ^ 32 - 1) % 2 ^ 32)) = none ∧
    Example.updateEnv.Schema_GetCommandRequestCommandIndex
      (Example.CommandOp 1 2004 0 0).request.schema_type = 0 ∧
    (OnCommandRequest Example.updateEnv (Example.CommandOp 1 2004 0 0)
      Example.initial).isFatal = true ∧
    (OnCommandRequest Example.updateEnv (Example.CommandOp 1 2004 0 0)
      Example.initial).state.Trace = Example.initial.Trace ∧
    (OnCommandRequest Example.updateEnv (Example.CommandOp 1 2004 1 0)
      Example.initial).isFatal = false := by
  have h0 : toInt32 0 = 0 := by decide
  have h1 : toInt32 ((0 + 2 ^ 32 - 1) % 2 ^ 32) = -1 := by decide
  refine ⟨?_, by decide, h1, ?_, by decide, by decide, by decide, by decide⟩
  · rw [h0]
    show (0 : Int) - 1 < (RPCArray.length : Int)
    omega
  · rw [h1]
    rfl

/-! ## Applying the buffered components of a new entity -/

theorem Exec.keeps_of_eq {σ α : Type} (R : σ → σ → Prop) {m : Exec σ α} {s s' : σ} {a : α}
    (hm : Exec.Keeps R m) (h : m s = Outcome.ok a s') : R s s' := by
  have h1 := hm.run s
  rw [h] at h1
  exact h1

/-- After its entry record `ApplyComponentData` calls the reader at most and enters
nothing. -/
theorem ApplyComponentData_calls (env : Env) (E : Worker_EntityId) (d : Worker_ComponentData)
    (c : USpatialActorChannel) (s : USpatialReceiver) :
    Frame (fun e => e.isConstruction = false) s (ApplyComponentData env E d c s).state ∧
    ∀ t, (ApplyComponentData env E d c s).state.Trace = s.Trace ++ t →
      ApplyComponentDataCalls t = [(E, d)] := by
  have hp := Frame.preorder (fun e : Event =>
    e.isConstruction = false ∧ ApplyComponentDataCalls [e] = [])
  have hrest : Frame (fun e : Event => e.isConstruction = false ∧ ApplyComponentDataCalls [e] = [])
      { s with Trace := s.Trace ++ [Event.ApplyComponentData E d c.Id] }
      (ApplyComponentData env E d c s).state := by
    unfold ApplyComponentData
    refine Exec.keeps_after_emit _ _ ?_ s
    beta_reduce
    repeat (first
      | (with_reducible refine Exec.keeps_bind hp ?_ ?_)
      | intro _
      | split
      | ((with_reducible refine emit_frame _ ?_) <;> exact ⟨rfl, rfl⟩)
      | (with_reducible exact GetTargetObjectFromChannelAndClass_frame _ _ _ _)
      | (with_reducible exact QueueIncomingRepUpdates_frame _ _ _ _)
      | (with_reducible exact Exec.keeps_deref hp _)
      | (with_reducible exact Exec.keeps_get hp)
      | (with_reducible exact Exec.keeps_pure hp _)
      | (with_reducible exact modify_unresolved_frame _ _))
  obtain ⟨h1, h2, h3, h4, h5, h6, h7, u, hu, hP⟩ := hrest
  have hu2 : (ApplyComponentData env E d c s).state.Trace =
      s.Trace ++ (Event.ApplyComponentData E d c.Id :: u) := by
    rw [hu]
    simp
  have hnil : ∀ v : List Event, (∀ e ∈ v, ApplyComponentDataCalls [e] = []) →
      ApplyComponentDataCalls v = [] := by
    intro v
    induction v with
    | nil => intro _; rfl
    | cons e v ih =>
      intro hv
      have he := hv e (List.mem_cons_self e v)
      have hrec := ih (fun x hx => hv x (List.mem_cons_of_mem e hx))
      have : e :: v = [e] ++ v := rfl
      rw [this, ApplyComponentDataCalls_append, he, hrec]
      rfl
  refine ⟨⟨h1, h2, h3, h4, h5, h6, h7, Event.ApplyComponentData E d c.Id :: u, hu2, ?_⟩, ?_⟩
  · intro e he
    rcases List.mem_cons.mp he with h | h
    · rw [h]
      rfl
    · exact (hP e h).1
  · intro t ht
    have : t = Event.ApplyComponentData E d c.Id :: u :=
      List.append_cancel_left (ht.symm.trans hu2)
    rw [this]
    show (E, d) :: ApplyComponentDataCalls u = [(E, d)]
    rw [hnil u (fun e he => (hP e he).2)]

/-- The loop at the end of `CreateActor`: when it returns it has entered
`ApplyComponentData` once for each buffered dynamic entry of the entity, in buffer order,
and made no construction call. -/
theorem ApplyPendingDynamicComponents_calls (env : Env) (E : Worker_EntityId)
    (c : USpatialActorChannel) (ws : List PendingAddComponentWrapper) :
    ∀ s, Frame (fun e => e.isConstruction = false) s
        (ApplyPendingDynamicComponents env E c ws s).state ∧
      ∀ t, (ApplyPendingDynamicComponents env E c ws s).state.Trace = s.Trace ++ t →
        (ApplyPendingDynamicComponents env E c ws s).isFatal = false →
        ApplyComponentDataCalls t = PendingDynamicData ws E := by
  have hp := Frame.preorder (fun e : Event => e.isConstruction = false)
  induction ws with
  | nil =>
    intro s
    refine ⟨hp.refl s, ?_⟩
    intro t ht _
    have h2 : s.Trace ++ t = s.Trace ++ [] := by
      rw [List.append_nil]
      exact ht.symm
    rw [List.append_cancel_left h2]
    rfl
  | cons w ws ih =>
    intro s
    have hstep : ∃ s1, (ApplyPendingDynamicComponents env E c (w :: ws) s =
          ApplyPendingDynamicComponents env E c ws s1 ∨
        (ApplyPendingDynamicComponents env E c (w :: ws) s = Outcome.fatal s1)) ∧
        Frame (fun e => e.isConstruction = false) s s1 ∧
        ∀ u, s1.Trace = s.Trace ++ u →
          ApplyPendingDynamicComponents env E c (w :: ws) s ≠ Outcome.fatal s1 →
          ApplyComponentDataCalls u ++ PendingDynamicData ws E =
            PendingDynamicData (w :: ws) E := by
      have hskip : (ApplyPendingDynamicComponents env E c (w :: ws) s =
          ApplyPendingDynamicComponents env E c ws s) →
          PendingDynamicData (w :: ws) E = PendingDynamicData ws E →
          ∃ s1, (ApplyPendingDynamicComponents env E c (w :: ws) s =
            ApplyPendingDynamicComponents env E c ws s1 ∨
          (ApplyPendingDynamicComponents env E c (w :: ws) s = Outcome.fatal s1)) ∧
          Frame (fun e => e.isConstruction = false) s s1 ∧
          ∀ u, s1.Trace = s.Trace ++ u →
            ApplyPendingDynamicComponents env E c (w :: ws) s ≠ Outcome.fatal s1 →
            ApplyComponentDataCalls u ++ PendingDynamicData ws E =
              PendingDynamicData (w :: ws) E := by
        intro h1 h2
        refine ⟨s, Or.inl h1, hp.refl s, ?_⟩
        intro u hu _
        have h3 : s.Trace ++ u = s.Trace ++ [] := by
          rw [List.append_nil]
          exact hu.symm
        rw [List.append_cancel_left h3, h2]
        rfl
      cases hD : w.Data with
      | none =>
        apply hskip
        · unfold ApplyPendingDynamicComponents
          rw [Exec.forEach_cons]
          simp only [hD, Exec.pure_apply]
        · simp [PendingDynamicData, List.filterMap_cons, hD]
      | some C =>
        by_cases hE : w.EntityId = E
        · cases C with
          | DynamicComponent Data =>
            have hcalls := ApplyComponentData_calls env E Data c s
            cases hrun : ApplyComponentData env E Data c s with
            | ok a s1 =>
              rw [hrun] at hcalls
              refine ⟨s1, Or.inl ?_, hcalls.1, ?_⟩
              · unfold ApplyPendingDynamicComponents
                rw [Exec.forEach_cons]
                simp only [hD, hE, if_true, hrun]
              · intro u hu _
                rw [hcalls.2 u hu]
                simp [PendingDynamicData, List.filterMap_cons, hD, hE]
            | fatal s1 =>
              rw [hrun] at hcalls
              refine ⟨s1, Or.inr ?_, hcalls.1, ?_⟩
              · unfold ApplyPendingDynamicComponents
                rw [Exec.forEach_cons]
                simp only [hD, hE, if_true, hrun]
              · intro u _ hne
                exfalso
                apply hne
                unfold ApplyPendingDynamicComponents
                rw [Exec.forEach_cons]
                simp only [hD, hE, if_true, hrun]
          | _ =>
            apply hskip
            · unfold ApplyPendingDynamicComponents
              rw [Exec.forEach_cons]
              simp only [hD, Exec.pure_apply]
            · simp [PendingDynamicData, List.filterMap_cons, hD]
        · cases C with
          | DynamicComponent Data =>
            apply hskip
            · unfold ApplyPendingDynamicComponents
              rw [Exec.forEach_cons]
              simp only [hD, hE, if_false, Exec.pure_apply]
            · simp [PendingDynamicData, List.filterMap_cons, hD, hE]
          | _ =>
            apply hskip
            · unfold ApplyPendingDynamicComponents
              rw [Exec.forEach_cons]
              simp only [hD, Exec.pure_apply]
            · simp [PendingDynamicData, List.filterMap_cons, hD]
    obtain ⟨s1, hrun, hfr, hcalls⟩ := hstep
    rcases hrun with hrun | hrun
    · rw [hrun]
      obtain ⟨hfr2, hc2⟩ := ih s1
      refine ⟨hp.trans _ _ _ hfr hfr2, ?_⟩
      intro t ht hnf
      obtain ⟨_, _, _, _, _, _, _, u, hu, _⟩ := hfr
      obtain ⟨_, _, _, _, _, _, _, v, hv, _⟩ := hfr2
      have hboth : s.Trace ++ t = s.Trace ++ (u ++ v) := by
        rw [← ht, hv, hu, List.append_assoc]
      have htv : t = u ++ v := List.append_cancel_left hboth
      have hne : ApplyPendingDynamicComponents env E c (w :: ws) s ≠ Outcome.fatal s1 := by
        rw [hrun]
        intro hf
        rw [hf] at hnf
        cases hnf
      rw [htv, ApplyComponentDataCalls_append, hc2 v hv hnf, hcalls u hu hne]
    · rw [hrun]
      refine ⟨hfr, ?_⟩
      intro t _ hnf
      cases hnf

theorem SpawnNewEntity_no_application (env : Env) (c : Coordinates) (k : Option UClass)
    (b : Bool) :
    Exec.Keeps (Frame (fun e => e.isApplication = false)) (SpawnNewEntity env c k b) := by
  have hp := Frame.preorder (fun e : Event => e.isApplication = false)
  unfold SpawnNewEntity
  repeat (first
    | (with_reducible refine Exec.keeps_bind hp ?_ ?_)
    | intro _
    | split
    | ((with_reducible refine emit_frame _ ?_) <;> exact rfl)
    | (with_reducible exact Exec.keeps_deref hp _)
    | (with_reducible exact Exec.keeps_pure hp _))

theorem Exec.check_eq_ok {σ : Type} {c : Bool} {s s' : σ} {a : Unit}
    (h : Exec.check c s = Outcome.ok a s') : c = true ∧ s' = s := by
  cases c
  · cases h
  · cases h
    exact ⟨rfl, rfl⟩

theorem Exec.deref_eq_ok {σ α : Type} {p : Option α} {s s' : σ} {a : α}
    (h : Exec.deref p s = Outcome.ok a s') : p = some a ∧ s' = s := by
  cases p
  · cases h
  · cases h
    exact ⟨rfl, rfl⟩

theorem Exec.emit_bind_eq_ok {β : Type} {e : Event} {f : Unit → RExec β}
    {s s' : USpatialReceiver} {b : β} (h : (emit e >>= f) s = Outcome.ok b s') :
    f () { s with Trace := s.Trace ++ [e] } = Outcome.ok b s' := h

theorem Exec.get_bind_eq_ok {σ β : Type} {f : σ → Exec σ β} {s s' : σ} {b : β}
    (h : (Exec.get >>= f) s = Outcome.ok b s') : f s s = Outcome.ok b s' := h

theorem Exec.modify_bind_eq_ok {σ β : Type} {g : σ → σ} {f : Unit → Exec σ β} {s s' : σ} {b : β}
    (h : (Exec.modify g >>= f) s = Outcome.ok b s') : f () (g s) = Outcome.ok b s' := h

theorem Exec.check_bind_eq_ok {σ β : Type} {c : Bool} {f : Unit → Exec σ β} {s s' : σ} {b : β}
    (h : (Exec.check c >>= f) s = Outcome.ok b s') : c = true ∧ f () s = Outcome.ok b s' := by
  cases c
  · cases h
  · exact ⟨rfl, h⟩

theorem Exec.deref_bind_eq_ok {σ α β : Type} {p : Option α} {f : α → Exec σ β} {s s' : σ} {b : β}
    (h : (Exec.deref p >>= f) s = Outcome.ok b s') : ∃ a, p = some a ∧ f a s = Outcome.ok b s' := by
  cases p with
  | none => cases h
  | some a => exact ⟨a, rfl, h⟩

theorem ApplyComponentDataCalls_eq_nil (v : List Event)
    (hv : ∀ e ∈ v, ApplyComponentDataCalls [e] = []) : ApplyComponentDataCalls v = [] := by
  induction v with
  | nil => rfl
  | cons e v ih =>
    have he := hv e (List.mem_cons_self e v)
    have hrec := ih (fun x hx => hv x (List.mem_cons_of_mem e hx))
    have : e :: v = [e] ++ v := rfl
    rw [this, ApplyComponentDataCalls_append, he, hrec]
    rfl

theorem ApplyComponentDataCalls_of_no_application (e : Event) (h : e.isApplication = false) :
    ApplyComponentDataCalls [e] = [] := by
  cases e <;> first | rfl | cases h

theorem MakeComponent_bIsDynamic (env : Env) (data : Worker_ComponentData) :
    ((MakeComponent env data).bIsDynamic = true ↔
      (data.component_id ≠ env.ENTITY_ACL_COMPONENT_ID ∧
       data.component_id ≠ env.METADATA_COMPONENT_ID ∧
       data.component_id ≠ env.POSITION_COMPONENT_ID ∧
       data.component_id ≠ env.PERSISTENCE_COMPONENT_ID ∧
       data.component_id ≠ env.UNREAL_METADATA_COMPONENT_ID)) ∧
    ((MakeComponent env data).bIsDynamic = true →
      MakeComponent env data = Component.DynamicComponent data) := by
  unfold MakeComponent
  by_cases h1 : data.component_id = env.ENTITY_ACL_COMPONENT_ID
  · rw [if_pos h1]
    simp [h1, Component.bIsDynamic]
  rw [if_neg h1]
  by_cases h2 : data.component_id = env.METADATA_COMPONENT_ID
  · rw [if_pos h2]
    simp [h2, Component.bIsDynamic]
  rw [if_neg h2]
  by_cases h3 : data.component_id = env.POSITION_COMPONENT_ID
  · rw [if_pos h3]
    simp [h3, Component.bIsDynamic]
  rw [if_neg h3]
  by_cases h4 : data.component_id = env.PERSISTENCE_COMPONENT_ID
  · rw [if_pos h4]
    simp [h4, Component.bIsDynamic]
  rw [if_neg h4]
  by_cases h5 : data.component_id = env.UNREAL_METADATA_COMPONENT_ID
  · rw [if_pos h5]
    simp [h5, Component.bIsDynamic]
  rw [if_neg h5]
  simp [h1, h2, h3, h4, h5, Component.bIsDynamic]

theorem PendingDynamicData_length (s : USpatialReceiver) (E : Worker_EntityId) :
    (PendingDynamicData s.PendingAddComponents E).length =
      (PendingDynamicComponents s E).length := by
  unfold PendingDynamicData PendingDynamicComponents
  induction s.PendingAddComponents with
  | nil => rfl
  | cons w ws ih =>
    rw [List.filterMap_cons, List.filter_cons]
    cases hD : w.Data with
    | none => simpa [hD] using ih
    | some C =>
      by_cases hE : w.EntityId = E
      · cases C <;> simp [hD, hE, Component.bIsDynamic, ih]
      · cases C <;> simp [hD, hE, Component.bIsDynamic, ih]

/-- C28: when `CreateActor(E)` returns for an entity that had no actor and whose class
is found, the buffer is as before and the calls it made split into a first part, which
contains the `AddToRegistry` of E and no application of component data, and a second
part, which contains no construction call (no spawn, no accepted player, no registry
binding, no channel, no `FinishSpawning`, no `SetChannelActor`) and in which
`ApplyComponentData` was entered once for each buffered entry of E that holds a dynamic
component, in buffer order, and for nothing else.  An entry made by `OnAddComponent`
holds a dynamic component exactly when its id is none of the five core ids. -/
theorem C28_new_entity_applies_each_buffered_dynamic_component (env : Env)
    (E : Worker_EntityId) (s s' : USpatialReceiver) (EntityType : String) (ActorClass : UClass)
    (hnew : s.GetActorFromEntityId E = none)
    (hM : GetComponentData env.METADATA_COMPONENT_ID Component.asMetadata s E = some EntityType)
    (hclass : GetNativeEntityClass env EntityType = some ActorClass)
    (k0 : CreateActor env E s = Outcome.ok () s') :
    s'.PendingAddComponents = s.PendingAddComponents ∧
    (∃ pre post A, s'.Trace = s.Trace ++ pre ++ post ∧
      (∀ e ∈ pre, e.isApplication = false) ∧ Event.AddToRegistry E A ∈ pre ∧
      (∀ e ∈ post, e.isConstruction = false) ∧
      ApplyComponentDataCalls post = PendingDynamicData s.PendingAddComponents E) ∧
    ApplyComponentDataCalls s'.Trace =
      ApplyComponentDataCalls s.Trace ++ PendingDynamicData s.PendingAddComponents E ∧
    (PendingDynamicData s.PendingAddComponents E).length =
      (PendingDynamicComponents s E).length ∧
    (∀ data : Worker_ComponentData, (MakeComponent env data).bIsDynamic = true ↔
      (data.component_id ≠ env.ENTITY_ACL_COMPONENT_ID ∧
       data.component_id ≠ env.METADATA_COMPONENT_ID ∧
       data.component_id ≠ env.POSITION_COMPONENT_ID ∧
       data.component_id ≠ env.PERSISTENCE_COMPONENT_ID ∧
       data.component_id ≠ env.UNREAL_METADATA_COMPONENT_ID)) := by
  have hp := Frame.preorder (fun e : Event => e.isApplication = false)
  have hnew2 : USpatialReceiver.GetActorFromEntityId
      { s with Trace := s.Trace ++ [Event.CreateActor E] } E = none := hnew
  unfold CreateActor at k0
  have k1 := Exec.emit_bind_eq_ok k0
  clear k0
  have k2 := Exec.get_bind_eq_ok k1
  clear k1
  obtain ⟨hW, k3⟩ := Exec.check_bind_eq_ok k2
  clear k2
  obtain ⟨hN, k4⟩ := Exec.check_bind_eq_ok k3
  clear k3
  obtain ⟨_, hR, k5⟩ := Exec.deref_bind_eq_ok k4
  clear k4
  obtain ⟨hPM, k6⟩ := Exec.check_bind_eq_ok k5
  clear k5
  obtain ⟨Coords, hP, k7⟩ := Exec.deref_bind_eq_ok k6
  clear k6
  obtain ⟨EntityType2, hM2, k8⟩ := Exec.deref_bind_eq_ok k7
  clear k7
  have hET : EntityType2 = EntityType := by
    rw [GetComponentData_trace, hM] at hM2
    exact (Option.some.inj hM2).symm
  subst hET
  rw [hnew2] at k8
  simp only [hclass] at k8
  obtain ⟨UnrealMetadataComponent, hU, k9⟩ := Exec.deref_bind_eq_ok k8
  clear k8
  obtain ⟨Spawned, s3, hstep, k10⟩ := Exec.bind_eq_ok k9
  have f3 := Exec.keeps_of_eq (Frame (fun e => e.isApplication = false)) (by
    repeat (first
      | (with_reducible refine Exec.keeps_bind hp ?_ ?_)
      | (with_reducible refine Exec.keeps_when hp _ ?_)
      | intro _
      | split
      | ((with_reducible refine emit_frame _ ?_) <;> exact rfl)
      | (with_reducible exact modify_registry_frame _ _)
      | (with_reducible exact SpawnNewEntity_no_application _ _ _ _)
      | (with_reducible exact Exec.keeps_check hp _)
      | (with_reducible exact Exec.keeps_deref hp _)
      | (with_reducible exact Exec.keeps_pure hp _))) hstep
  clear k9
  clear hstep
  obtain ⟨_, s4, hstep, k11⟩ := Exec.bind_eq_ok k10
  have f4 := Exec.keeps_of_eq (Frame (fun e => e.isApplication = false)) (by
    repeat (first
      | (with_reducible refine Exec.keeps_bind hp ?_ ?_)
      | (with_reducible refine Exec.keeps_when hp _ ?_)
      | intro _
      | split
      | ((with_reducible refine emit_frame _ ?_) <;> exact rfl)
      | (with_reducible exact modify_registry_frame _ _)
      | (with_reducible exact SpawnNewEntity_no_application _ _ _ _)
      | (with_reducible exact Exec.keeps_check hp _)
      | (with_reducible exact Exec.keeps_deref hp _)
      | (with_reducible exact Exec.keeps_pure hp _))) hstep
  clear k10
  clear hstep
  obtain ⟨_, s5, hstep, k12⟩ := Exec.bind_eq_ok k11
  have f5 := Exec.keeps_of_eq (Frame (fun e => e.isApplication = false)) (by
    repeat (first
      | (with_reducible refine Exec.keeps_bind hp ?_ ?_)
      | (with_reducible refine Exec.keeps_when hp _ ?_)
      | intro _
      | split
      | ((with_reducible refine emit_frame _ ?_) <;> exact rfl)
      | (with_reducible exact modify_registry_frame _ _)
      | (with_reducible exact SpawnNewEntity_no_application _ _ _ _)
      | (with_reducible exact Exec.keeps_check hp _)
      | (with_reducible exact Exec.keeps_deref hp _)
      | (with_reducible exact Exec.keeps_pure hp _))) hstep
  clear k11
  have hreg : s5.Trace = s4.Trace ++ [Event.AddToRegistry E Spawned.1] := by
    cases hstep
    rfl
  clear hstep
  obtain ⟨Connection, hC, k13⟩ := Exec.deref_bind_eq_ok k12
  clear k12
  obtain ⟨_, s6, hstep, k14⟩ := Exec.bind_eq_ok k13
  have f6 := Exec.keeps_of_eq (Frame (fun e => e.isApplication = false)) (by
    repeat (first
      | (with_reducible refine Exec.keeps_bind hp ?_ ?_)
      | (with_reducible refine Exec.keeps_when hp _ ?_)
      | intro _
      | split
      | ((with_reducible refine emit_frame _ ?_) <;> exact rfl)
      | (with_reducible exact modify_registry_frame _ _)
      | (with_reducible exact SpawnNewEntity_no_application _ _ _ _)
      | (with_reducible exact Exec.keeps_check hp _)
      | (with_reducible exact Exec.keeps_deref hp _)
      | (with_reducible exact Exec.keeps_pure hp _))) hstep
  clear k13
  clear hstep
  obtain ⟨NewChannel, hNC, k15⟩ := Exec.deref_bind_eq_ok k14
  clear k14
  obtain ⟨_, s7, hstep, k16⟩ := Exec.bind_eq_ok k15
  have f7 := Exec.keeps_of_eq (Frame (fun e => e.isApplication = false)) (by
    repeat (first
      | (with_reducible refine Exec.keeps_bind hp ?_ ?_)
      | (with_reducible refine Exec.keeps_when hp _ ?_)
      | intro _
      | split
      | ((with_reducible refine emit_frame _ ?_) <;> exact rfl)
      | (with_reducible exact modify_registry_frame _ _)
      | (with_reducible exact SpawnNewEntity_no_application _ _ _ _)
      | (with_reducible exact Exec.keeps_check hp _)
      | (with_reducible exact Exec.keeps_deref hp _)
      | (with_reducible exact Exec.keeps_pure hp _))) hstep
  clear k15
  clear hstep
  obtain ⟨hPk, k17⟩ := Exec.check_bind_eq_ok k16
  clear k16
  obtain ⟨_, s8, hstep, k18⟩ := Exec.bind_eq_ok k17
  have f8 := Exec.keeps_of_eq (Frame (fun e => e.isApplication = false)) (by
    repeat (first
      | (with_reducible refine Exec.keeps_bind hp ?_ ?_)
      | (with_reducible refine Exec.keeps_when hp _ ?_)
      | intro _
      | split
      | ((with_reducible refine emit_frame _ ?_) <;> exact rfl)
      | (with_reducible exact modify_registry_frame _ _)
      | (with_reducible exact SpawnNewEntity_no_application _ _ _ _)
      | (with_reducible exact Exec.keeps_check hp _)
      | (with_reducible exact Exec.keeps_deref hp _)
      | (with_reducible exact Exec.keeps_pure hp _))) hstep
  clear k17
  clear hstep
  obtain ⟨_, s9, hstep, k19⟩ := Exec.bind_eq_ok k18
  have f9 := Exec.keeps_of_eq (Frame (fun e => e.isApplication = false)) (by
    repeat (first
      | (with_reducible refine Exec.keeps_bind hp ?_ ?_)
      | (with_reducible refine Exec.keeps_when hp _ ?_)
      | intro _
      | split
      | ((with_reducible refine emit_frame _ ?_) <;> exact rfl)
      | (with_reducible exact modify_registry_frame _ _)
      | (with_reducible exact SpawnNewEntity_no_application _ _ _ _)
      | (with_reducible exact Exec.keeps_check hp _)
      | (with_reducible exact Exec.keeps_deref hp _)
      | (with_reducible exact Exec.keeps_pure hp _))) hstep
  clear k18
  clear hstep
  have k20 := Exec.get_bind_eq_ok k19
  clear k19
  obtain ⟨_, s10, h10, k21⟩ := Exec.bind_eq_ok k20
  clear k20
  have hloop := ApplyPendingDynamicComponents_calls env E
    { Id := NewChannel.Id, Actor := some Spawned.1 } s9.PendingAddComponents s9
  rw [h10] at hloop
  obtain ⟨fL, hcalls⟩ := hloop
  replace fL : Frame (fun e => e.isConstruction = false) s9 s10 := fL
  have hpT := Frame.preorder (fun e : Event =>
    e.isConstruction = false ∧ ApplyComponentDataCalls [e] = [])
  have fT := Exec.keeps_of_eq (Frame (fun e : Event =>
      e.isConstruction = false ∧ ApplyComponentDataCalls [e] = [])) (by
    repeat (first
      | (with_reducible refine Exec.keeps_bind hpT ?_ ?_)
      | intro _
      | split
      | ((with_reducible refine emit_frame _ ?_) <;> exact ⟨rfl, rfl⟩)
      | (with_reducible exact Exec.keeps_pure hpT _))) k21
  have fa := hp.trans _ _ _ f3 f4
  have fb := hp.trans _ _ _ (hp.trans _ _ _ (hp.trans _ _ _ f6 f7) f8) f9
  obtain ⟨_, _, ha3, _, _, _, _, ua, hua, hPa⟩ := fa
  obtain ⟨_, _, h53, _, _, _, _, _, _, _⟩ := f5
  obtain ⟨_, _, hb3, _, _, _, _, ub, hub, hPb⟩ := fb
  obtain ⟨_, _, hL3, _, _, _, _, uL, huL, hPL⟩ := fL
  obtain ⟨_, _, hT3, _, _, _, _, uT, huT, hPT⟩ := fT
  have hbuf : s9.PendingAddComponents = s.PendingAddComponents := by
    rw [hb3, h53, ha3]
  have hcL : ApplyComponentDataCalls uL = PendingDynamicData s.PendingAddComponents E := by
    rw [← hbuf]
    exact hcalls uL huL rfl
  have hcT : ApplyComponentDataCalls uT = [] :=
    ApplyComponentDataCalls_eq_nil uT (fun e he => (hPT e he).2)
  have htrace : s'.Trace = s.Trace ++
      (Event.CreateActor E :: ua ++ [Event.AddToRegistry E Spawned.1] ++ ub) ++ (uL ++ uT) := by
    rw [huT, huL, hub, hreg, hua]
    simp [List.append_assoc]
  have hpre : ∀ e ∈ Event.CreateActor E :: ua ++ [Event.AddToRegistry E Spawned.1] ++ ub,
      e.isApplication = false := by
    intro e he
    simp only [List.mem_append, List.mem_cons, List.mem_singleton] at he
    rcases he with ((h | h) | h) | h
    · rw [h]
      rfl
    · exact hPa e h
    · rcases h with h | h
      · rw [h]
        rfl
      · cases h
    · exact hPb e h
  have hcpre : ApplyComponentDataCalls
      (Event.CreateActor E :: ua ++ [Event.AddToRegistry E Spawned.1] ++ ub) = [] :=
    ApplyComponentDataCalls_eq_nil _
      (fun e he => ApplyComponentDataCalls_of_no_application e (hpre e he))
  refine ⟨?_, ⟨_, _, Spawned.1, htrace, hpre, ?_, ?_, ?_⟩, ?_, PendingDynamicData_length s E,
    fun data => (MakeComponent_bIsDynamic env data).1⟩
  · rw [hT3, hL3, hbuf]
  · simp
  · intro e he
    rcases List.mem_append.mp he with h | h
    · exact hPL e h
    · exact (hPT e h).1
  · rw [ApplyComponentDataCalls_append, hcL, hcT, List.append_nil]
  · rw [htrace, ApplyComponentDataCalls_append, ApplyComponentDataCalls_append, hcpre,
      ApplyComponentDataCalls_append, hcL, hcT]
    simp

/-- C28 at entity 2 of the example burst, whose dynamic component 2001 is buffered with
its three core components: `CreateActor(2)` returns and has entered `ApplyComponentData`
once, for that component. -/
theorem C28_new_entity_applies_each_buffered_dynamic_component_witness :
    PendingDynamicData Example.referringPending.PendingAddComponents 2 =
      [(2, { component_id := 2001, schema_type := [5] })] ∧
    ApplyComponentDataCalls
        (CreateActor Example.updateEnv.toEnv 2 Example.referringPending).state.Trace =
      ApplyComponentDataCalls Example.referringPending.Trace ++
        PendingDynamicData Example.referringPending.PendingAddComponents 2 :=
  ⟨by decide,
   (C28_new_entity_applies_each_buffered_dynamic_component Example.updateEnv.toEnv 2
      Example.referringPending _ "Character" Example.Character (by decide) (by decide)
      (by decide) (Outcome.eq_ok_of_not_fatal _ (by decide))).2.2.1⟩

/-! ## Reference resolution: the map that is left, the calls made, and normal return -/

theorem ResolveUnresolvedRefs_eq_ok (env : ResolveEnv) (bSingleProp : Bool) :
    ∀ (u : List UnrealObjectRef) (b : Bool) (o : Option UObject) (st st' : ResolveState)
      (r : List UnrealObjectRef × Bool × Option UObject),
      ResolveUnresolvedRefs env bSingleProp u b o st = Outcome.ok r st' →
      r.1 = u.filter (fun ObjectRef => (env.GetNetGUIDFromUnrealObjectRef ObjectRef).isNone) ∧
      st' = st := by
  intro u
  induction u with
  | nil =>
    intro b o st st' r h
    cases h
    exact ⟨rfl, rfl⟩
  | cons x u ih =>
    intro b o st st' r h
    rw [ResolveUnresolvedRefs] at h
    cases hg : env.GetNetGUIDFromUnrealObjectRef x with
    | none =>
      rw [hg] at h
      obtain ⟨r1, st1, h1, k1⟩ := Exec.bind_eq_ok h
      cases k1
      obtain ⟨e1, e2⟩ := ih _ _ _ _ _ h1
      refine ⟨?_, e2⟩
      simp [List.filter_cons, hg, e1]
    | some g =>
      rw [hg] at h
      obtain ⟨Object, _, k1⟩ := Exec.deref_bind_eq_ok h
      obtain ⟨e1, e2⟩ := ih _ _ _ _ _ k1
      refine ⟨?_, e2⟩
      simp [List.filter_cons, hg, e1]

mutual
theorem ResolveObjectReferences_eq_ok (env : ResolveEnv) (L : List FRepParentCmd) (O : UObject) :
    ∀ (m : List (Int × FObjectReferences)) (S D Max : Int) (b : Bool) (st st' : ResolveState)
      (r : List (Int × FObjectReferences) × Bool),
      ResolveObjectReferences env L O m S D Max b st = Outcome.ok r st' →
      r.1 = UnresolvedAfter env m S D Max ∧ r.2 = (b || !r.1.isEmpty)
  | [], S, D, Max, b, st, st', r => by
    intro h
    rw [ResolveObjectReferences] at h
    cases h
    simp [UnresolvedAfter]
  | (o, e) :: rest, S, D, Max, b, st, st', r => by
    intro h
    rw [ResolveObjectReferences] at h
    rw [UnresolvedAfter]
    split at h
    · rename_i hge
      rw [if_pos hge]
      exact ResolveObjectReferences_eq_ok env L O rest S D Max b st st' r h
    · rename_i hge
      rw [if_neg hge]
      obtain ⟨r1, st1, h1, k1⟩ := Exec.bind_eq_ok h
      obtain ⟨r2, st2, h2, k2⟩ := Exec.bind_eq_ok k1
      obtain ⟨e1, f1⟩ := ResolveObjectReferencesEntry_eq_ok env L O e o S D b st st1 r1 h1
      obtain ⟨e2, f2⟩ := ResolveObjectReferences_eq_ok env L O rest S D Max r1.2 st1 st2 r2 h2
      rw [← e1, ← e2]
      cases hk : r1.1 with
      | none =>
        rw [hk] at k2 f1
        cases k2
        refine ⟨rfl, ?_⟩
        rw [f2, f1]
        simp
      | some Kept =>
        rw [hk] at k2 f1
        cases k2
        refine ⟨rfl, ?_⟩
        rw [f2, f1]
        simp
theorem ResolveObjectReferencesEntry_eq_ok (env : ResolveEnv) (L : List FRepParentCmd)
    (O : UObject) :
    ∀ (e : FObjectReferences) (o S D : Int) (b : Bool) (st st' : ResolveState)
      (r : Option FObjectReferences × Bool),
      ResolveObjectReferencesEntry env L O e o S D b st = Outcome.ok r st' →
      r.1 = UnresolvedAfterEntry env e o S D ∧ r.2 = (b || r.1.isSome)
  | FObjectReferences.mk u bs (some m) i P, o, S, D, b, st, st', r => by
    intro h
    rw [ResolveObjectReferencesEntry] at h
    rw [UnresolvedAfterEntry]
    obtain ⟨Parent, _, k1⟩ := Exec.deref_bind_eq_ok h
    obtain ⟨_, k2⟩ := Exec.check_bind_eq_ok k1
    have k3 := Exec.modify_bind_eq_ok k2
    obtain ⟨r1, st1, h1, k4⟩ := Exec.bind_eq_ok k3
    obtain ⟨e1, f1⟩ := ResolveObjectReferences_eq_ok env L O m _ _ _ false _ st1 r1 h1
    rw [← e1]
    rw [Bool.false_or] at f1
    cases hr : r1.2 with
    | false =>
      rw [hr] at k4 f1
      cases k4
      have hemp : r1.1.isEmpty = true := by
        cases hq : r1.1.isEmpty
        · rw [hq] at f1
          cases f1
        · rfl
      rw [if_pos hemp]
      simp
    | true =>
      rw [hr] at k4 f1
      cases k4
      have hemp : ¬ r1.1.isEmpty = true := by
        cases hq : r1.1.isEmpty
        · simp
        · rw [hq] at f1
          cases f1
      rw [if_neg hemp]
      simp
  | FObjectReferences.mk u bs none i P, o, S, D, b, st, st', r => by
    intro h
    rw [ResolveObjectReferencesEntry] at h
    rw [UnresolvedAfterEntry]
    obtain ⟨Parent, _, k1⟩ := Exec.deref_bind_eq_ok h
    obtain ⟨r1, st1, h1, k2⟩ := Exec.bind_eq_ok k1
    obtain ⟨e1, _⟩ := ResolveUnresolvedRefs_eq_ok env bs u false none _ st1 r1 h1
    obtain ⟨_, st2, _, k3⟩ := Exec.bind_eq_ok k2
    rw [← e1]
    cases hl : r1.1 with
    | nil =>
      rw [hl] at k3
      cases k3
      simp
    | cons x xs =>
      have hpos : (x :: xs).length > 0 := Nat.succ_pos xs.length
      rw [hl, if_pos hpos] at k3
      cases k3
      simp
end

theorem CallsGrow_preorder : Exec.Preorder CallsGrow where
  refl := fun st => ⟨[], by simp, by simp⟩
  trans := by
    rintro a b c ⟨t, ht, hP⟩ ⟨u, hu, hQ⟩
    refine ⟨t ++ u, ?_, ?_⟩
    · rw [hu, ht, List.append_assoc]
    · intro e he
      rcases List.mem_append.mp he with h | h
      · exact hP e h
      · exact hQ e h

theorem ResolveState.call_grows (e : Event) (he : e.isResolveWrite = true) :
    Exec.Keeps CallsGrow (ResolveState.call e) := by
  constructor
  intro st
  refine ⟨[e], rfl, ?_⟩
  intro x hx
  rw [List.mem_singleton.mp hx]
  exact he

theorem modify_flag_grows :
    Exec.Keeps CallsGrow
      (Exec.modify (fun st : ResolveState => { st with bOutSomeObjectsWereMapped := true })) :=
  ⟨fun st => ⟨[], by simp [Exec.modify, Outcome.state], by simp⟩⟩

theorem modify_repNotifies_grows (g : ResolveState → List UProperty) :
    Exec.Keeps CallsGrow
      (Exec.modify (fun st : ResolveState => { st with RepNotifies := g st })) :=
  ⟨fun st => ⟨[], by simp [Exec.modify, Outcome.state], by simp⟩⟩

theorem ResolveUnresolvedRefs_grows (env : ResolveEnv) (bSingleProp : Bool) :
    ∀ (u : List UnrealObjectRef) (b : Bool) (o : Option UObject),
      Exec.Keeps CallsGrow (ResolveUnresolvedRefs env bSingleProp u b o) := by
  have hp := CallsGrow_preorder
  intro u
  induction u with
  | nil =>
    intro b o
    exact Exec.keeps_pure hp _
  | cons x u ih =>
    intro b o
    rw [ResolveUnresolvedRefs]
    split
    · exact Exec.keeps_bind hp (Exec.keeps_deref hp _) (fun _ => ih _ _)
    · exact Exec.keeps_bind hp (ih _ _) (fun _ => Exec.keeps_pure hp _)

theorem ApplyResolvedRefs_grows (env : ResolveEnv) (O : UObject) (Parent : FRepParentCmd)
    (P : UProperty) (bs : Bool) (Single : Option UObject) (S D o : Int) :
    Exec.Keeps CallsGrow (ApplyResolvedRefs env O Parent P bs Single S D o) := by
  have hp := CallsGrow_preorder
  unfold ApplyResolvedRefs
  repeat (first
    | (with_reducible refine Exec.keeps_bind hp ?_ ?_)
    | (with_reducible refine Exec.keeps_when hp _ ?_)
    | intro _
    | ((with_reducible refine ResolveState.call_grows _ ?_) <;> exact rfl)
    | (with_reducible exact Exec.keeps_check hp _)
    | (with_reducible exact Exec.keeps_get hp)
    | (with_reducible exact modify_flag_grows)
    | (with_reducible exact modify_repNotifies_grows _))

mutual
theorem ResolveObjectReferences_grows (env : ResolveEnv) (L : List FRepParentCmd) (O : UObject) :
    ∀ (m : List (Int × FObjectReferences)) (S D Max : Int) (b : Bool),
      Exec.Keeps CallsGrow (ResolveObjectReferences env L O m S D Max b)
  | [], S, D, Max, b => by
    rw [ResolveObjectReferences]
    exact Exec.keeps_pure CallsGrow_preorder _
  | (o, e) :: rest, S, D, Max, b => by
    have hp := CallsGrow_preorder
    rw [ResolveObjectReferences]
    split
    · exact ResolveObjectReferences_grows env L O rest S D Max b
    · refine Exec.keeps_bind hp (ResolveObjectReferencesEntry_grows env L O e o S D b) ?_
      intro r1
      refine Exec.keeps_bind hp (ResolveObjectReferences_grows env L O rest S D Max r1.2) ?_
      intro r2
      split <;> exact Exec.keeps_pure hp _
theorem ResolveObjectReferencesEntry_grows (env : ResolveEnv) (L : List FRepParentCmd)
    (O : UObject) :
    ∀ (e : FObjectReferences) (o S D : Int) (b : Bool),
      Exec.Keeps CallsGrow (ResolveObjectReferencesEntry env L O e o S D b)
  | FObjectReferences.mk u bs (some m) i P, o, S, D, b => by
    have hp := CallsGrow_preorder
    rw [ResolveObjectReferencesEntry]
    refine Exec.keeps_bind hp (Exec.keeps_deref hp _) ?_
    intro Parent
    refine Exec.keeps_bind hp (Exec.keeps_check hp _) ?_
    intro _
    refine Exec.keeps_bind hp (ResolveState.call_grows _ rfl) ?_
    intro _
    refine Exec.keeps_bind hp (ResolveObjectReferences_grows env L O m _ _ _ false) ?_
    intro r1
    split <;> exact Exec.keeps_pure hp _
  | FObjectReferences.mk u bs none i P, o, S, D, b => by
    have hp := CallsGrow_preorder
    rw [ResolveObjectReferencesEntry]
    refine Exec.keeps_bind hp (Exec.keeps_deref hp _) ?_
    intro Parent
    refine Exec.keeps_bind hp (ResolveUnresolvedRefs_grows env bs u false none) ?_
    intro r1
    refine Exec.keeps_bind hp
      (Exec.keeps_when hp _ (ApplyResolvedRefs_grows env O Parent P bs _ S D o)) ?_
    intro _
    split <;> exact Exec.keeps_pure hp _
end

theorem Exec.returns_pure {σ α : Type} (a : α) : Exec.Returns (pure a : Exec σ α) :=
  ⟨fun _ => rfl⟩

theorem Exec.returns_bind {σ α β : Type} {m : Exec σ α} {f : α → Exec σ β}
    (hm : Exec.Returns m) (hf : ∀ a, Exec.Returns (f a)) : Exec.Returns (m >>= f) := by
  constructor
  intro s
  have h1 := hm.run s
  rw [Exec.bind_apply]
  cases hms : m s with
  | ok a s1 => exact (hf a).run s1
  | fatal s1 =>
    rw [hms] at h1
    cases h1

theorem Exec.returns_modify {σ : Type} (g : σ → σ) : Exec.Returns (Exec.modify g) :=
  ⟨fun _ => rfl⟩

theorem Exec.returns_get {σ : Type} : Exec.Returns (Exec.get : Exec σ σ) :=
  ⟨fun _ => rfl⟩

theorem Exec.returns_check {σ : Type} (c : Bool) (h : c = true) :
    Exec.Returns (Exec.check c : Exec σ Unit) := by
  subst h
  exact ⟨fun _ => rfl⟩

theorem Exec.returns_deref {σ α : Type} (p : Option α) (h : p.isSome = true) :
    Exec.Returns (Exec.deref p : Exec σ α) := by
  cases p with
  | none => cases h
  | some a => exact ⟨fun _ => rfl⟩

theorem Exec.returns_when {σ : Type} (c : Bool) {m : Exec σ Unit}
    (hm : c = true → Exec.Returns m) : Exec.Returns (Exec.when c m) := by
  cases c
  · exact ⟨fun _ => rfl⟩
  · exact hm rfl

theorem Exec.returns_forEach {σ α : Type} (f : α → Exec σ Unit) (xs : List α)
    (hf : ∀ x ∈ xs, Exec.Returns (f x)) : Exec.Returns (Exec.forEach f xs) := by
  induction xs with
  | nil => exact ⟨fun _ => rfl⟩
  | cons x xs ih =>
    exact Exec.returns_bind (hf x (List.mem_cons_self x xs))
      (fun _ => ih (fun y hy => hf y (List.mem_cons_of_mem x hy)))

theorem ResolveUnresolvedRefs_returns (env : ResolveEnv) (bSingleProp : Bool) :
    ∀ (u : List UnrealObjectRef) (b : Bool) (o : Option UObject),
      u.all (fun ObjectRef =>
        match env.GetNetGUIDFromUnrealObjectRef ObjectRef with
        | some NetGUID => (env.GetObjectFromNetGUID NetGUID).isSome
        | none => true) = true →
      Exec.Returns (ResolveUnresolvedRefs env bSingleProp u b o) := by
  intro u
  induction u with
  | nil =>
    intro b o _
    exact Exec.returns_pure _
  | cons x u ih =>
    intro b o h
    rw [List.all_cons, Bool.and_eq_true] at h
    obtain ⟨hx, hu⟩ := h
    rw [ResolveUnresolvedRefs]
    cases hg : env.GetNetGUIDFromUnrealObjectRef x with
    | none => exact Exec.returns_bind (ih _ _ hu) (fun _ => Exec.returns_pure _)
    | some g =>
      rw [hg] at hx
      exact Exec.returns_bind (Exec.returns_deref _ hx) (fun _ => ih _ _ hu)

theorem ApplyResolvedRefs_returns (env : ResolveEnv) (O : UObject) (Parent : FRepParentCmd)
    (P : UProperty) (bs : Bool) (Single : Option UObject) (S D o : Int)
    (h : (!bs || P.bObjectPropertyBase) = true) :
    Exec.Returns (ApplyResolvedRefs env O Parent P bs Single S D o) := by
  unfold ApplyResolvedRefs
  refine Exec.returns_bind Exec.returns_get ?_
  intro st
  refine Exec.returns_bind (Exec.returns_when _ (fun _ =>
    Exec.returns_bind (Exec.returns_modify _) (fun _ => Exec.returns_modify _))) ?_
  intro _
  refine Exec.returns_bind (Exec.returns_when _ ?_) ?_
  · intro hb
    rw [hb] at h
    exact Exec.returns_bind (Exec.returns_check _ h) (fun _ => Exec.returns_modify _)
  · intro _
    exact Exec.returns_when _ (fun _ => Exec.returns_when _ (fun _ => Exec.returns_modify _))

mutual
theorem ResolveObjectReferences_returns (env : ResolveEnv) (L : List FRepParentCmd)
    (O : UObject) :
    ∀ (m : List (Int × FObjectReferences)) (S D Max : Int) (b : Bool),
      WellFormedRefsMap env L m = true →
      Exec.Returns (ResolveObjectReferences env L O m S D Max b)
  | [], S, D, Max, b => by
    intro _
    rw [ResolveObjectReferences]
    exact Exec.returns_pure _
  | (o, e) :: rest, S, D, Max, b => by
    intro h
    rw [WellFormedRefsMap, Bool.and_eq_true] at h
    obtain ⟨he, hr⟩ := h
    rw [ResolveObjectReferences]
    split
    · exact ResolveObjectReferences_returns env L O rest S D Max b hr
    · refine Exec.returns_bind (ResolveObjectReferencesEntry_returns env L O e o S D b he) ?_
      intro r1
      refine Exec.returns_bind (ResolveObjectReferences_returns env L O rest S D Max r1.2 hr) ?_
      intro r2
      split <;> exact Exec.returns_pure _
theorem ResolveObjectReferencesEntry_returns (env : ResolveEnv) (L : List FRepParentCmd)
    (O : UObject) :
    ∀ (e : FObjectReferences) (o S D : Int) (b : Bool),
      WellFormedRefs env L e = true →
      Exec.Returns (ResolveObjectReferencesEntry env L O e o S D b)
  | FObjectReferences.mk u bs (some m) i P, o, S, D, b => by
    intro h
    rw [WellFormedRefs, Bool.and_eq_true, Bool.and_eq_true, decide_eq_true_eq] at h
    obtain ⟨⟨hi, hP⟩, hm⟩ := h
    rw [ResolveObjectReferencesEntry]
    refine Exec.returns_bind (Exec.returns_deref _ ?_) ?_
    · rw [List.get?_eq_getElem?, List.getElem?_eq_getElem hi]
      rfl
    intro Parent
    refine Exec.returns_bind (Exec.returns_check _ hP) ?_
    intro _
    refine Exec.returns_bind (Exec.returns_modify _) ?_
    intro _
    refine Exec.returns_bind (ResolveObjectReferences_returns env L O m _ _ _ false hm) ?_
    intro r1
    split <;> exact Exec.returns_pure _
  | FObjectReferences.mk u bs none i P, o, S, D, b => by
    intro h
    rw [WellFormedRefs, Bool.and_eq_true, Bool.and_eq_true, decide_eq_true_eq] at h
    obtain ⟨⟨hi, hu⟩, hP⟩ := h
    rw [ResolveObjectReferencesEntry]
    refine Exec.returns_bind (Exec.returns_deref _ ?_) ?_
    · rw [List.get?_eq_getElem?, List.getElem?_eq_getElem hi]
      rfl
    intro Parent
    refine Exec.returns_bind (ResolveUnresolvedRefs_returns env bs u false none hu) ?_
    intro r1
    refine Exec.returns_bind
      (Exec.returns_when _ (fun _ => ApplyResolvedRefs_returns env O Parent P bs _ S D o hP)) ?_
    intro _
    split <;> exact Exec.returns_pure _
end

mutual
theorem PendingRefsOfMap_UnresolvedAfter (env : ResolveEnv) :
    ∀ (m : List (Int × FObjectReferences)) (S D Max : Int),
      PendingRefsOfMap (UnresolvedAfter env m S D Max) =
        (VisitedRefsOfMap env m S D Max).filter
          (fun ObjectRef => (env.GetNetGUIDFromUnrealObjectRef ObjectRef).isNone)
  | [], S, D, Max => by
    rw [UnresolvedAfter, VisitedRefsOfMap, PendingRefsOfMap]
    rfl
  | (o, e) :: rest, S, D, Max => by
    have ih := PendingRefsOfMap_UnresolvedAfter env rest S D Max
    have ie := PendingRefs_UnresolvedAfterEntry env e o S D
    rw [UnresolvedAfter, VisitedRefsOfMap]
    split
    · exact ih
    · rw [List.filter_append, ← ih, ← ie]
      cases UnresolvedAfterEntry env e o S D with
      | none => rfl
      | some Kept =>
        show PendingRefsOfMap ((o, Kept) :: UnresolvedAfter env rest S D Max) = _
        rw [PendingRefsOfMap]
theorem PendingRefs_UnresolvedAfterEntry (env : ResolveEnv) :
    ∀ (e : FObjectReferences) (o S D : Int),
      (match UnresolvedAfterEntry env e o S D with
        | some Kept => PendingRefs Kept
        | none => []) =
        (VisitedRefs env e o S D).filter
          (fun ObjectRef => (env.GetNetGUIDFromUnrealObjectRef ObjectRef).isNone)
  | FObjectReferences.mk u bs (some m) i P, o, S, D => by
    have ih := PendingRefsOfMap_UnresolvedAfter env m (env.ScriptArrayData (S + o))
      (env.ScriptArrayData (D + o))
      (min (env.ScriptArrayNum (S + o)) (env.ScriptArrayNum (D + o)) * P.ElementSize)
    rw [UnresolvedAfterEntry, VisitedRefs, ← ih]
    generalize UnresolvedAfter env m _ _ _ = After
    cases After with
    | nil => simp [PendingRefsOfMap]
    | cons x xs => simp [PendingRefs]
  | FObjectReferences.mk u bs none i P, o, S, D => by
    rw [UnresolvedAfterEntry, VisitedRefs]
    generalize List.filter _ u = After
    cases After with
    | nil => simp
    | cons x xs => simp [PendingRefs]
end

mutual
theorem VisitedRefsOfMap_subset (env : ResolveEnv) :
    ∀ (m : List (Int × FObjectReferences)) (S D Max : Int) (R : UnrealObjectRef),
      R ∈ VisitedRefsOfMap env m S D Max → R ∈ PendingRefsOfMap m
  | [], S, D, Max, R => by
    intro h
    rw [VisitedRefsOfMap] at h
    cases h
  | (o, e) :: rest, S, D, Max, R => by
    intro h
    rw [VisitedRefsOfMap] at h
    rw [PendingRefsOfMap]
    split at h
    · exact List.mem_append_right _ (VisitedRefsOfMap_subset env rest S D Max R h)
    · rcases List.mem_append.mp h with h1 | h1
      · exact List.mem_append_left _ (VisitedRefs_subset env e o S D R h1)
      · exact List.mem_append_right _ (VisitedRefsOfMap_subset env rest S D Max R h1)
theorem VisitedRefs_subset (env : ResolveEnv) :
    ∀ (e : FObjectReferences) (o S D : Int) (R : UnrealObjectRef),
      R ∈ VisitedRefs env e o S D → R ∈ PendingRefs e
  | FObjectReferences.mk u bs (some m) i P, o, S, D, R => by
    intro h
    rw [VisitedRefs] at h
    rw [PendingRefs]
    exact VisitedRefsOfMap_subset env m _ _ _ R h
  | FObjectReferences.mk u bs none i P, o, S, D, R => by
    intro h
    rw [VisitedRefs] at h
    rw [PendingRefs]
    exact h
end

/-- A reference pending after resolution was pending before and has no valid GUID. -/
theorem mem_PendingRefsOfMap_UnresolvedAfter (env : ResolveEnv)
    (m : List (Int × FObjectReferences)) (S D Max : Int) (R : UnrealObjectRef)
    (h : R ∈ PendingRefsOfMap (UnresolvedAfter env m S D Max)) :
    R ∈ PendingRefsOfMap m ∧ env.GetNetGUIDFromUnrealObjectRef R = none := by
  rw [PendingRefsOfMap_UnresolvedAfter, List.mem_filter] at h
  exact ⟨VisitedRefsOfMap_subset env m S D Max R h.1, Option.isNone_iff_eq_none.mp h.2⟩

theorem ResolveObjectReferences_filter (env : ResolveEnv) (L : List FRepParentCmd) (O : UObject)
    (S D Max : Int) :
    ∀ (m : List (Int × FObjectReferences)) (b : Bool),
      ResolveObjectReferences env L O m S D Max b =
        ResolveObjectReferences env L O (m.filter (fun q => decide (q.1 < Max))) S D Max b := by
  intro m
  induction m with
  | nil =>
    intro b
    rfl
  | cons q rest ih =>
    intro b
    obtain ⟨o, e⟩ := q
    by_cases hge : o ≥ Max
    · have hf : List.filter (fun q => decide (q.1 < Max)) ((o, e) :: rest) =
          List.filter (fun q => decide (q.1 < Max)) rest := by
        simp [List.filter_cons, not_lt.mpr hge]
      rw [hf, ResolveObjectReferences, if_pos hge]
      exact ih b
    · have hf : List.filter (fun q => decide (q.1 < Max)) ((o, e) :: rest) =
          (o, e) :: List.filter (fun q => decide (q.1 < Max)) rest := by
        simp [List.filter_cons, not_le.mp hge]
      rw [hf, ResolveObjectReferences, if_neg hge]
      conv => rhs; rw [ResolveObjectReferences, if_neg hge]
      congr 1
      funext r1
      rw [ih r1.2]

theorem ResolveObjectReferences_out_of_range (env : ResolveEnv) (L : List FRepParentCmd)
    (O : UObject) (S D Max : Int) (b : Bool) :
    ∀ (m : List (Int × FObjectReferences)), (∀ q ∈ m, Max ≤ q.1) →
      ResolveObjectReferences env L O m S D Max b = pure ([], b) := by
  intro m
  induction m with
  | nil =>
    intro _
    rfl
  | cons q rest ih =>
    intro h
    obtain ⟨o, e⟩ := q
    rw [ResolveObjectReferences, if_pos (h (o, e) (List.mem_cons_self _ _))]
    exact ih (fun x hx => h x (List.mem_cons_of_mem _ hx))

theorem UnresolvedAfter_offsets (env : ResolveEnv) (S D Max : Int) :
    ∀ (m : List (Int × FObjectReferences)), ∀ q ∈ UnresolvedAfter env m S D Max,
      q.1 < Max ∧ ∃ e, (q.1, e) ∈ m ∧ UnresolvedAfterEntry env e q.1 S D = some q.2 := by
  intro m
  induction m with
  | nil =>
    intro q hq
    rw [UnresolvedAfter] at hq
    cases hq
  | cons x rest ih =>
    intro q hq
    obtain ⟨o, e⟩ := x
    have hrest : q ∈ UnresolvedAfter env rest S D Max →
        q.1 < Max ∧ ∃ e1, (q.1, e1) ∈ (o, e) :: rest ∧
          UnresolvedAfterEntry env e1 q.1 S D = some q.2 := by
      intro h1
      obtain ⟨h2, e1, h3, h4⟩ := ih q h1
      exact ⟨h2, e1, List.mem_cons_of_mem _ h3, h4⟩
    rw [UnresolvedAfter] at hq
    split at hq
    · exact hrest hq
    · rename_i hge
      split at hq
      · rename_i Kept hk
        rcases List.mem_cons.mp hq with h1 | h1
        · subst h1
          exact ⟨not_le.mp hge, e, List.mem_cons_self _ _, hk⟩
        · exact hrest h1
      · exact hrest hq

/-! ## The loop of `ResolveIncomingOperations` -/

theorem SameQueue_preorder : Exec.Preorder SameQueue where
  refl := fun _ => rfl
  trans := fun _ _ _ h1 h2 => Eq.trans h2 h1

theorem emit_sameQueue (e : Event) : Exec.Keeps SameQueue (emit e) := ⟨fun _ => rfl⟩

theorem ResolveIncomingOperationsFor_sameQueue (env : ResolveEnv) (p : FChannelObjectPair) :
    Exec.Keeps SameQueue (ResolveIncomingOperationsFor env p) := by
  have hp := SameQueue_preorder
  unfold ResolveIncomingOperationsFor
  refine Exec.keeps_bind hp (Exec.keeps_get hp) ?_
  intro s
  split
  · exact Exec.keeps_pure hp _
  · refine Exec.keeps_bind hp (emit_sameQueue _) ?_
    intro _
    split
    · exact ⟨fun _ => rfl⟩
    · refine Exec.keeps_bind hp ⟨fun _ => rfl⟩ ?_
      intro _
      refine Exec.keeps_bind hp (Exec.keeps_when hp _ (emit_sameQueue _)) ?_
      intro _
      exact Exec.keeps_when hp _ ⟨fun _ => rfl⟩

theorem ResolveIncomingOperations_sameQueue (env : ResolveEnv) (O : UObject)
    (R : UnrealObjectRef) : Exec.Keeps SameQueue (ResolveIncomingOperations env O R) := by
  have hp := SameQueue_preorder
  unfold ResolveIncomingOperations
  refine Exec.keeps_bind hp (Exec.keeps_get hp) ?_
  intro s
  split
  · exact Exec.keeps_pure hp _
  · refine Exec.keeps_bind hp
      (Exec.keeps_forEach hp _ (ResolveIncomingOperationsFor_sameQueue env) _) ?_
    intro _
    exact ⟨fun _ => rfl⟩

theorem ResolvePendingOperations_Internal_sameQueue (env : ResolveEnv) (O : UObject)
    (R : UnrealObjectRef) : Exec.Keeps SameQueue (ResolvePendingOperations_Internal env O R) := by
  have hp := SameQueue_preorder
  unfold ResolvePendingOperations_Internal
  exact Exec.keeps_bind hp (emit_sameQueue _) (fun _ =>
    Exec.keeps_bind hp (ResolveIncomingOperations_sameQueue env O R) (fun _ => emit_sameQueue _))

theorem ResolveObjectReferencesCalls_append (t u : List Event) :
    ResolveObjectReferencesCalls (t ++ u) =
      ResolveObjectReferencesCalls t ++ ResolveObjectReferencesCalls u := by
  induction t with
  | nil => rfl
  | cons e t ih => cases e <;> simp [ResolveObjectReferencesCalls, ih]

theorem ResolveObjectReferencesCalls_of_writes (t : List Event)
    (h : ∀ e ∈ t, e.isResolveWrite = true) : ResolveObjectReferencesCalls t = [] := by
  induction t with
  | nil => rfl
  | cons e t ih =>
    have he := h e (List.mem_cons_self e t)
    have hrec := ih (fun x hx => h x (List.mem_cons_of_mem e hx))
    cases e <;> first | exact hrec | cases he

theorem ResolveOwner_eq_ok (env : ResolveEnv) (p : FChannelObjectPair) (M : FObjectReferencesMap)
    (r : FObjectReferencesMap × Bool) (st : ResolveState)
    (h : ResolveOwner env p M = Outcome.ok r st) :
    r.1 = UnresolvedAfterOwner env p M ∧ r.2 = !r.1.isEmpty ∧
      ∀ e ∈ st.Calls, e.isResolveWrite = true := by
  unfold ResolveOwner at h
  obtain ⟨e1, f1⟩ := ResolveObjectReferences_eq_ok env _ _ _ _ _ _ _ _ _ _ h
  obtain ⟨t, ht, hw⟩ := Exec.keeps_of_eq CallsGrow
    (ResolveObjectReferences_grows env _ _ _ _ _ _ _) h
  refine ⟨e1, by rw [f1, Bool.false_or], ?_⟩
  rw [ht]
  exact hw

/-- What a normal return of the loop body of `ResolveIncomingOperations` leaves: the
reverse index as before, the forward entry of the channel and object as
`ForwardEntryAfter` says and every other forward entry as before, and one call of
`ResolveObjectReferences` when there was a forward entry, none otherwise. -/
theorem ResolveIncomingOperationsFor_eq_ok (env : ResolveEnv) (p : FChannelObjectPair)
    (s s' : USpatialReceiver) (h : ResolveIncomingOperationsFor env p s = Outcome.ok () s') :
    s'.IncomingRefsMap = s.IncomingRefsMap ∧
    TMap.Find s'.UnresolvedRefsMap p =
      ForwardEntryAfter env p (TMap.Find s.UnresolvedRefsMap p) ∧
    (∀ q, q ≠ p → TMap.Find s'.UnresolvedRefsMap q = TMap.Find s.UnresolvedRefsMap q) ∧
    ∃ t, s'.Trace = s.Trace ++ t ∧
      ResolveObjectReferencesCalls t =
        if (TMap.Find s.UnresolvedRefsMap p).isSome then [p] else [] := by
  unfold ResolveIncomingOperationsFor at h
  have k0 := Exec.get_bind_eq_ok h
  clear h
  cases hF : TMap.Find s.UnresolvedRefsMap p with
  | none =>
    rw [hF] at k0
    cases k0
    exact ⟨rfl, by rw [hF]; rfl, fun _ _ => rfl, [], by simp, rfl⟩
  | some M =>
    rw [hF] at k0
    have k1 := Exec.emit_bind_eq_ok k0
    clear k0
    cases hO : ResolveOwner env p M with
    | fatal st =>
      rw [hO] at k1
      cases k1
    | ok r st =>
      rw [hO] at k1
      obtain ⟨e1, f1, hw⟩ := ResolveOwner_eq_ok env p M r st hO
      have hcalls := ResolveObjectReferencesCalls_of_writes st.Calls hw
      have k2 := Exec.modify_bind_eq_ok k1
      clear k1
      obtain ⟨_, s3, h3, k3⟩ := Exec.bind_eq_ok k2
      clear k2
      have hs3 : s3.IncomingRefsMap = s.IncomingRefsMap ∧
          s3.UnresolvedRefsMap = TMap.Set s.UnresolvedRefsMap p r.1 ∧
          ∃ t, s3.Trace = s.Trace ++ t ∧ ResolveObjectReferencesCalls t = [p] := by
        cases hm : st.bOutSomeObjectsWereMapped with
        | false =>
          rw [hm] at h3
          cases h3
          refine ⟨rfl, rfl, [Event.ResolveObjectReferences p.1 p.2] ++ st.Calls, ?_, ?_⟩
          · simp
          · rw [ResolveObjectReferencesCalls_append, hcalls]
            rfl
        | true =>
          rw [hm] at h3
          cases h3
          refine ⟨rfl, rfl, [Event.ResolveObjectReferences p.1 p.2] ++ st.Calls ++
            [Event.PostReceiveSpatialUpdate p.1 p.2 st.RepNotifies], ?_, ?_⟩
          · simp [emit, Exec.modify]
          · rw [ResolveObjectReferencesCalls_append, ResolveObjectReferencesCalls_append, hcalls]
            rfl
      obtain ⟨hi3, hu3, t, ht, hc⟩ := hs3
      rw [ForwardEntryAfter, ← e1]
      cases hr : r.2 with
      | false =>
        rw [hr] at k3 f1
        cases k3
        have hemp : r.1.isEmpty = true := by
          cases hq : r.1.isEmpty
          · rw [hq] at f1
            cases f1
          · rfl
        refine ⟨hi3, ?_, ?_, t, ht, by simpa using hc⟩
        · show TMap.Find (TMap.Remove s3.UnresolvedRefsMap p) p = _
          rw [TMap.Find_Remove_self, if_pos hemp]
        · intro q hq
          show TMap.Find (TMap.Remove s3.UnresolvedRefsMap p) q = _
          rw [TMap.Find_Remove_of_ne _ _ _ hq, hu3, TMap.Find_Set_of_ne _ _ _ _ hq]
      | true =>
        rw [hr] at k3 f1
        cases k3
        have hemp : ¬ r.1.isEmpty = true := by
          cases hq : r.1.isEmpty
          · simp
          · rw [hq] at f1
            cases f1
        refine ⟨hi3, ?_, ?_, t, ht, by simpa using hc⟩
        · rw [hu3, TMap.Find_Set_self, if_neg hemp]
        · intro q hq
          rw [hu3, TMap.Find_Set_of_ne _ _ _ _ hq]

/-- What a normal return of the loop of `ResolveIncomingOperations` over a set of waiting
channels and objects leaves. -/
theorem ResolveIncomingOperations_loop (env : ResolveEnv) :
    ∀ (TargetObjectSet : List FChannelObjectPair) (s s' : USpatialReceiver),
      TargetObjectSet.Nodup →
      Exec.forEach (ResolveIncomingOperationsFor env) TargetObjectSet s = Outcome.ok () s' →
      s'.IncomingRefsMap = s.IncomingRefsMap ∧
      (∀ p ∈ TargetObjectSet, TMap.Find s'.UnresolvedRefsMap p =
        ForwardEntryAfter env p (TMap.Find s.UnresolvedRefsMap p)) ∧
      (∀ q, q ∉ TargetObjectSet →
        TMap.Find s'.UnresolvedRefsMap q = TMap.Find s.UnresolvedRefsMap q) ∧
      ∃ t, s'.Trace = s.Trace ++ t ∧
        ResolveObjectReferencesCalls t =
          TargetObjectSet.filter (fun p => (TMap.Find s.UnresolvedRefsMap p).isSome) := by
  intro xs
  induction xs with
  | nil =>
    intro s s' _ h
    rw [Exec.forEach_nil] at h
    cases h
    exact ⟨rfl, fun p hp => absurd hp (List.not_mem_nil p), fun _ _ => rfl, [],
      (List.append_nil _).symm, rfl⟩
  | cons x xs ih =>
    intro s s' hnd h
    rw [Exec.forEach_cons] at h
    obtain ⟨hx, hxs⟩ := List.nodup_cons.mp hnd
    cases h1 : ResolveIncomingOperationsFor env x s with
    | fatal s1 =>
      rw [h1] at h
      cases h
    | ok a s1 =>
      rw [h1] at h
      obtain ⟨i1, f1, o1, t1, ht1, c1⟩ := ResolveIncomingOperationsFor_eq_ok env x s s1 h1
      obtain ⟨i2, f2, o2, t2, ht2, c2⟩ := ih s1 s' hxs h
      refine ⟨i2.trans i1, ?_, ?_, t1 ++ t2, ?_, ?_⟩
      · intro p hp
        rcases List.mem_cons.mp hp with hpx | hpx
        · subst hpx
          rw [o2 p hx, f1]
        · have hne : p ≠ x := fun e => hx (e ▸ hpx)
          rw [f2 p hpx, o1 p hne]
      · intro q hq
        have hne : q ≠ x := fun e => hq (e ▸ List.mem_cons_self x xs)
        have hnm : q ∉ xs := fun e => hq (List.mem_cons_of_mem x e)
        rw [o2 q hnm, o1 q hne]
      · rw [ht2, ht1, List.append_assoc]
      · rw [ResolveObjectReferencesCalls_append, c1, c2, List.filter_cons]
        have hsame : List.filter (fun p => (TMap.Find s1.UnresolvedRefsMap p).isSome) xs =
            List.filter (fun p => (TMap.Find s.UnresolvedRefsMap p).isSome) xs := by
          apply List.filter_congr
          intro p hp
          have hne : p ≠ x := fun e => hx (e ▸ hp)
          rw [o1 p hne]
        rw [hsame]
        cases (TMap.Find s.UnresolvedRefsMap x).isSome <;> rfl

/-- What a normal return of `ResolveIncomingOperations` leaves. -/
theorem ResolveIncomingOperations_eq_ok (env : ResolveEnv) (O : UObject) (R : UnrealObjectRef)
    (s s' : USpatialReceiver) (hnd : (WaitingFor s R).Nodup)
    (h : ResolveIncomingOperations env O R s = Outcome.ok () s') :
    TMap.Find s'.IncomingRefsMap R = none ∧
    (∀ R', R' ≠ R → TMap.Find s'.IncomingRefsMap R' = TMap.Find s.IncomingRefsMap R') ∧
    (∀ p ∈ WaitingFor s R, TMap.Find s'.UnresolvedRefsMap p =
      ForwardEntryAfter env p (TMap.Find s.UnresolvedRefsMap p)) ∧
    (∀ q, q ∉ WaitingFor s R →
      TMap.Find s'.UnresolvedRefsMap q = TMap.Find s.UnresolvedRefsMap q) ∧
    ∃ t, s'.Trace = s.Trace ++ t ∧
      ResolveObjectReferencesCalls t =
        (WaitingFor s R).filter (fun p => (TMap.Find s.UnresolvedRefsMap p).isSome) := by
  unfold ResolveIncomingOperations at h
  have k0 := Exec.get_bind_eq_ok h
  clear h
  unfold WaitingFor at hnd ⊢
  cases hF : TMap.Find s.IncomingRefsMap R with
  | none =>
    rw [hF] at k0
    cases k0
    exact ⟨hF, fun _ _ => rfl, fun p hp => absurd hp (List.not_mem_nil p), fun _ _ => rfl, [],
      (List.append_nil _).symm, rfl⟩
  | some TargetObjectSet =>
    rw [hF] at k0 hnd
    obtain ⟨_, s1, h1, k1⟩ := Exec.bind_eq_ok k0
    clear k0
    cases k1
    obtain ⟨i1, f1, o1, t, ht, c⟩ := ResolveIncomingOperations_loop env TargetObjectSet s s1 hnd h1
    refine ⟨?_, ?_, f1, o1, t, ht, c⟩
    · show TMap.Find (TMap.Remove s1.IncomingRefsMap R) R = none
      exact TMap.Find_Remove_self _ _
    · intro R' hne
      show TMap.Find (TMap.Remove s1.IncomingRefsMap R) R' = _
      rw [TMap.Find_Remove_of_ne _ _ _ hne, i1]

theorem ResolveIncomingOperationsFor_not_fatal (env : ResolveEnv) (p : FChannelObjectPair)
    (s : USpatialReceiver)
    (hwf : ∀ M, TMap.Find s.UnresolvedRefsMap p = some M →
      WellFormedRefsMap env (env.GetObjectRepLayout p.1 p.2) M = true) :
    (ResolveIncomingOperationsFor env p s).isFatal = false := by
  unfold ResolveIncomingOperationsFor
  simp only [Exec.bind_apply, Exec.get]
  cases hF : TMap.Find s.UnresolvedRefsMap p with
  | none => rfl
  | some M =>
    have hret := (ResolveObjectReferences_returns env (env.GetObjectRepLayout p.1 p.2) p.2 M
      (env.GetObjectStaticBuffer p.1 p.2).1 (env.ObjectAddress p.2)
      (env.GetObjectStaticBuffer p.1 p.2).2 false (hwf M hF)).run ResolveState.initial
    have hO : (ResolveOwner env p M).isFatal = false := hret
    cases hR : ResolveOwner env p M with
    | fatal st =>
      rw [hR] at hO
      cases hO
    | ok r st =>
      cases hm : st.bOutSomeObjectsWereMapped <;> cases hr : r.2 <;>
        simp [emit, Exec.modify, Exec.when, hm, hr, hR, Exec.ret, Outcome.isFatal,
          Exec.bind_apply]

theorem ResolveIncomingOperations_loop_not_fatal (env : ResolveEnv) :
    ∀ (TargetObjectSet : List FChannelObjectPair) (s : USpatialReceiver),
      TargetObjectSet.Nodup →
      (∀ p ∈ TargetObjectSet, ∀ M, TMap.Find s.UnresolvedRefsMap p = some M →
        WellFormedRefsMap env (env.GetObjectRepLayout p.1 p.2) M = true) →
      (Exec.forEach (ResolveIncomingOperationsFor env) TargetObjectSet s).isFatal = false := by
  intro xs
  induction xs with
  | nil =>
    intro s _ _
    rfl
  | cons x xs ih =>
    intro s hnd hwf
    obtain ⟨hx, hxs⟩ := List.nodup_cons.mp hnd
    have hfx := ResolveIncomingOperationsFor_not_fatal env x s
      (hwf x (List.mem_cons_self x xs))
    rw [Exec.forEach_cons]
    cases h1 : ResolveIncomingOperationsFor env x s with
    | fatal s1 =>
      rw [h1] at hfx
      cases hfx
    | ok a s1 =>
      obtain ⟨_, _, o1, _⟩ := ResolveIncomingOperationsFor_eq_ok env x s s1 h1
      apply ih s1 hxs
      intro p hp M hM
      have hne : p ≠ x := fun e => hx (e ▸ hp)
      rw [o1 p hne] at hM
      exact hwf p (List.mem_cons_of_mem x hp) M hM

/-- `ResolveIncomingOperations` returns normally when the reference maps of the waiting
channels and objects are well formed. -/
theorem ResolveIncomingOperations_not_fatal (env : ResolveEnv) (O : UObject)
    (R : UnrealObjectRef) (s : USpatialReceiver) (hnd : (WaitingFor s R).Nodup)
    (hwf : ∀ p ∈ WaitingFor s R, ∀ M, TMap.Find s.UnresolvedRefsMap p = some M →
      WellFormedRefsMap env (env.GetObjectRepLayout p.1 p.2) M = true) :
    (ResolveIncomingOperations env O R s).isFatal = false := by
  unfold WaitingFor at hnd hwf
  unfold ResolveIncomingOperations
  simp only [Exec.bind_apply, Exec.get]
  cases hF : TMap.Find s.IncomingRefsMap R with
  | none => rfl
  | some TargetObjectSet =>
    rw [hF] at hnd hwf
    have hloop := ResolveIncomingOperations_loop_not_fatal env TargetObjectSet s hnd hwf
    cases h1 : Exec.forEach (ResolveIncomingOperationsFor env) TargetObjectSet s with
    | fatal s1 =>
      rw [h1] at hloop
      cases hloop
    | ok a s1 => simp [Exec.bind_apply, h1, Exec.modify, Outcome.isFatal]

/-! ## Properties of reference resolution -/

/-- C25: `ResolveObjectReferences` treats the entries at or beyond `MaxAbsOffset` as if they
were not in the map: the call is the call on the map without them, with the same calls on
the object, the same flag and the same outcome, and on a map that has only such entries it
returns at once with an empty map and the flag as it was.  On a normal return every entry
left has an offset below `MaxAbsOffset`, and the nested map of an array entry left at an
offset has only offsets below the smaller of the lengths of the stored and of the current
array there, times the element size of the property. -/
theorem C25_out_of_range_entries_are_discarded (env : ResolveEnv) (RepLayout : List FRepParentCmd)
    (ReplicatedObject : UObject) (ObjectReferencesMap : List (Int × FObjectReferences))
    (StoredData Data MaxAbsOffset : Int) (bOutStillHasUnresolved : Bool) (st : ResolveState) :
    ResolveObjectReferences env RepLayout ReplicatedObject ObjectReferencesMap StoredData Data
        MaxAbsOffset bOutStillHasUnresolved st =
      ResolveObjectReferences env RepLayout ReplicatedObject
        (ObjectReferencesMap.filter (fun q => decide (q.1 < MaxAbsOffset))) StoredData Data
        MaxAbsOffset bOutStillHasUnresolved st ∧
    ((∀ q ∈ ObjectReferencesMap, MaxAbsOffset ≤ q.1) →
      ResolveObjectReferences env RepLayout ReplicatedObject ObjectReferencesMap StoredData Data
        MaxAbsOffset bOutStillHasUnresolved st = Outcome.ok ([], bOutStillHasUnresolved) st) ∧
    ∀ r st', ResolveObjectReferences env RepLayout ReplicatedObject ObjectReferencesMap
        StoredData Data MaxAbsOffset bOutStillHasUnresolved st = Outcome.ok r st' →
      (∀ q ∈ r.1, q.1 < MaxAbsOffset) ∧
      ∀ AbsOffset UnresolvedRefs bSingleProp Nested ParentIndex Property,
        (AbsOffset, FObjectReferences.mk UnresolvedRefs bSingleProp (some Nested) ParentIndex
          Property) ∈ r.1 →
        ∀ q ∈ Nested, q.1 < min (env.ScriptArrayNum (StoredData + AbsOffset))
          (env.ScriptArrayNum (Data + AbsOffset)) * Property.ElementSize := by
  refine ⟨?_, ?_, ?_⟩
  · rw [← ResolveObjectReferences_filter]
  · intro h
    rw [ResolveObjectReferences_out_of_range env RepLayout ReplicatedObject StoredData Data
      MaxAbsOffset bOutStillHasUnresolved ObjectReferencesMap h]
    rfl
  · intro r st' h
    obtain ⟨e1, _⟩ := ResolveObjectReferences_eq_ok env _ _ _ _ _ _ _ _ _ _ h
    rw [e1]
    refine ⟨fun q hq => (UnresolvedAfter_offsets env _ _ _ _ q hq).1, ?_⟩
    intro o u bs Nested i P hmem q hq
    obtain ⟨_, e, _, he⟩ := UnresolvedAfter_offsets env _ _ _ _ _ hmem
    obtain ⟨u0, b0, A0, i0, P0⟩ := e
    dsimp only at he
    cases A0 with
    | none =>
      rw [UnresolvedAfterEntry] at he
      split at he
      · cases he
      · cases he
    | some m0 =>
      rw [UnresolvedAfterEntry] at he
      split at he
      · cases he
      · cases he
        exact (UnresolvedAfter_offsets env _ _ _ _ q hq).1

/-- C22: on a normal return of `ResolveIncomingOperations(Object, R)`, started with a set of
waiting channels and objects for R that has no element twice, the reverse index holds no
entry for R, and the calls of `ResolveObjectReferences` made are, in the order of the set,
one for each waiting channel and object that had a forward entry: no channel and object was
re-driven twice, and those re-driven are the waiting ones that had a forward entry; and the call returns normally when the reference
maps of the waiting channels and objects are well formed. -/
theorem C22_resolution_redrives_each_waiting_owner_once (env : ResolveEnv) (Object : UObject)
    (R : UnrealObjectRef) (s : USpatialReceiver) (hnd : (WaitingFor s R).Nodup) :
    (∀ s', ResolveIncomingOperations env Object R s = Outcome.ok () s' →
      TMap.Find s'.IncomingRefsMap R = none ∧
      ∃ t, s'.Trace = s.Trace ++ t ∧
        ResolveObjectReferencesCalls t =
          (WaitingFor s R).filter (fun p => (TMap.Find s.UnresolvedRefsMap p).isSome) ∧
        (ResolveObjectReferencesCalls t).Nodup ∧
        ∀ p, p ∈ ResolveObjectReferencesCalls t ↔
          p ∈ WaitingFor s R ∧ (TMap.Find s.UnresolvedRefsMap p).isSome = true) ∧
    ((∀ p ∈ WaitingFor s R, ∀ M, TMap.Find s.UnresolvedRefsMap p = some M →
        WellFormedRefsMap env (env.GetObjectRepLayout p.1 p.2) M = true) →
      (ResolveIncomingOperations env Object R s).isFatal = false) := by
  refine ⟨?_, ResolveIncomingOperations_not_fatal env Object R s hnd⟩
  intro s' h
  obtain ⟨h1, _, _, _, t, ht, hc⟩ := ResolveIncomingOperations_eq_ok env Object R s s' hnd h
  refine ⟨h1, t, ht, hc, ?_, ?_⟩
  · rw [hc]
    exact hnd.filter _
  · intro p
    rw [hc, List.mem_filter]

/-- C22 at the example, where the object on channel 1 waits for three references:
`ResolveIncomingOperations` for the first one returns normally and leaves no reverse entry
for it. -/
theorem C22_resolution_redrives_each_waiting_owner_once_witness :
    TMap.Find (ResolveIncomingOperations Example.resolveEnv 501 { Entity := 5, Offset := 0 }
        Example.waiting).state.IncomingRefsMap { Entity := 5, Offset := 0 } = none ∧
      (ResolveIncomingOperations Example.resolveEnv 501 { Entity := 5, Offset := 0 }
        Example.waiting).isFatal = false :=
  ⟨((C22_resolution_redrives_each_waiting_owner_once Example.resolveEnv 501
      { Entity := 5, Offset := 0 } Example.waiting (by decide)).1 _
      (Outcome.eq_ok_of_not_fatal _ (by decide))).1,
    (C22_resolution_redrives_each_waiting_owner_once Example.resolveEnv 501
      { Entity := 5, Offset := 0 } Example.waiting (by decide)).2 (by decide)⟩

mutual
theorem UnresolvedAfter_stillUnresolved (env : ResolveEnv) :
    ∀ (m : List (Int × FObjectReferences)) (S D Max : Int),
      StillUnresolvedMap (UnresolvedAfter env m S D Max) = true
  | [], _, _, _ => by simp [UnresolvedAfter, StillUnresolvedMap]
  | (o, e) :: rest, S, D, Max => by
    have ih := UnresolvedAfter_stillUnresolved env rest S D Max
    have ie := UnresolvedAfterEntry_stillUnresolved env e o S D
    rw [UnresolvedAfter]
    split
    · exact ih
    · split
      · rename_i Kept hk
        rw [StillUnresolvedMap, ie Kept hk, ih]
        rfl
      · exact ih
theorem UnresolvedAfterEntry_stillUnresolved (env : ResolveEnv) :
    ∀ (e : FObjectReferences) (o S D : Int) (Kept : FObjectReferences),
      UnresolvedAfterEntry env e o S D = some Kept → StillUnresolved Kept = true
  | FObjectReferences.mk u b (some m) i P, o, S, D, Kept => by
    intro h
    have ih := UnresolvedAfter_stillUnresolved env m (env.ScriptArrayData (S + o))
      (env.ScriptArrayData (D + o))
      (min (env.ScriptArrayNum (S + o)) (env.ScriptArrayNum (D + o)) * P.ElementSize)
    rw [UnresolvedAfterEntry] at h
    split at h
    · cases h
    · rename_i hne
      cases h
      rw [StillUnresolved, ih]
      simp [hne]
  | FObjectReferences.mk u b none i P, o, S, D, Kept => by
    intro h
    rw [UnresolvedAfterEntry] at h
    split at h
    · cases h
    · rename_i hne
      cases h
      rw [StillUnresolved]
      simp [hne]
end

/-! ## Registering the unresolved references of an update -/

theorem TSet.mem_Add {κ : Type} [DecidableEq κ] (xs : List κ) (x y : κ) :
    y ∈ TSet.Add xs x ↔ y ∈ xs ∨ y = x := by
  unfold TSet.Add
  split
  · rename_i h
    constructor
    · exact Or.inl
    · rintro (h1 | h1)
      · exact h1
      · rw [h1]
        exact h
  · simp

theorem TSet.nodup_Add {κ : Type} [DecidableEq κ] (xs : List κ) (x : κ) (h : xs.Nodup) :
    (TSet.Add xs x).Nodup := by
  unfold TSet.Add
  split
  · exact h
  · rename_i hx
    rw [List.nodup_append]
    refine ⟨h, List.nodup_singleton x, ?_⟩
    intro a ha hb
    rw [List.mem_singleton.mp hb] at ha
    exact hx ha

theorem QueueIncomingRepUpdates_loop (p : FChannelObjectPair) :
    ∀ (refs : List UnrealObjectRef) (s : USpatialReceiver),
      ∃ s', Exec.forEach (fun UnresolvedRef => Exec.modify (fun s : USpatialReceiver => { s with
          IncomingRefsMap := TMap.Set s.IncomingRefsMap UnresolvedRef
            (TSet.Add ((TMap.Find s.IncomingRefsMap UnresolvedRef).getD []) p) })) refs s =
          Outcome.ok () s' ∧
        s'.UnresolvedRefsMap = s.UnresolvedRefsMap ∧
        (∀ R q, q ∈ WaitingFor s' R ↔ q ∈ WaitingFor s R ∨ (q = p ∧ R ∈ refs)) ∧
        ((∀ R, (WaitingFor s R).Nodup) → ∀ R, (WaitingFor s' R).Nodup) := by
  intro refs
  induction refs with
  | nil =>
    intro s
    exact ⟨s, rfl, rfl, fun R q => by simp, fun h => h⟩
  | cons r refs ih =>
    intro s
    obtain ⟨s', h1, h2, h3, h4⟩ := ih { s with
      IncomingRefsMap := TMap.Set s.IncomingRefsMap r
        (TSet.Add ((TMap.Find s.IncomingRefsMap r).getD []) p) }
    have hw : ∀ R, WaitingFor { s with
        IncomingRefsMap := TMap.Set s.IncomingRefsMap r
          (TSet.Add ((TMap.Find s.IncomingRefsMap r).getD []) p) } R =
        if R = r then TSet.Add (WaitingFor s r) p else WaitingFor s R := by
      intro R
      unfold WaitingFor
      by_cases hR : R = r
      · rw [if_pos hR, hR]
        show (TMap.Find (TMap.Set s.IncomingRefsMap r _) r).getD [] = _
        rw [TMap.Find_Set_self]
        rfl
      · rw [if_neg hR]
        show (TMap.Find (TMap.Set s.IncomingRefsMap r _) R).getD [] = _
        rw [TMap.Find_Set_of_ne _ _ _ _ hR]
    refine ⟨s', ?_, h2, ?_, ?_⟩
    · rw [Exec.forEach_cons]
      exact h1
    · intro R q
      rw [h3 R q, hw R]
      by_cases hR : R = r
      · rw [if_pos hR, TSet.mem_Add, hR]
        simp only [List.mem_cons, true_or, and_true]
        tauto
      · rw [if_neg hR]
        simp only [List.mem_cons, hR, false_or]
    · intro hnd
      apply h4
      intro R
      rw [hw R]
      split
      · exact TSet.nodup_Add _ _ (hnd r)
      · exact hnd R

/-- What `QueueIncomingRepUpdates` does: it returns normally; the channel and object are
added to the waiting set of each reference given; their forward entry is removed when the
map given is empty, and no other forward entry changes. -/
theorem QueueIncomingRepUpdates_eq_ok (p : FChannelObjectPair) (M : FObjectReferencesMap)
    (refs : List UnrealObjectRef) (s : USpatialReceiver) :
    ∃ s', QueueIncomingRepUpdates p M refs s = Outcome.ok () s' ∧
      (∀ q, TMap.Find s'.UnresolvedRefsMap q =
        if q = p ∧ M.length = 0 then none else TMap.Find s.UnresolvedRefsMap q) ∧
      (∀ R q, q ∈ WaitingFor s' R ↔ q ∈ WaitingFor s R ∨ (q = p ∧ R ∈ refs)) ∧
      ((∀ R, (WaitingFor s R).Nodup) → ∀ R, (WaitingFor s' R).Nodup) := by
  obtain ⟨s1, h1, h2, h3, h4⟩ := QueueIncomingRepUpdates_loop p refs s
  unfold QueueIncomingRepUpdates
  rw [Exec.bind_apply, h1]
  by_cases hM : M.length = 0
  · refine ⟨{ s1 with UnresolvedRefsMap := TMap.Remove s1.UnresolvedRefsMap p }, ?_, ?_, h3, h4⟩
    · simp only [hM, if_true]
      rfl
    · intro q
      show TMap.Find (TMap.Remove s1.UnresolvedRefsMap p) q = _
      by_cases hq : q = p
      · rw [if_pos ⟨hq, hM⟩, hq, TMap.Find_Remove_self]
      · rw [if_neg (fun h => hq h.1), TMap.Find_Remove_of_ne _ _ _ hq, h2]
  · refine ⟨s1, ?_, ?_, h3, h4⟩
    · simp only [hM, if_false]
      rfl
    · intro q
      rw [if_neg (fun h => hM h.2), h2]

theorem ForwardRefs_of_ForwardEntryAfter (env : ResolveEnv) (p : FChannelObjectPair)
    (M : FObjectReferencesMap) (s' : USpatialReceiver)
    (h : TMap.Find s'.UnresolvedRefsMap p = ForwardEntryAfter env p (some M)) :
    ForwardRefs s' p = PendingRefsOfMap (UnresolvedAfterOwner env p M) := by
  unfold ForwardRefs
  rw [h, ForwardEntryAfter]
  cases hA : UnresolvedAfterOwner env p M with
  | nil => simp [PendingRefsOfMap]
  | cons x xs => simp

/-- C26: `ResolveObjectReferences`, started with `bOutStillHasUnresolved` false, returns with
the flag true exactly when the map it leaves is not empty, and every entry it leaves still
has an unresolved reference, in its own set or, for an array entry, in a nested map that is
not empty, and so on inside.  After a normal return of `ResolveIncomingOperations` the forward
entry of a waiting channel and object that had one is the map that resolution left when that
map is not empty, and there is no forward entry when it is empty.  `QueueIncomingRepUpdates`,
called with the map that the forward index holds for the channel and object, returns
normally and leaves that entry when the map is not empty and no entry when it is empty. -/
theorem C26_reference_map_is_retained_while_non_empty (env : ResolveEnv) :
    (∀ (RepLayout : List FRepParentCmd) (ReplicatedObject : UObject)
        (ObjectReferencesMap : List (Int × FObjectReferences)) (StoredData Data MaxAbsOffset : Int)
        (st st' : ResolveState) (r : List (Int × FObjectReferences) × Bool),
      ResolveObjectReferences env RepLayout ReplicatedObject ObjectReferencesMap StoredData Data
        MaxAbsOffset false st = Outcome.ok r st' →
      (r.2 = true ↔ r.1 ≠ []) ∧ StillUnresolvedMap r.1 = true) ∧
    (∀ (Object : UObject) (R : UnrealObjectRef) (s s' : USpatialReceiver),
      (WaitingFor s R).Nodup →
      ResolveIncomingOperations env Object R s = Outcome.ok () s' →
      ∀ p ∈ WaitingFor s R, ∀ M, TMap.Find s.UnresolvedRefsMap p = some M →
        TMap.Find s'.UnresolvedRefsMap p =
          (if (UnresolvedAfterOwner env p M).isEmpty then none
            else some (UnresolvedAfterOwner env p M)) ∧
        StillUnresolvedMap (UnresolvedAfterOwner env p M) = true) ∧
    (∀ (p : FChannelObjectPair) (M : FObjectReferencesMap) (refs : List UnrealObjectRef)
        (s : USpatialReceiver),
      TMap.Find s.UnresolvedRefsMap p = some M →
      (QueueIncomingRepUpdates p M refs s).isFatal = false ∧
      TMap.Find (QueueIncomingRepUpdates p M refs s).state.UnresolvedRefsMap p =
        if M.isEmpty then none else some M) := by
  refine ⟨?_, ?_, ?_⟩
  · intro L O m S D Max st st' r h
    obtain ⟨e1, f1⟩ := ResolveObjectReferences_eq_ok env _ _ _ _ _ _ _ _ _ _ h
    refine ⟨?_, ?_⟩
    · rw [f1, Bool.false_or]
      cases r.1 <;> simp
    · rw [e1]
      exact UnresolvedAfter_stillUnresolved env m S D Max
  · intro O R s s' hnd h p hp M hM
    obtain ⟨_, _, h3, _⟩ := ResolveIncomingOperations_eq_ok env O R s s' hnd h
    refine ⟨?_, UnresolvedAfter_stillUnresolved env M _ _ _⟩
    rw [h3 p hp, hM]
    rfl
  · intro p M refs s hM
    obtain ⟨s', h1, h2, _⟩ := QueueIncomingRepUpdates_eq_ok p M refs s
    rw [h1]
    refine ⟨rfl, ?_⟩
    show TMap.Find s'.UnresolvedRefsMap p = _
    rw [h2 p, hM]
    cases M with
    | nil => simp
    | cons x xs => simp

/-- C26 at the example: after resolution for the first reference the forward entry of the
object on channel 1 is still there, since the reference into entity 6 is left; and
`QueueIncomingRepUpdates` with an empty reference map leaves no forward entry. -/
theorem C26_reference_map_is_retained_while_non_empty_witness :
    (TMap.Find (ResolveIncomingOperations Example.resolveEnv 501 { Entity := 5, Offset := 0 }
        Example.waiting).state.UnresolvedRefsMap (1, 1)).isSome = true ∧
      TMap.Find (QueueIncomingRepUpdates (1, 1) [] [] { Example.initial with
        UnresolvedRefsMap := [((1, 1), [])] }).state.UnresolvedRefsMap (1, 1) = none := by
  refine ⟨?_, ?_⟩
  · have h := ((C26_reference_map_is_retained_while_non_empty Example.resolveEnv).2.1 501
      { Entity := 5, Offset := 0 } Example.waiting _ (by decide)
      (Outcome.eq_ok_of_not_fatal _ (by decide)) (1, 1) (by decide) _ rfl).1
    rw [h]
    decide
  · exact ((C26_reference_map_is_retained_while_non_empty Example.resolveEnv).2.2 (1, 1) [] []
      { Example.initial with UnresolvedRefsMap := [((1, 1), [])] } rfl).2

/-- C27, as stated, fails: in the example a channel and object wait for three references, of
which the first two have a valid GUID; `ResolveIncomingOperations` for the first one returns
normally, and the second one, which is another reference, is no longer among the unresolved
references of the forward entry and its field, at offset 8 of the object, has been set. -/
theorem C27_counterexample_another_reference_is_resolved_too :
    (ResolveIncomingOperations Example.resolveEnv 501 { Entity := 5, Offset := 0 }
      Example.waiting).isFatal = false ∧
    ({ Entity := 5, Offset := 1 } : UnrealObjectRef) ≠ { Entity := 5, Offset := 0 } ∧
    ({ Entity := 5, Offset := 1 } : UnrealObjectRef) ∈ ForwardRefs Example.waiting (1, 1) ∧
    ({ Entity := 5, Offset := 1 } : UnrealObjectRef) ∉
      ForwardRefs (ResolveIncomingOperations Example.resolveEnv 501 { Entity := 5, Offset := 0 }
        Example.waiting).state (1, 1) ∧
    Event.SetObjectPropertyValue Example.ObjectProperty 2008 (some 502) ∈
      (ResolveIncomingOperations Example.resolveEnv 501 { Entity := 5, Offset := 0 }
        Example.waiting).state.Trace := by
  decide

/-- The unresolved references of the forward entries after a normal return of
`ResolveIncomingOperations`. -/
theorem ResolveIncomingOperations_forwardRefs (env : ResolveEnv)
    (Object : UObject) (R : UnrealObjectRef) (s s' : USpatialReceiver)
    (hnd : (WaitingFor s R).Nodup)
    (h : ResolveIncomingOperations env Object R s = Outcome.ok () s') :
    (∀ p ∈ WaitingFor s R, ∀ M, TMap.Find s.UnresolvedRefsMap p = some M →
      ForwardRefs s' p = (VisitedRefsOfOwner env p M).filter
        (fun ObjectRef => (env.GetNetGUIDFromUnrealObjectRef ObjectRef).isNone)) ∧
    (∀ p ∈ WaitingFor s R, ∀ R' ∈ ForwardRefs s' p,
      env.GetNetGUIDFromUnrealObjectRef R' = none) ∧
    (∀ p R', R' ∈ ForwardRefs s' p → R' ∈ ForwardRefs s p) ∧
    (∀ q, q ∉ WaitingFor s R →
      TMap.Find s'.UnresolvedRefsMap q = TMap.Find s.UnresolvedRefsMap q) := by
  obtain ⟨_, _, h3, h4, _⟩ := ResolveIncomingOperations_eq_ok env Object R s s' hnd h
  have hafter : ∀ p ∈ WaitingFor s R, ∀ M, TMap.Find s.UnresolvedRefsMap p = some M →
      ForwardRefs s' p = PendingRefsOfMap (UnresolvedAfterOwner env p M) := by
    intro p hp M hM
    apply ForwardRefs_of_ForwardEntryAfter
    rw [h3 p hp, hM]
  have hnone : ∀ p ∈ WaitingFor s R, TMap.Find s.UnresolvedRefsMap p = none →
      ForwardRefs s' p = [] := by
    intro p hp hM
    unfold ForwardRefs
    rw [h3 p hp, hM]
    rfl
  refine ⟨?_, ?_, ?_, h4⟩
  · intro p hp M hM
    rw [hafter p hp M hM]
    exact PendingRefsOfMap_UnresolvedAfter env M _ _ _
  · intro p hp R' hR'
    cases hM : TMap.Find s.UnresolvedRefsMap p with
    | none =>
      rw [hnone p hp hM] at hR'
      cases hR'
    | some M =>
      rw [hafter p hp M hM] at hR'
      exact (mem_PendingRefsOfMap_UnresolvedAfter env M _ _ _ R' hR').2
  · intro p R' hR'
    by_cases hp : p ∈ WaitingFor s R
    · cases hM : TMap.Find s.UnresolvedRefsMap p with
      | none =>
        rw [hnone p hp hM] at hR'
        cases hR'
      | some M =>
        rw [hafter p hp M hM] at hR'
        unfold ForwardRefs
        rw [hM]
        exact (mem_PendingRefsOfMap_UnresolvedAfter env M _ _ _ R' hR').1
    · unfold ForwardRefs at hR' ⊢
      rw [h4 p hp] at hR'
      exact hR'

/-- C27 (amended): on a normal return of `ResolveIncomingOperations(Object, R)`, the unresolved
references left in the forward entry of a waiting channel and object are the references
that `ResolveObjectReferences` looked at and that had no valid GUID; a reference with a
valid GUID is removed whether or not it is R.  No reference is added to any forward entry,
and the forward entry of a channel and object that was not waiting for R is as before. -/
theorem C27_resolution_removes_every_reference_with_a_valid_guid (env : ResolveEnv)
    (Object : UObject) (R : UnrealObjectRef) (s s' : USpatialReceiver)
    (hnd : (WaitingFor s R).Nodup)
    (h : ResolveIncomingOperations env Object R s = Outcome.ok () s') :
    (∀ p ∈ WaitingFor s R, ∀ M, TMap.Find s.UnresolvedRefsMap p = some M →
      ForwardRefs s' p = (VisitedRefsOfOwner env p M).filter
        (fun ObjectRef => (env.GetNetGUIDFromUnrealObjectRef ObjectRef).isNone)) ∧
    (∀ p ∈ WaitingFor s R, ∀ R' ∈ ForwardRefs s' p,
      env.GetNetGUIDFromUnrealObjectRef R' = none) ∧
    (∀ p R', R' ∈ ForwardRefs s' p → R' ∈ ForwardRefs s p) ∧
    (∀ q, q ∉ WaitingFor s R →
      TMap.Find s'.UnresolvedRefsMap q = TMap.Find s.UnresolvedRefsMap q) :=
  ResolveIncomingOperations_forwardRefs env Object R s s' hnd h

/-- C27 (amended) at the example: after resolution for the first reference the only
unresolved reference left is the one into entity 6, which has no valid GUID. -/
theorem C27_resolution_removes_every_reference_with_a_valid_guid_witness :
    ForwardRefs (ResolveIncomingOperations Example.resolveEnv 501 { Entity := 5, Offset := 0 }
        Example.waiting).state (1, 1) = [{ Entity := 6, Offset := 0 }] := by
  have h := (C27_resolution_removes_every_reference_with_a_valid_guid Example.resolveEnv 501
    { Entity := 5, Offset := 0 } Example.waiting _ (by decide)
    (Outcome.eq_ok_of_not_fatal _ (by decide))).1 (1, 1) (by decide) _ rfl
  rw [h]
  decide

/-! ## The two indexes of reference resolution -/

theorem ResolverStep_keeps (s s' : USpatialReceiver) (hstep : ResolverStep s s')
    (hc : ForwardCovered s) (hnd : ∀ R, (WaitingFor s R).Nodup) :
    ForwardCovered s' ∧ ∀ R, (WaitingFor s' R).Nodup := by
  cases hstep with
  | queue _ p M refs hreported =>
    obtain ⟨s1, h1, h2, h3, h4⟩ := QueueIncomingRepUpdates_eq_ok p M refs
      { s with UnresolvedRefsMap := TMap.Set s.UnresolvedRefsMap p M }
    have h2a : ∀ q, TMap.Find s1.UnresolvedRefsMap q =
        if q = p ∧ M.length = 0 then none
        else TMap.Find (TMap.Set s.UnresolvedRefsMap p M) q := h2
    have h3a : ∀ R q, q ∈ WaitingFor s1 R ↔ q ∈ WaitingFor s R ∨ (q = p ∧ R ∈ refs) := h3
    have h4a : (∀ R, (WaitingFor s R).Nodup) → ∀ R, (WaitingFor s1 R).Nodup := h4
    rw [h1]
    show ForwardCovered s1 ∧ ∀ R, (WaitingFor s1 R).Nodup
    refine ⟨?_, h4a hnd⟩
    intro q R hR
    rw [h3a R q]
    unfold ForwardRefs at hR
    rw [h2a q] at hR
    by_cases hq : q = p
    · subst hq
      by_cases hM : M.length = 0
      · rw [if_pos ⟨rfl, hM⟩] at hR
        cases hR
      · rw [if_neg (fun h => hM h.2), TMap.Find_Set_self] at hR
        rcases hreported R hR with h5 | h5
        · exact Or.inr ⟨rfl, h5⟩
        · exact Or.inl (hc q R h5)
    · rw [if_neg (fun h => hq h.1), TMap.Find_Set_of_ne _ _ _ _ hq] at hR
      exact Or.inl (hc q R hR)
  | resolve env Object R _ _ hvalid hreturn =>
    obtain ⟨g1, g2, _, _, _⟩ := ResolveIncomingOperations_eq_ok env Object R s s' (hnd R) hreturn
    obtain ⟨_, f2, f3, f4⟩ := ResolveIncomingOperations_forwardRefs env Object R s s' (hnd R) hreturn
    have hw : ∀ R', R' ≠ R → WaitingFor s' R' = WaitingFor s R' := by
      intro R' hne
      unfold WaitingFor
      rw [g2 R' hne]
    refine ⟨?_, ?_⟩
    · intro p R' hR'
      have hold := f3 p R' hR'
      have hne : R' ≠ R := by
        intro e
        subst e
        by_cases hp : p ∈ WaitingFor s R'
        · have hnone := f2 p hp R' hR'
          rw [hnone] at hvalid
          cases hvalid
        · unfold ForwardRefs at hR' hold
          exact hp (hc p R' hold)
      rw [hw R' hne]
      exact hc p R' hold
    · intro R'
      by_cases hne : R' = R
      · subst hne
        unfold WaitingFor
        rw [g1]
        exact List.nodup_nil
      · rw [hw R' hne]
        exact hnd R'

/-- C23, as stated, fails: the state of the example after the reader wrote three references for
the object on channel 1, `QueueIncomingRepUpdates` registered them, and
`ResolveIncomingOperations` ran for the first one, is reachable, and in it the channel and
object are still in the waiting set of the second reference, which is no longer among the
unresolved references of their forward entry. -/
theorem C23_counterexample_owner_stays_in_reverse_index :
    ResolverReachable (ResolveIncomingOperations Example.resolveEnv 501
      { Entity := 5, Offset := 0 } Example.waiting).state ∧
    ((1, 1) : FChannelObjectPair) ∈ WaitingFor (ResolveIncomingOperations Example.resolveEnv 501
      { Entity := 5, Offset := 0 } Example.waiting).state { Entity := 5, Offset := 1 } ∧
    ({ Entity := 5, Offset := 1 } : UnrealObjectRef) ∉
      ForwardRefs (ResolveIncomingOperations Example.resolveEnv 501
        { Entity := 5, Offset := 0 } Example.waiting).state (1, 1) ∧
    ¬ IndexConsistent (ResolveIncomingOperations Example.resolveEnv 501
      { Entity := 5, Offset := 0 } Example.waiting).state := by
  have hin : ((1, 1) : FChannelObjectPair) ∈
      WaitingFor (ResolveIncomingOperations Example.resolveEnv 501
        { Entity := 5, Offset := 0 } Example.waiting).state { Entity := 5, Offset := 1 } := by
    decide
  have hout : ({ Entity := 5, Offset := 1 } : UnrealObjectRef) ∉
      ForwardRefs (ResolveIncomingOperations Example.resolveEnv 501
        { Entity := 5, Offset := 0 } Example.waiting).state (1, 1) := by
    decide
  refine ⟨?_, hin, hout, fun hcons => hout ((hcons _ _).mp hin)⟩
  refine ResolverReachable.step Example.waiting _ ?_ ?_
  · refine ResolverReachable.step Example.initial _ (ResolverReachable.start _ rfl rfl) ?_
    exact ResolverStep.queue Example.initial (1, 1)
      [(0, FObjectReferences.mk [{ Entity := 5, Offset := 0 }] true none 0 Example.ObjectProperty),
       (8, FObjectReferences.mk [{ Entity := 5, Offset := 1 }] true none 0 Example.ObjectProperty),
       (16, FObjectReferences.mk [{ Entity := 6, Offset := 0 }] true none 0
         Example.ObjectProperty)]
      [{ Entity := 5, Offset := 0 }, { Entity := 5, Offset := 1 }, { Entity := 6, Offset := 0 }]
      (by decide)
  · exact ResolverStep.resolve Example.resolveEnv 501 { Entity := 5, Offset := 0 }
      Example.waiting _ (by decide) (Outcome.eq_ok_of_not_fatal _ (by decide))

/-- C23 (amended): in every state reached from empty indexes by the reader writing a reference
map and `QueueIncomingRepUpdates` registering the references reported, and by normal returns
of `ResolveIncomingOperations` for references that have a valid GUID, a channel and object
are in the waiting set of every unresolved reference of their forward entry (and no waiting
set has an element twice).  The converse is what fails. -/
theorem C23_forward_index_is_covered_by_reverse_index (s : USpatialReceiver)
    (h : ResolverReachable s) :
    ForwardCovered s ∧ ∀ R, (WaitingFor s R).Nodup := by
  induction h with
  | start s hforward hreverse =>
    refine ⟨?_, ?_⟩
    · intro p R hR
      unfold ForwardRefs at hR
      rw [hforward] at hR
      cases hR
    · intro R
      unfold WaitingFor
      rw [hreverse]
      exact List.nodup_nil
  | step s s' _ hstep ih => exact ResolverStep_keeps s s' hstep ih.1 ih.2

/-- C23 (amended) at the example state in which the object on channel 1 waits for three
references. -/
theorem C23_forward_index_is_covered_by_reverse_index_witness :
    ForwardCovered Example.waiting ∧ ∀ R, (WaitingFor Example.waiting R).Nodup :=
  C23_forward_index_is_covered_by_reverse_index Example.waiting
    (ResolverReachable.step Example.initial _ (ResolverReachable.start _ rfl rfl)
      (ResolverStep.queue Example.initial (1, 1)
        [(0, FObjectReferences.mk [{ Entity := 5, Offset := 0 }] true none 0
           Example.ObjectProperty),
         (8, FObjectReferences.mk [{ Entity := 5, Offset := 1 }] true none 0
           Example.ObjectProperty),
         (16, FObjectReferences.mk [{ Entity := 6, Offset := 0 }] true none 0
           Example.ObjectProperty)]
        [{ Entity := 5, Offset := 0 }, { Entity := 5, Offset := 1 }, { Entity := 6, Offset := 0 }]
        (by decide)))

/-! ## The bound at the example of a shrunk array -/

/-- C25 at the example map of a shrunk array, with the bound 64: the call copies the array
value and returns; what is left is the array entry with the nested entry at offset 0, below
the nested bound 16, while the nested entry at 16 and the entry at 64 are gone.  With an
empty layout, where any entry below the bound would stop the process, a map of entries at
and beyond the bound returns the empty map. -/
theorem C25_out_of_range_entries_are_discarded_witness :
    ResolveObjectReferences Example.resolveEnv
        (Example.resolveEnv.GetObjectRepLayout 1 1) 1 Example.shrunk 1000 2000 64 false
        ResolveState.initial =
      Outcome.ok
        ([(0, FObjectReferences.mk [] false
            (some [(0, FObjectReferences.mk [{ Entity := 6, Offset := 0 }] true none 0
              Example.ObjectProperty)])
            0 Example.ArrayProperty)], true)
        { Calls := [Event.CopySingleValue Example.ArrayProperty 1000 2000]
          RepNotifies := []
          bOutSomeObjectsWereMapped := false } ∧
    (∀ q ∈ [((0 : Int), FObjectReferences.mk [] false
        (some [(0, FObjectReferences.mk [{ Entity := 6, Offset := 0 }] true none 0
          Example.ObjectProperty)])
        0 Example.ArrayProperty)], q.1 < 64) ∧
    ResolveObjectReferences Example.resolveEnv [] 1
        [(64, FObjectReferences.mk [{ Entity := 6, Offset := 0 }] true none 0
          Example.ObjectProperty)] 1000 2000 64 false ResolveState.initial =
      Outcome.ok ([], false) ResolveState.initial :=
  ⟨rfl,
    ((C25_out_of_range_entries_are_discarded Example.resolveEnv
      (Example.resolveEnv.GetObjectRepLayout 1 1) 1 Example.shrunk 1000 2000 64 false
      ResolveState.initial).2.2 _ _ rfl).1,
    (C25_out_of_range_entries_are_discarded Example.resolveEnv [] 1
      [(64, FObjectReferences.mk [{ Entity := 6, Offset := 0 }] true none 0
        Example.ObjectProperty)] 1000 2000 64 false ResolveState.initial).2.1 (by decide)⟩

/-! ## Resolution at once when no critical section is open -/

theorem Event.isIncomingResolution_of_isResolveWrite (e : Event)
    (h : e.isResolveWrite = true) : e.isIncomingResolution = true := by
  cases e <;> first | rfl | cases h

theorem ResolveOwner_calls (env : ResolveEnv) (p : FChannelObjectPair)
    (M : FObjectReferencesMap) :
    ∀ e ∈ (ResolveOwner env p M).state.Calls, e.isIncomingResolution = true := by
  obtain ⟨t, ht, hw⟩ := (ResolveObjectReferences_grows env
    (env.GetObjectRepLayout p.1 p.2) p.2 M (env.GetObjectStaticBuffer p.1 p.2).1
    (env.ObjectAddress p.2) (env.GetObjectStaticBuffer p.1 p.2).2 false).run ResolveState.initial
  intro e he
  have he2 : e ∈ ResolveState.initial.Calls ++ t := by
    rw [← ht]
    exact he
  rcases List.mem_append.mp he2 with h1 | h1
  · cases h1
  · exact Event.isIncomingResolution_of_isResolveWrite e (hw e h1)

theorem ResolveIncomingOperationsFor_frame (env : ResolveEnv) (p : FChannelObjectPair) :
    Exec.Keeps (Frame (fun e => e.isIncomingResolution = true))
      (ResolveIncomingOperationsFor env p) := by
  have hp := Frame.preorder (fun e => e.isIncomingResolution = true)
  unfold ResolveIncomingOperationsFor
  refine Exec.keeps_bind hp (Exec.keeps_get hp) ?_
  intro s
  split
  · exact Exec.keeps_pure hp _
  · rename_i M _
    refine Exec.keeps_bind hp (emit_frame _ rfl) ?_
    intro _
    have hcalls := ResolveOwner_calls env p M
    split
    · rename_i st hO
      rw [hO] at hcalls
      exact ⟨fun s1 => ⟨rfl, rfl, rfl, rfl, rfl, rfl, rfl, st.Calls, rfl, hcalls⟩⟩
    · rename_i r st hO
      rw [hO] at hcalls
      refine Exec.keeps_bind hp
        ⟨fun s1 => ⟨rfl, rfl, rfl, rfl, rfl, rfl, rfl, st.Calls, rfl, hcalls⟩⟩ ?_
      intro _
      refine Exec.keeps_bind hp (Exec.keeps_when hp _ (emit_frame _ rfl)) ?_
      intro _
      exact Exec.keeps_when hp _ (modify_unresolved_frame _ _)

theorem ResolveIncomingOperations_frame (env : ResolveEnv) (O : UObject)
    (R : UnrealObjectRef) :
    Exec.Keeps (Frame (fun e => e.isIncomingResolution = true))
      (ResolveIncomingOperations env O R) := by
  have hp := Frame.preorder (fun e => e.isIncomingResolution = true)
  unfold ResolveIncomingOperations
  refine Exec.keeps_bind hp (Exec.keeps_get hp) ?_
  intro s
  split
  · exact Exec.keeps_pure hp _
  · refine Exec.keeps_bind hp
      (Exec.keeps_forEach hp _ (ResolveIncomingOperationsFor_frame env) _) ?_
    intro _
    exact modify_incoming_frame _ _

/-- A normal return of `ResolveIncomingOperations` leaves no reverse entry for the
reference. -/
theorem ResolveIncomingOperations_removes (env : ResolveEnv) (O : UObject)
    (R : UnrealObjectRef) (s s' : USpatialReceiver)
    (h : ResolveIncomingOperations env O R s = Outcome.ok () s') :
    TMap.Find s'.IncomingRefsMap R = none := by
  unfold ResolveIncomingOperations at h
  have k0 := Exec.get_bind_eq_ok h
  clear h
  cases hF : TMap.Find s.IncomingRefsMap R with
  | none =>
    rw [hF] at k0
    cases k0
    exact hF
  | some TargetObjectSet =>
    rw [hF] at k0
    obtain ⟨_, s1, _, k1⟩ := Exec.bind_eq_ok k0
    cases k1
    exact TMap.Find_Remove_self _ _

/-- The outcome of `ResolvePendingOperations_Internal` from that of the call of
`ResolveIncomingOperations` that it makes after the first call on the sender. -/
theorem ResolvePendingOperations_Internal_eq (env : ResolveEnv) (O : UObject)
    (R : UnrealObjectRef) (s : USpatialReceiver) :
    ResolvePendingOperations_Internal env O R s =
      match ResolveIncomingOperations env O R
          { s with Trace := s.Trace ++ [Event.ResolveOutgoingOperations O] } with
      | Outcome.ok _ s2 =>
        Outcome.ok () { s2 with Trace := s2.Trace ++ [Event.ResolveOutgoingRPCs O] }
      | Outcome.fatal s2 => Outcome.fatal s2 := by
  unfold ResolvePendingOperations_Internal
  cases hR : ResolveIncomingOperations env O R
      { s with Trace := s.Trace ++ [Event.ResolveOutgoingOperations O] } with
  | ok a s2 => simp [Exec.bind_apply, emit, Exec.modify, hR]
  | fatal s2 => simp [Exec.bind_apply, emit, Exec.modify, hR]

/-- C24: when a critical section is open, `ResolvePendingOperations` returns normally with
the pair of the object and the reference appended to `ResolvedObjectQueue` and nothing else
changed, so both reference maps and the trace of calls are as before.  When no critical
section is open it is `ResolvePendingOperations_Internal`, and the resolution is run before
it returns: in every outcome, normal or fatal, the queue is as before and the first record
added is the call `ResolveOutgoingOperations` on the sender; on a normal return there is no
reverse entry for the reference, the records added are that call, the records of
`ResolveIncomingOperations` and the call `ResolveOutgoingRPCs`, in this order, and, the
waiting set having no element twice, `ResolveObjectReferences` was called for each waiting
channel and object that had a forward entry and the forward entry of each waiting channel
and object is what that call left; and the call returns normally when the reference maps of
the waiting channels and objects are well formed. -/
theorem C24_notification_is_queued_while_section_is_open (env : ResolveEnv) (Object : UObject)
    (ObjectRef : UnrealObjectRef) (s : USpatialReceiver) :
    (s.bInCriticalSection = true →
      ResolvePendingOperations env Object ObjectRef s =
        Outcome.ok () { s with
          ResolvedObjectQueue := s.ResolvedObjectQueue ++ [(Object, ObjectRef)] }) ∧
    (s.bInCriticalSection = false →
      ResolvePendingOperations env Object ObjectRef s =
        ResolvePendingOperations_Internal env Object ObjectRef s ∧
      (ResolvePendingOperations env Object ObjectRef s).state.ResolvedObjectQueue =
        s.ResolvedObjectQueue ∧
      (∃ t, (ResolvePendingOperations env Object ObjectRef s).state.Trace =
        s.Trace ++ Event.ResolveOutgoingOperations Object :: t) ∧
      (∀ s', ResolvePendingOperations env Object ObjectRef s = Outcome.ok () s' →
        TMap.Find s'.IncomingRefsMap ObjectRef = none ∧
        ∃ t, s'.Trace = s.Trace ++ [Event.ResolveOutgoingOperations Object] ++ t ++
            [Event.ResolveOutgoingRPCs Object] ∧
          (∀ e ∈ t, e.isIncomingResolution = true) ∧
          ((WaitingFor s ObjectRef).Nodup →
            ResolveObjectReferencesCalls t = (WaitingFor s ObjectRef).filter
              (fun p => (TMap.Find s.UnresolvedRefsMap p).isSome) ∧
            ∀ p ∈ WaitingFor s ObjectRef, TMap.Find s'.UnresolvedRefsMap p =
              ForwardEntryAfter env p (TMap.Find s.UnresolvedRefsMap p))) ∧
      ((WaitingFor s ObjectRef).Nodup →
        (∀ p ∈ WaitingFor s ObjectRef, ∀ M, TMap.Find s.UnresolvedRefsMap p = some M →
          WellFormedRefsMap env (env.GetObjectRepLayout p.1 p.2) M = true) →
        (ResolvePendingOperations env Object ObjectRef s).isFatal = false)) := by
  constructor
  · intro h
    unfold ResolvePendingOperations
    show (if s.bInCriticalSection = true then _ else _ : RExec Unit) s = _
    rw [if_pos h]
    rfl
  · intro h
    have heq : ResolvePendingOperations env Object ObjectRef s =
        ResolvePendingOperations_Internal env Object ObjectRef s := by
      unfold ResolvePendingOperations
      show (if s.bInCriticalSection = true then _ else _ : RExec Unit) s = _
      rw [if_neg (by rw [h]; exact Bool.false_ne_true)]
    have hfr := (ResolveIncomingOperations_frame env Object ObjectRef).run
      { s with Trace := s.Trace ++ [Event.ResolveOutgoingOperations Object] }
    have hint := ResolvePendingOperations_Internal_eq env Object ObjectRef s
    refine ⟨heq, ?_, ?_, ?_, ?_⟩
    · rw [heq]
      exact (ResolvePendingOperations_Internal_sameQueue env Object ObjectRef).run s
    · rw [heq, hint]
      obtain ⟨_, _, _, _, _, _, _, t, ht, _⟩ := hfr
      cases hR : ResolveIncomingOperations env Object ObjectRef
          { s with Trace := s.Trace ++ [Event.ResolveOutgoingOperations Object] } with
      | ok a s2 =>
        rw [hR] at ht
        refine ⟨t ++ [Event.ResolveOutgoingRPCs Object], ?_⟩
        show s2.Trace ++ [Event.ResolveOutgoingRPCs Object] = _
        have ht2 : s2.Trace = (s.Trace ++ [Event.ResolveOutgoingOperations Object]) ++ t := ht
        rw [ht2]
        simp
      | fatal s2 =>
        rw [hR] at ht
        refine ⟨t, ?_⟩
        show s2.Trace = _
        have ht2 : s2.Trace = (s.Trace ++ [Event.ResolveOutgoingOperations Object]) ++ t := ht
        rw [ht2]
        simp
    · intro s' hok
      rw [heq, hint] at hok
      cases hR : ResolveIncomingOperations env Object ObjectRef
          { s with Trace := s.Trace ++ [Event.ResolveOutgoingOperations Object] } with
      | fatal s2 =>
        rw [hR] at hok
        cases hok
      | ok a s2 =>
        rw [hR] at hok hfr
        cases hok
        obtain ⟨_, _, _, _, _, _, _, t, ht, hP⟩ := hfr
        have ht2 : s2.Trace = (s.Trace ++ [Event.ResolveOutgoingOperations Object]) ++ t := ht
        refine ⟨ResolveIncomingOperations_removes env Object ObjectRef _ s2 hR, t, ?_, hP, ?_⟩
        · show s2.Trace ++ [Event.ResolveOutgoingRPCs Object] = _
          rw [ht2]
        · intro hnd
          obtain ⟨_, _, f1, _, t1, ht1, c1⟩ := ResolveIncomingOperations_eq_ok env Object
            ObjectRef { s with Trace := s.Trace ++ [Event.ResolveOutgoingOperations Object] }
            s2 hnd hR
          have hboth : (s.Trace ++ [Event.ResolveOutgoingOperations Object]) ++ t =
              (s.Trace ++ [Event.ResolveOutgoingOperations Object]) ++ t1 := by
            rw [← ht2]
            exact ht1
          rw [List.append_cancel_left hboth]
          exact ⟨c1, f1⟩
    · intro hnd hwf
      rw [heq, hint]
      have hnf := ResolveIncomingOperations_not_fatal env Object ObjectRef
        { s with Trace := s.Trace ++ [Event.ResolveOutgoingOperations Object] } hnd hwf
      cases hR : ResolveIncomingOperations env Object ObjectRef
          { s with Trace := s.Trace ++ [Event.ResolveOutgoingOperations Object] } with
      | fatal s2 =>
        rw [hR] at hnf
        cases hnf
      | ok a s2 => rfl

/-- C24 at the example, for the first of the three references.  With the section open the
notification is the one element of the queue and nothing else has changed.  With the section
closed the call returns normally with the queue still empty and no reverse entry for the
reference, and the records made are the call on the sender, the call of
`ResolveObjectReferences` for the object on channel 1 with the two writes it makes, the
notification of the channel, and the second call on the sender. -/
theorem C24_notification_is_queued_while_section_is_open_witness :
    ResolvePendingOperations Example.resolveEnv 501 { Entity := 5, Offset := 0 }
        { Example.waiting with bInCriticalSection := true } =
      Outcome.ok () { Example.waiting with
        bInCriticalSection := true
        ResolvedObjectQueue := [(501, { Entity := 5, Offset := 0 })] } ∧
    (ResolvePendingOperations Example.resolveEnv 501 { Entity := 5, Offset := 0 }
      Example.waiting).state.ResolvedObjectQueue = [] ∧
    TMap.Find (ResolvePendingOperations Example.resolveEnv 501 { Entity := 5, Offset := 0 }
      Example.waiting).state.IncomingRefsMap { Entity := 5, Offset := 0 } = none ∧
    (ResolvePendingOperations Example.resolveEnv 501 { Entity := 5, Offset := 0 }
      Example.waiting).isFatal = false ∧
    (ResolvePendingOperations Example.resolveEnv 501 { Entity := 5, Offset := 0 }
      Example.waiting).state.Trace =
      [Event.ResolveOutgoingOperations 501, Event.ResolveObjectReferences 1 1,
        Event.PreNetReceive 1,
        Event.SetObjectPropertyValue Example.ObjectProperty 2000 (some 501),
        Event.SetObjectPropertyValue Example.ObjectProperty 2008 (some 502),
        Event.PostReceiveSpatialUpdate 1 1 [Example.ObjectProperty],
        Event.ResolveOutgoingRPCs 501] :=
  ⟨(C24_notification_is_queued_while_section_is_open Example.resolveEnv 501
      { Entity := 5, Offset := 0 } { Example.waiting with bInCriticalSection := true }).1 rfl,
    ((C24_notification_is_queued_while_section_is_open Example.resolveEnv 501
      { Entity := 5, Offset := 0 } Example.waiting).2 rfl).2.1,
    ((((C24_notification_is_queued_while_section_is_open Example.resolveEnv 501
      { Entity := 5, Offset := 0 } Example.waiting).2 rfl).2.2.2.1) _
      (Outcome.eq_ok_of_not_fatal _ (by decide))).1,
    ((C24_notification_is_queued_while_section_is_open Example.resolveEnv 501
      { Entity := 5, Offset := 0 } Example.waiting).2 rfl).2.2.2.2 (by decide) (by decide),
    by decide⟩

end SpatialGDK
